import Mathlib

/-!
The channel repository of issue-1-REST: a shallow embedding of
`pkg/repositories/postgres/channel.repo.go`.

The relational store is a record of tables, each table a list of rows in the
order storage returns them.  Every `repo.db.Exec`, `repo.db.Query` and
`repo.db.QueryRow` of the source is one call of `dbExec`, `runQuery`,
`dbQueryStmt` or `dbQueryRow` here.  Each such call takes a fault argument: the connection-level
failure (if any) that the driver reports for that call.  With no fault the
statement runs against the tables and can still fail on a constraint.

Go's `(value, error)` results are pairs whose second component is
`Option RepoError`; a `nil` pointer is `none`, a `nil` slice is `[]`.
A failed type assertion `err.(*pq.Error)` is the outcome `Go.panic`.
-/

namespace ChannelRepo

/-! ## Errors -/

/-- Error value handed back by `database/sql`, by its dynamic type: lib/pq hands
out `*pq.Error`; `pq.Error` by value and every other error type are the other
two cases.  `msg` is what `Error()` prints. -/
inductive DbError where
  | pqPointer (code : String) (msg : String)
  | pqValue (code : String) (msg : String)
  | other (msg : String)
  deriving DecidableEq, Repr

/-- Errors the repository returns: the sentinels of package `channel`, a
driver error passed through unwrapped, a `time.Parse` failure, and the fresh
error built by `fmt.Errorf` from a format and the error it prints. -/
inductive RepoError where
  | ErrChannelNotFound
  | ErrAdminNotFound
  | ErrAdminAlreadyExists
  | ErrOwnerNotFound
  | ErrStickiedPostFull
  | ErrPostNotFound
  | ErrReleaseAlreadyExists
  | raw (e : DbError)
  | timeParse (value : String)
  | errorf (format : String) (arg : RepoError)
  deriving DecidableEq, Repr

/-- Outcome of a Go call that either returns or panics. -/
inductive Go (α : Type) where
  | ret (a : α)
  | panic
  deriving DecidableEq, Repr

/-! ## Tables -/

/-- Row of `"issue#1".channels`; `description` is nullable (the source reads it
through `COALESCE`). -/
structure ChannelRow where
  username : String
  name : String
  description : Option String
  creation_time : String
  deriving DecidableEq, Repr

/-- Row of `"issue#1".channel_admins`. -/
structure AdminRow where
  channel_username : String
  username : String
  is_owner : Bool
  deriving DecidableEq, Repr

/-- Row of `"issue#1".posts`, the two columns the repository reads. -/
structure PostRow where
  id : Nat
  channel_from : String
  deriving DecidableEq, Repr

/-- Row of `"issue#1".releases`, the two columns the repository reads. -/
structure ReleaseRow where
  id : Nat
  owner_channel : String
  deriving DecidableEq, Repr

/-- Row of `"issue#1".channel_official_catalog`. -/
structure CatalogRow where
  channel_username : String
  release_id : Nat
  post_from_id : Nat
  deriving DecidableEq, Repr

/-- Row of `"issue#1".channel_pictures`. -/
structure PictureRow where
  channelname : String
  image_name : String
  deriving DecidableEq, Repr

/-- The storage state: the users the admin rows refer to and the tables the
channel repository reads and writes.  `channel_stickies` has the single column
`post_id` the source uses. -/
structure DB where
  users : List String
  channels : List ChannelRow
  channel_admins : List AdminRow
  posts : List PostRow
  channel_stickies : List Nat
  releases : List ReleaseRow
  channel_official_catalog : List CatalogRow
  channel_pictures : List PictureRow
  deriving DecidableEq, Repr

/-- Value of `time.Time`, as a count of time units since the zero time. -/
abbrev Time := Nat

/-- The struct `channel.Channel`, with the fields the repository fills. -/
structure Channel where
  ChannelUsername : String
  Name : String
  Description : String
  CreationTime : Time
  AdminUsernames : List String
  OwnerUsername : String
  StickiedPostIDs : List Nat
  PostIDs : List Nat
  ReleaseIDs : List Nat
  OfficialReleaseIDs : List Nat
  PictureURL : String
  deriving DecidableEq, Repr

/-! ## Storage calls -/

/-- Connection-level failure of one `Exec` or `QueryRow`; `none` lets the
statement run. -/
abbrev ExecFault := Option DbError

/-- Failure of one `Query` and of the iteration over its rows: `query e` makes
`db.Query` return `e`, `scan i e` makes `rows.Scan` of the row at index `i`
return `e`, `rows i e` ends the iteration after `i` rows with `rows.Err()`
returning `e`. -/
inductive QueryFault where
  | clean
  | query (e : DbError)
  | scan (i : Nat) (e : DbError)
  | rows (i : Nat) (e : DbError)
  deriving DecidableEq, Repr

/-- The `*sql.Rows` a query returns: the rows `rows.Next()` steps through, each
with the result of its `Scan`, and the value of `rows.Err()` afterwards. -/
structure Rows (α : Type) where
  items : List (Except DbError α)
  err : Option DbError

/-- Function `db.Query`: the rows of the result set under the fault. -/
def dbQuery {α : Type} (f : QueryFault) (result : List α) : Except DbError (Rows α) :=
  match f with
  | .clean => .ok ⟨result.map .ok, none⟩
  | .query e => .error e
  | .scan i e =>
    .ok ⟨(result.take i).map .ok ++ (if i < result.length then [.error e] else []), none⟩
  | .rows i e => .ok ⟨(result.take i).map .ok, some e⟩

/-- The loop `for rows.Next() { err := rows.Scan(..); if err != nil { return }; body }`
with `step` as body. -/
def scanRows {α β : Type} (step : β → α → β) : List (Except DbError α) → β → Except DbError β
  | [], acc => .ok acc
  | .ok a :: rest, acc => scanRows step rest (step acc a)
  | .error e :: _, _ => .error e

/-- The three places where iterating a query can fail. -/
inductive Stage where
  | query
  | scan
  | rowsErr
  deriving DecidableEq, Repr

/-- The pattern shared by the list getters: `Query`, the scan loop, `rows.Err()`. -/
def runQuery {α β : Type} (f : QueryFault) (result : List α) (init : β) (step : β → α → β) :
    Except (Stage × DbError) β :=
  match dbQuery f result with
  | .error e => .error (.query, e)
  | .ok rows =>
    match scanRows step rows.items init with
    | .error e => .error (.scan, e)
    | .ok acc =>
      match rows.err with
      | some e => .error (.rowsErr, e)
      | none => .ok acc

/-- Result of `QueryRow(..).Scan(..)`. -/
inductive RowResult (α : Type) where
  | row (a : α)
  | noRows
  | failed (e : DbError)

/-- Function `db.QueryRow(..).Scan(..)`: the first row, `sql.ErrNoRows` when
there is none, the driver error under a fault. -/
def dbQueryRow {α : Type} (f : ExecFault) (result : List α) : RowResult α :=
  match f with
  | some e => .failed e
  | none =>
    match result with
    | [] => .noRows
    | a :: _ => .row a

/-- Function `db.Exec`: under a fault nothing is written; otherwise the statement
runs and either writes or is rejected by a constraint, which writes nothing. -/
def dbExec (f : ExecFault) (stmt : DB → Except DbError DB) (db : DB) : DB × Option DbError :=
  match f with
  | some e => (db, some e)
  | none =>
    match stmt db with
    | .ok db' => (db', none)
    | .error e => (db, some e)

/-- PostgreSQL error for a violated foreign key. -/
def foreignKeyViolation : DbError := .pqPointer "23503" "pq: foreign key violation"

/-- PostgreSQL error for a violated unique key. -/
def uniqueKeyViolation : DbError := .pqPointer "23505" "pq: unique violation"

/-- PostgreSQL error for an unknown column. -/
def undefinedColumn : DbError := .pqPointer "42703" "pq: undefined column"

/-! ## Statements

The table declarations are not among the sources.  The keys and references
below are the ones the source names through the error codes it classifies
(23503 and 23505 on the admin insert, 23503 and `ON CONFLICT` on the sticky
insert); a deleted channel takes its dependent rows along, and so does a
renamed one. -/

/-- Modelled from the spec: "unique username (primary key)" of a channel; the
table declarations are not among the sources. -/
abbrev channelKeyTaken (db : DB) (username : String) : Prop :=
  ∃ r ∈ db.channels, r.username = username

/-- Modelled from the spec: "`Conflict` (unique constraint violation on
username/email or duplicate relation insert)", here the key
(channel_username, username) of `channel_admins`, whose violation the source
reads as `ErrAdminAlreadyExists`; the table declarations are not among the
sources. -/
abbrev adminKeyTaken (db : DB) (channelUsername adminUsername : String) : Prop :=
  ∃ r ∈ db.channel_admins, r.channel_username = channelUsername ∧ r.username = adminUsername

/-- Modelled from the spec: "`NotFound` if a referenced foreign entity (e.g.,
owner username) does not exist", here the references of an admin row to its
user and its channel, whose violation the source reads as `ErrAdminNotFound`;
the table declarations are not among the sources. -/
abbrev adminReferenceMissing (db : DB) (channelUsername adminUsername : String) : Prop :=
  adminUsername ∉ db.users ∨ ¬ ∃ c ∈ db.channels, c.username = channelUsername

/-- Modelled from the spec: the key `post_id` of `channel_stickies` that
`ON CONFLICT DO NOTHING` of the source relies on ("set of stickied post IDs");
the table declarations are not among the sources. -/
abbrev stickyKeyTaken (db : DB) (postID : Nat) : Prop :=
  postID ∈ db.channel_stickies

/-- Modelled from the spec: "`NotFound` (entity or referenced foreign entity
absent)", here the reference of a sticky to its post, whose violation the
source reads as `ErrPostNotFound`; the table declarations are not among the
sources. -/
abbrev stickyReferenceMissing (db : DB) (postID : Nat) : Prop :=
  ¬ ∃ p ∈ db.posts, p.id = postID

/-- Statement `INSERT INTO "issue#1".channels (username, name, description) VALUES ($1, $2, $3)`;
`now` is the default the store gives `creation_time`. -/
def insertChannel (now username name description : String) (db : DB) : Except DbError DB :=
  if channelKeyTaken db username then .error uniqueKeyViolation
  else .ok { db with channels := db.channels ++ [⟨username, name, some description, now⟩] }

/-- Modelled from the spec: the references to `channels.username`, which the
table declarations (not among the sources) give to the dependent tables; a
renamed channel keeps its rows. -/
def renameDependents (username value : String) (db : DB) : DB :=
  { db with
    channel_admins := db.channel_admins.map (fun r =>
      if r.channel_username = username then { r with channel_username := value } else r)
    posts := db.posts.map (fun r =>
      if r.channel_from = username then { r with channel_from := value } else r)
    releases := db.releases.map (fun r =>
      if r.owner_channel = username then { r with owner_channel := value } else r)
    channel_official_catalog := db.channel_official_catalog.map (fun r =>
      if r.channel_username = username then { r with channel_username := value } else r)
    channel_pictures := db.channel_pictures.map (fun r =>
      if r.channelname = username then { r with channelname := value } else r) }

/-- Statement `UPDATE "issue#1".channels SET <column> = $1 WHERE username = $2`. -/
def updateChannelsColumn (column value username : String) (db : DB) : Except DbError DB :=
  if column = "name" then
    .ok { db with channels := db.channels.map (fun r =>
      if r.username = username then { r with name := value } else r) }
  else if column = "description" then
    .ok { db with channels := db.channels.map (fun r =>
      if r.username = username then { r with description := some value } else r) }
  else if column = "username" then
    if value ≠ username ∧ channelKeyTaken db username ∧ channelKeyTaken db value then
      .error uniqueKeyViolation
    else
      .ok (renameDependents username value { db with channels := db.channels.map (fun r =>
        if r.username = username then { r with username := value } else r) })
  else .error undefinedColumn

/-- Modelled from the spec: "cascading removal of dependent rows is a storage
responsibility"; the table declarations are not among the sources. -/
def removeDependents (username : String) (db : DB) : DB :=
  { db with
    channel_admins := db.channel_admins.filter (fun r => r.channel_username ≠ username)
    posts := db.posts.filter (fun r => r.channel_from ≠ username)
    channel_stickies := db.channel_stickies.filter (fun s =>
      ¬ ∃ p ∈ db.posts, p.id = s ∧ p.channel_from = username)
    releases := db.releases.filter (fun r => r.owner_channel ≠ username)
    channel_official_catalog :=
      db.channel_official_catalog.filter (fun r => r.channel_username ≠ username)
    channel_pictures := db.channel_pictures.filter (fun r => r.channelname ≠ username) }

/-- Statement `DELETE FROM "issue#1".channels WHERE username = $1`. -/
def deleteChannel (username : String) (db : DB) : Except DbError DB :=
  .ok (removeDependents username
    { db with channels := db.channels.filter (fun r => r.username ≠ username) })

/-- Statement `INSERT INTO "issue#1".channel_admins (channel_username,username,is_owner) VALUES ($1, $2,$3)`:
rejected with 23505 when the channel already has that admin, with 23503 when
the user or the channel does not exist. -/
def insertAdmin (channelUsername adminUsername : String) (owner : Bool) (db : DB) :
    Except DbError DB :=
  if adminKeyTaken db channelUsername adminUsername then .error uniqueKeyViolation
  else if adminReferenceMissing db channelUsername adminUsername then .error foreignKeyViolation
  else
    .ok { db with channel_admins := db.channel_admins ++ [⟨channelUsername, adminUsername, owner⟩] }

/-- Statement `DELETE FROM "issue#1".channel_admins WHERE channel_username = $1 AND username= $2`. -/
def deleteAdmin (channelUsername adminUsername : String) (db : DB) : Except DbError DB :=
  .ok { db with channel_admins := db.channel_admins.filter (fun r =>
    ¬ (r.channel_username = channelUsername ∧ r.username = adminUsername)) }

/-- Statement `UPDATE "issue#1".channel_admins SET is_owner = $3 WHERE channel_username =$1 AND username=$2`. -/
def updateOwnerFlag (channelUsername ownerUsername : String) (owner : Bool) (db : DB) :
    Except DbError DB :=
  .ok { db with channel_admins := db.channel_admins.map (fun r =>
    if r.channel_username = channelUsername ∧ r.username = ownerUsername then
      { r with is_owner := owner } else r) }

/-- Statement `UPDATE "issue#1".channel_admins SET is_owner = $3 where channel_username=$1 AND  username<>$2`. -/
def updateOthersOwnerFlag (channelUsername ownerUsername : String) (owner : Bool) (db : DB) :
    Except DbError DB :=
  .ok { db with channel_admins := db.channel_admins.map (fun r =>
    if r.channel_username = channelUsername ∧ r.username ≠ ownerUsername then
      { r with is_owner := owner } else r) }

/-- Statement `INSERT INTO channel_stickies (post_id) VALUES ($1) ON CONFLICT DO NOTHING`:
an already stickied post is left as it is, a post absent from `posts` is
rejected with 23503. -/
def insertSticky (postID : Nat) (db : DB) : Except DbError DB :=
  if stickyKeyTaken db postID then .ok db
  else if stickyReferenceMissing db postID then .error foreignKeyViolation
  else .ok { db with channel_stickies := db.channel_stickies ++ [postID] }

/-! ## Queries -/

/-- Rows of `SELECT id FROM "issue#1".releases WHERE owner_channel = $1`. -/
def selectReleases (db : DB) (username : String) : List Nat :=
  (db.releases.filter (fun r => r.owner_channel = username)).map (fun r => r.id)

/-- Rows of `SELECT release_id FROM "issue#1".channel_official_catalog WHERE channel_username = $1`. -/
def selectOfficial (db : DB) (username : String) : List Nat :=
  (db.channel_official_catalog.filter (fun r => r.channel_username = username)).map
    (fun r => r.release_id)

/-- Rows of `SELECT id FROM "issue#1".posts WHERE channel_from = $1`. -/
def selectPosts (db : DB) (username : String) : List Nat :=
  (db.posts.filter (fun r => r.channel_from = username)).map (fun r => r.id)

/-- Rows of `SELECT post_id FROM "issue#1".channel_stickies INNER JOIN "issue#1".posts
ON channel_stickies.post_id =posts.id WHERE posts.channel_from=$1`. -/
def selectStickied (db : DB) (username : String) : List Nat :=
  db.channel_stickies.flatMap (fun s =>
    (db.posts.filter (fun p => s = p.id ∧ p.channel_from = username)).map (fun _ => s))

/-- Rows of `SELECT username,is_owner FROM "issue#1".channel_admins WHERE channel_username = $1`. -/
def selectAdminFlags (db : DB) (username : String) : List (String × Bool) :=
  (db.channel_admins.filter (fun r => r.channel_username = username)).map
    (fun r => (r.username, r.is_owner))

/-- Rows of `SELECT username FROM "issue#1".channel_admins WHERE channel_username = $1`. -/
def selectAdmins (db : DB) (channelUsername : String) : List String :=
  (db.channel_admins.filter (fun r => r.channel_username = channelUsername)).map
    (fun r => r.username)

/-- Rows of `SELECT image_name FROM "issue#1".channel_pictures WHERE channelname = $1`. -/
def selectPicture (db : DB) (channelUsername : String) : List String :=
  (db.channel_pictures.filter (fun r => r.channelname = channelUsername)).map
    (fun r => r.image_name)

/-- Rows of `SELECT name, COALESCE(description, ''), creation_time FROM "issue#1".channels
WHERE username = $1`. -/
def selectChannel (db : DB) (channelUsername : String) : List (String × String × String) :=
  (db.channels.filter (fun r => r.username = channelUsername)).map
    (fun r => (r.name, r.description.getD "", r.creation_time))

/-! ## The repository -/

/-- Function `GetUnOfficialRelease`. -/
def GetUnOfficialRelease (db : DB) (f : QueryFault) (username : String) :
    List Nat × Option RepoError :=
  match runQuery f (selectReleases db username) [] (fun UnOfficialList Release =>
      UnOfficialList ++ [Release]) with
  | .error (.query, err) =>
    ([], some (.errorf "querying for unofficial catalog failed because of: %v" (.raw err)))
  | .error (.scan, err) => ([], some (.errorf "scanning from rows failed because: %v" (.raw err)))
  | .error (.rowsErr, err) =>
    ([], some (.errorf "scanning from rows faulty because: %v" (.raw err)))
  | .ok UnOfficialList => (UnOfficialList, none)

/-- Function `GetOfficialRelease`. -/
def GetOfficialRelease (db : DB) (f : QueryFault) (username : String) :
    List Nat × Option RepoError :=
  match runQuery f (selectOfficial db username) [] (fun OfficialList Release =>
      OfficialList ++ [Release]) with
  | .error (.query, err) =>
    ([], some (.errorf "querying for official catalog failed because of: %v" (.raw err)))
  | .error (.scan, err) => ([], some (.errorf "scanning from rows failed because: %v" (.raw err)))
  | .error (.rowsErr, err) =>
    ([], some (.errorf "scanning from rows faulty because: %v" (.raw err)))
  | .ok OfficialList => (OfficialList, none)

/-- Function `GetPosts`. -/
def GetPosts (db : DB) (f : QueryFault) (username : String) : List Nat × Option RepoError :=
  match runQuery f (selectPosts db username) [] (fun PostList Post => PostList ++ [Post]) with
  | .error (.query, err) =>
    ([], some (.errorf "querying for posts failed because of: %v" (.raw err)))
  | .error (.scan, err) => ([], some (.errorf "scanning from rows failed because: %v" (.raw err)))
  | .error (.rowsErr, err) =>
    ([], some (.errorf "scanning from rows faulty because: %v" (.raw err)))
  | .ok PostList => (PostList, none)

/-- Function `GetStickiedPost`. -/
def GetStickiedPost (db : DB) (f : QueryFault) (username : String) :
    List Nat × Option RepoError :=
  match runQuery f (selectStickied db username) [] (fun stickied Post => stickied ++ [Post]) with
  | .error (.query, err) =>
    ([], some (.errorf "querying for posts failed because of: %v" (.raw err)))
  | .error (.scan, err) => ([], some (.errorf "scanning from rows failed because: %v" (.raw err)))
  | .error (.rowsErr, err) =>
    ([], some (.errorf "scanning from rows faulty because: %v" (.raw err)))
  | .ok stickied => (stickied, none)

/-- Function `GetOwner`: the admin of the last row scanned whose `is_owner` is
true, the empty string when there is none. -/
def GetOwner (db : DB) (f : QueryFault) (username : String) : String × Option RepoError :=
  match runQuery f (selectAdminFlags db username) "" (fun owner row =>
      if row.2 then row.1 else owner) with
  | .error (.query, err) =>
    ("", some (.errorf "querying for admins failed because of: %v" (.raw err)))
  | .error (.scan, err) => ("", some (.errorf "scanning from rows failed because: %v" (.raw err)))
  | .error (.rowsErr, err) =>
    ("", some (.errorf "scanning from rows faulty because: %v" (.raw err)))
  | .ok owner => (owner, none)

/-- Function `GetAdmins`. -/
def GetAdmins (db : DB) (f : QueryFault) (channelUsername : String) :
    List String × Option RepoError :=
  match runQuery f (selectAdmins db channelUsername) [] (fun AdminList Admin =>
      AdminList ++ [Admin]) with
  | .error (.query, err) =>
    ([], some (.errorf "querying for admins failed because of: %v" (.raw err)))
  | .error (.scan, err) => ([], some (.errorf "scanning from rows failed because: %v" (.raw err)))
  | .error (.rowsErr, err) =>
    ([], some (.errorf "scanning from rows faulty because: %v" (.raw err)))
  | .ok AdminList => (AdminList, none)

/-- Function `GetPicture`: the image name of the last row scanned, the empty
string when there is none; scan and iteration errors are returned unwrapped. -/
def GetPicture (db : DB) (f : QueryFault) (ChannelUsername : String) :
    String × Option RepoError :=
  match runQuery f (selectPicture db ChannelUsername) "" (fun _ pictureURL => pictureURL) with
  | .error (.query, err) =>
    ("", some (.errorf "querying for pictures failed because of: %v" (.raw err)))
  | .error (.scan, err) => ("", some (.raw err))
  | .error (.rowsErr, err) => ("", some (.raw err))
  | .ok pictureURL => (pictureURL, none)

/-- Function `AddAdmin`; the unchecked assertion `err.(*pq.Error)` panics on
an error of any other dynamic type. -/
def AddAdmin (db : DB) (f : ExecFault) (channelUsername adminUsername : String) :
    DB × Go (Option RepoError) :=
  let owner := false
  match dbExec f (insertAdmin channelUsername adminUsername owner) db with
  | (db1, none) => (db1, .ret none)
  | (db1, some err) =>
    match err with
    | .pqPointer code _ =>
      if code = "23503" then (db1, .ret (some .ErrAdminNotFound))
      else if code = "23505" then (db1, .ret (some .ErrAdminAlreadyExists))
      else (db1, .ret (some (.errorf "inserting into admins failed because of: %s " (.raw err))))
    | _ => (db1, .panic)

/-- Function `DeleteAdmin`. -/
def DeleteAdmin (db : DB) (f : ExecFault) (channelUsername adminUsername : String) :
    DB × Option RepoError :=
  match dbExec f (deleteAdmin channelUsername adminUsername) db with
  | (db1, some err) =>
    (db1, some (.errorf "deletion of tuple from channel_admins because of: %s" (.raw err)))
  | (db1, none) => (db1, none)

/-- Function `ChangeOwner`: two updates, the second one only when the first
returned no error. -/
def ChangeOwner (db : DB) (f1 f2 : ExecFault) (channelUsername ownerUsername : String) :
    DB × Go (Option RepoError) :=
  let owner := true
  match dbExec f1 (updateOwnerFlag channelUsername ownerUsername owner) db with
  | (db1, some err) =>
    match err with
    | .pqPointer code _ =>
      if code = "23503" then (db1, .ret (some .ErrOwnerNotFound))
      else (db1, .ret (some (.errorf "changing of owner failed because of: %s" (.raw err))))
    | _ => (db1, .panic)
  | (db1, none) =>
    match dbExec f2 (updateOthersOwnerFlag channelUsername ownerUsername (!owner)) db1 with
    | (db2, some err) =>
      (db2, .ret (some (.errorf "changing of owner failed because of: %s" (.raw err))))
    | (db2, none) => (db2, .ret none)

/-- Function `AddChannel`; `now` is the creation time the store assigns. -/
def AddChannel (now : String) (db : DB) (fInsert fAdmin fOwner fOthers : ExecFault)
    (c : Channel) : DB × Go (Option Channel × Option RepoError) :=
  match dbExec fInsert (insertChannel now c.ChannelUsername c.Name c.Description) db with
  | (db1, some err) =>
    (db1, .ret (none, some (.errorf "insertion of channel failed because of: %s" (.raw err))))
  | (db1, none) =>
    match AddAdmin db1 fAdmin c.ChannelUsername c.OwnerUsername with
    | (db2, .panic) => (db2, .panic)
    | (db2, .ret (some err)) =>
      (db2, .ret (none, some (.errorf "insertion of admin user failed because of: %s" err)))
    | (db2, .ret none) =>
      match ChangeOwner db2 fOwner fOthers c.ChannelUsername c.OwnerUsername with
      | (db3, .panic) => (db3, .panic)
      | (db3, .ret (some err)) =>
        (db3, .ret (none, some (.errorf "insertion of admin user failed because of: %s" err)))
      | (db3, .ret none) => (db3, .ret (some c, none))

/-- The faults of the eight storage calls of `GetChannel`, in call order. -/
structure GetChannelFaults where
  row : ExecFault
  admins : QueryFault
  owner : QueryFault
  stickied : QueryFault
  posts : QueryFault
  unofficial : QueryFault
  official : QueryFault
  picture : QueryFault
  deriving DecidableEq, Repr

/-- No storage call of `GetChannel` fails at the connection. -/
def GetChannelFaults.clean : GetChannelFaults :=
  ⟨none, .clean, .clean, .clean, .clean, .clean, .clean, .clean⟩

/-- Function `GetChannel`; `parseTime` is `time.Parse(time.RFC3339, ·)` of the
standard library. -/
def GetChannel (parseTime : String → Option Time) (db : DB) (f : GetChannelFaults)
    (channelUsername : String) : Option Channel × Option RepoError :=
  match dbQueryRow f.row (selectChannel db channelUsername) with
  | .noRows => (none, some .ErrChannelNotFound)
  | .failed err => (none, some (.errorf "... %v" (.raw err)))
  | .row (Name, Description, creationTimeString) =>
    match parseTime creationTimeString with
    | none =>
      (none, some (.errorf "parsing of timestamp to time.Time failed because of: %s"
        (.timeParse creationTimeString)))
    | some creationTime =>
      match GetAdmins db f.admins channelUsername with
      | (_, some err) => (none, some (.errorf "unable to get admins because of: %s" err))
      | (admins, none) =>
      match GetOwner db f.owner channelUsername with
      | (_, some err) => (none, some (.errorf "unable to get owner because of: %s" err))
      | (owner, none) =>
      match GetStickiedPost db f.stickied channelUsername with
      | (_, some err) =>
        (none, some (.errorf "unable to get bookmarked posts because of: %s" err))
      | (stickiedPosts, none) =>
      match GetPosts db f.posts channelUsername with
      | (_, some err) => (none, some (.errorf "unable to get posts because of: %s" err))
      | (posts, none) =>
      match GetUnOfficialRelease db f.unofficial channelUsername with
      | (_, some err) =>
        (none, some (.errorf "unable to get UnOfficialRelease because of: %s" err))
      | (unOfficialReleases, none) =>
      match GetOfficialRelease db f.official channelUsername with
      | (_, some err) =>
        (none, some (.errorf "unable to get UnOfficialRelease because of: %s" err))
      | (officialReleases, none) =>
      match GetPicture db f.picture channelUsername with
      | (_, some err) => (none, some (.errorf "unable to get Picture because of: %s" err))
      | (pictureURL, none) =>
        (some
          { Name := Name
            Description := Description
            CreationTime := creationTime
            AdminUsernames := admins
            OwnerUsername := owner
            StickiedPostIDs := stickiedPosts
            PostIDs := posts
            ReleaseIDs := unOfficialReleases
            OfficialReleaseIDs := officialReleases
            PictureURL := pictureURL
            ChannelUsername := channelUsername }, none)

/-- Function `execUpdateStatementOnColumn`. -/
def execUpdateStatementOnColumn (db : DB) (f : ExecFault) (column value username : String) :
    DB × Option RepoError :=
  match dbExec f (updateChannelsColumn column value username) db with
  | (db1, some err) =>
    (db1, some (.errorf ("updating failed of " ++ column ++ " column with " ++ value ++
      " because of: %s") (.raw err)))
  | (db1, none) => (db1, none)

/-- Function `UpdateChannel`: up to three updates, each keyed by the username
passed in; the faults are those of the name, username and description update. -/
def UpdateChannel (db : DB) (fName fUsername fDescription : ExecFault)
    (channelUsername : String) (c : Channel) : DB × Option Channel × Option RepoError :=
  match (if c.Name ≠ "" then
      execUpdateStatementOnColumn db fName "name" c.Name channelUsername else (db, none)) with
  | (db1, some err) => (db1, none, some err)
  | (db1, none) =>
    match (if c.ChannelUsername ≠ "" then
        execUpdateStatementOnColumn db1 fUsername "username" c.ChannelUsername channelUsername
        else (db1, none)) with
    | (db2, some err) => (db2, none, some err)
    | (db2, none) =>
      match (if c.Description ≠ "" then
          execUpdateStatementOnColumn db2 fDescription "description" c.Description channelUsername
          else (db2, none)) with
      | (db3, some err) => (db3, none, some err)
      | (db3, none) => (db3, some c, none)

/-- Function `DeleteChannel`. -/
def DeleteChannel (db : DB) (f : ExecFault) (channelUsername : String) : DB × Option RepoError :=
  match dbExec f (deleteChannel channelUsername) db with
  | (db1, some err) =>
    (db1, some (.errorf "deletion of tuple from channels because of: %s" (.raw err)))
  | (db1, none) => (db1, none)

/-- Function `StickyPost`.  The assertion `err.(pq.Error)` is the comma-ok form:
when it fails `pgErr` is the zero `pq.Error`, whose `Code` is the empty string. -/
def StickyPost (db : DB) (fQuery : QueryFault) (fInsert : ExecFault) (channelUsername : String)
    (postID : Nat) : DB × Option RepoError :=
  match GetStickiedPost db fQuery channelUsername with
  | (_, some err) =>
    (db, some (.errorf "getting stickied posts failed because of: %s" err))
  | (a, none) =>
    if a.length = 2 then (db, some .ErrStickiedPostFull)
    else
      match dbExec fInsert (insertSticky postID) db with
      | (db1, some err) =>
        match err with
        | .pqValue _ _ => (db1, none)
        | _ =>
          let pgErrCode := ""
          if pgErrCode ≠ "23503" then (db1, some .ErrPostNotFound)
          else
            (db1, some (.errorf "inserting into channel_stickies failed because of: %s"
              (.raw err)))
      | (db1, none) => (db1, none)

/-- Modelled from the spec: "`Conflict` (unique constraint violation on
username/email or duplicate relation insert)", here the key
(channel_username, release_id) of `channel_official_catalog`, whose violation
the source reads as `ErrReleaseAlreadyExists`; the table declarations are not
among the sources. -/
abbrev catalogKeyTaken (db : DB) (channelUsername : String) (releaseID : Nat) : Prop :=
  ∃ r ∈ db.channel_official_catalog,
    r.channel_username = channelUsername ∧ r.release_id = releaseID

/-- Modelled from the spec: "`NotFound` (entity or referenced foreign entity
absent)", here the references of a catalog row to its channel, its release and
its post; the table declarations are not among the sources. -/
abbrev catalogReferenceMissing (db : DB) (channelUsername : String) (releaseID postID : Nat) :
    Prop :=
  (¬ ∃ c ∈ db.channels, c.username = channelUsername) ∨
    (¬ ∃ r ∈ db.releases, r.id = releaseID) ∨ ¬ ∃ p ∈ db.posts, p.id = postID

/-- Statement `INSERT INTO channel_official_catalog (channel_username,release_id,post_from_id)
VALUES ($1, $2,$3)`. -/
def insertCatalog (channelUsername : String) (releaseID postID : Nat) (db : DB) :
    Except DbError DB :=
  if catalogKeyTaken db channelUsername releaseID then .error uniqueKeyViolation
  else if catalogReferenceMissing db channelUsername releaseID postID then
    .error foreignKeyViolation
  else
    .ok { db with channel_official_catalog :=
      db.channel_official_catalog ++ [CatalogRow.mk channelUsername releaseID postID] }

/-- Function `AddReleaseToOfficialCatalog`; the unchecked assertion
`err.(*pq.Error)` panics on an error of any other dynamic type. -/
def AddReleaseToOfficialCatalog (db : DB) (f : ExecFault) (channelUsername : String)
    (releaseID postID : Nat) : DB × Go (Option RepoError) :=
  match dbExec f (insertCatalog channelUsername releaseID postID) db with
  | (db1, some err) =>
    match err with
    | .pqPointer code _ =>
      if code = "23505" then (db1, .ret (some .ErrReleaseAlreadyExists))
      else
        (db1, .ret (some (.errorf
          "addition of tuple of release channel_official_catalogs because of: %s" (.raw err))))
    | _ => (db1, .panic)
  | (db1, none) => (db1, .ret none)

/-! ## Search -/

/-- Modelled from the spec: "Sort keys are a fixed enumerated set per entity
type (e.g., creation time, username, first name)"; the type `channel.SortBy`,
whose value the source prints into `ORDER BY`, is not among the sources. -/
inductive SortBy where
  | creationTime
  | username
  | name
  deriving DecidableEq, Repr

/-- Modelled from the spec: "sort order is ascending or descending"; the type
`channel.SortOrder`, whose value the source prints into `ORDER BY`, is not
among the sources. -/
inductive SortOrder where
  | ascending
  | descending
  deriving DecidableEq, Repr

/-- What the locale of the database decides: `collate a b` says that the text
`a` sorts before or with the text `b`, `fold` is the case folding `ILIKE`
applies to a character. -/
structure Locale where
  collate : String → String → Bool
  fold : Char → Char

/-- Whether row `a` sorts before or with row `b` under `ORDER BY <sortBy> ASC`.
The column `creation_time` holds an instant, which the model reads back from its
stored rendering; a rendering that does not parse sorts after all others. -/
def orderKeyLe (loc : Locale) (parseTime : String → Option Time) (sortBy : SortBy)
    (a b : ChannelRow) : Bool :=
  match sortBy with
  | .username => loc.collate a.username b.username
  | .name => loc.collate a.name b.name
  | .creationTime =>
    match parseTime a.creation_time, parseTime b.creation_time with
    | some x, some y => decide (x ≤ y)
    | some _, none => true
    | none, some _ => false
    | none, none => true

/-- Whether row `a` may precede row `b` under `ORDER BY <sortBy> <sortOrder>`. -/
def inOrder (loc : Locale) (parseTime : String → Option Time) (sortBy : SortBy)
    (sortOrder : SortOrder) (a b : ChannelRow) : Bool :=
  match sortOrder with
  | .ascending => orderKeyLe loc parseTime sortBy a b
  | .descending => orderKeyLe loc parseTime sortBy b a

/-- Clause `ORDER BY <sortBy> <sortOrder> NULLS LAST` over the rows of `channels`
(none of the three sort columns is null in the model); rows with equal keys
keep their storage order. -/
def orderBy (loc : Locale) (parseTime : String → Option Time) (sortBy : SortBy)
    (sortOrder : SortOrder) (rows : List ChannelRow) : List ChannelRow :=
  rows.insertionSort (fun a b => inOrder loc parseTime sortBy sortOrder a b = true)

/-- Clause `LIMIT $n OFFSET $m`: PostgreSQL rejects a negative offset (2201X) and
a negative limit (2201W). -/
def limitOffset {α : Type} (limit offset : Int) (rows : List α) : Except DbError (List α) :=
  if offset < 0 then .error (.pqPointer "2201X" "pq: OFFSET must not be negative")
  else if limit < 0 then .error (.pqPointer "2201W" "pq: LIMIT must not be negative")
  else .ok ((rows.drop offset.toNat).take limit.toNat)

/-- One element of a `LIKE` pattern. -/
inductive LikeToken where
  | anySeq
  | anyChar
  | lit (c : Char)
  deriving DecidableEq, Repr

/-- A `LIKE` pattern read left to right: `%` stands for any sequence, `_` for any
one character, a backslash makes the next character literal. -/
def likeTokens : List Char → List LikeToken
  | [] => []
  | c :: rest =>
    if c = '%' then .anySeq :: likeTokens rest
    else if c = '_' then .anyChar :: likeTokens rest
    else if c = '\\' then
      match rest with
      | [] => [.lit c]
      | d :: rest1 => .lit d :: likeTokens rest1
    else .lit c :: likeTokens rest

/-- Whether the whole text matches the pattern, literals compared after case
folding. -/
def matchTokens (fold : Char → Char) : List LikeToken → List Char → Bool
  | [], s => s.isEmpty
  | .anySeq :: ts, s => s.tails.any (matchTokens fold ts)
  | .anyChar :: ts, s =>
    match s with
    | [] => false
    | _ :: s1 => matchTokens fold ts s1
  | .lit c :: ts, s =>
    match s with
    | [] => false
    | d :: s1 => decide (fold c = fold d) && matchTokens fold ts s1

/-- Expression `<text> ilike '%' || $1 || '%'`. -/
def ilikeAround (loc : Locale) (pattern text : String) : Bool :=
  matchTokens loc.fold (likeTokens ('%' :: pattern.data ++ ['%'])) text.data

/-- The four columns `username, name, COALESCE(description, ''), creation_time`
of a row of `channels`. -/
def searchColumns (r : ChannelRow) : String × String × String × String :=
  (r.username, r.name, r.description.getD "", r.creation_time)

/-- Rows of `(SELECT username,name, COALESCE(description, ''),creation_time FROM
"issue#1".channels) ORDER BY <sortBy> <sortOrder> NULLS LAST LIMIT $1 OFFSET $2`. -/
def selectAllChannels (loc : Locale) (parseTime : String → Option Time) (db : DB)
    (sortBy : SortBy) (sortOrder : SortOrder) (limit offset : Int) :
    Except DbError (List (String × String × String × String)) :=
  (limitOffset limit offset (orderBy loc parseTime sortBy sortOrder db.channels)).map
    (List.map searchColumns)

/-- Rows of `SELECT username,name, COALESCE(description, ''),creation_time from
channels where username ilike '%' || $1 || '%' OR name ilike '%' || $1|| '%'
LIMIT $2 OFFSET $3`, in storage order. -/
def selectMatchingChannels (loc : Locale) (db : DB) (pattern : String) (limit offset : Int) :
    Except DbError (List (String × String × String × String)) :=
  (limitOffset limit offset (db.channels.filter (fun r =>
    ilikeAround loc pattern r.username || ilikeAround loc pattern r.name))).map
    (List.map searchColumns)

/-- Function `db.Query` for a statement that the store may reject. -/
def dbQueryStmt {α : Type} (f : QueryFault) (result : Except DbError (List α)) :
    Except DbError (Rows α) :=
  match f, result with
  | .query e, _ => .error e
  | _, .error e => .error e
  | f, .ok rs => dbQuery f rs

/-- The faults of the seven relation queries made for one row of a search, in
call order. -/
structure RelationFaults where
  admins : QueryFault
  owner : QueryFault
  stickied : QueryFault
  posts : QueryFault
  unofficial : QueryFault
  official : QueryFault
  picture : QueryFault
  deriving DecidableEq, Repr

/-- No relation query fails at the connection. -/
def RelationFaults.clean : RelationFaults :=
  ⟨.clean, .clean, .clean, .clean, .clean, .clean, .clean⟩

/-- The loop `for rows.Next() { .. }` of `SearchChannels` from row number `i` on:
each row is scanned, its timestamp parsed (twice, as in the source), its seven
relations fetched and the channel appended; the first failure ends the search. -/
def searchLoop (parseTime : String → Option Time) (db : DB) (fRows : Nat → RelationFaults) :
    List (Except DbError (String × String × String × String)) → Nat → List Channel →
      Except RepoError (List Channel)
  | [], _, channels => .ok channels
  | .error err :: _, _, _ =>
    .error (.errorf "scanning from rows failed because: %s" (.raw err))
  | .ok (ChannelUsername, Name, Description, creationTimeString) :: rest, i, channels =>
    match parseTime creationTimeString with
    | none =>
      .error (.errorf "parsing of timestamp to time.Time failed because of: %s"
        (.timeParse creationTimeString))
    | some _ =>
    match parseTime creationTimeString with
    | none =>
      .error (.errorf "parsing of timestamp to time.Time failed because of: %s"
        (.timeParse creationTimeString))
    | some creationTime =>
    match GetAdmins db (fRows i).admins ChannelUsername with
    | (_, some err) => .error (.errorf "unable to get admins because of: %s" err)
    | (admins, none) =>
    match GetOwner db (fRows i).owner ChannelUsername with
    | (_, some err) => .error (.errorf "unable to get owner because of: %s" err)
    | (owner, none) =>
    match GetStickiedPost db (fRows i).stickied ChannelUsername with
    | (_, some err) => .error (.errorf "unable to get stickied posts because of: %s" err)
    | (stickiedPosts, none) =>
    match GetPosts db (fRows i).posts ChannelUsername with
    | (_, some err) => .error (.errorf "unable to get posts because of: %s" err)
    | (posts, none) =>
    match GetUnOfficialRelease db (fRows i).unofficial ChannelUsername with
    | (_, some err) =>
      .error (.errorf "unable to get official realeases because of: %s" err)
    | (unOfficialReleases, none) =>
    match GetOfficialRelease db (fRows i).official ChannelUsername with
    | (_, some err) =>
      .error (.errorf "unable to get official realeases because of: %s" err)
    | (officialReleases, none) =>
    match GetPicture db (fRows i).picture ChannelUsername with
    | (_, some err) => .error (.errorf "unable to get picture because of: %s" err)
    | (pictureURL, none) =>
      searchLoop parseTime db fRows rest (i + 1) (channels ++
        [{ ChannelUsername := ChannelUsername
           Name := Name
           Description := Description
           CreationTime := creationTime
           AdminUsernames := admins
           OwnerUsername := owner
           StickiedPostIDs := stickiedPosts
           PostIDs := posts
           ReleaseIDs := unOfficialReleases
           OfficialReleaseIDs := officialReleases
           PictureURL := pictureURL }])

/-- Function `SearchChannels`: `fQuery` is the fault of the search query, `fRows i`
the faults of the relation queries made for its row number `i`. -/
def SearchChannels (loc : Locale) (parseTime : String → Option Time) (db : DB)
    (fQuery : QueryFault) (fRows : Nat → RelationFaults) (pattern : String) (sortBy : SortBy)
    (sortOrder : SortOrder) (limit offset : Int) : List Channel × Option RepoError :=
  match dbQueryStmt fQuery
      (if pattern = "" then selectAllChannels loc parseTime db sortBy sortOrder limit offset
        else selectMatchingChannels loc db pattern limit offset) with
  | .error err =>
    ([], some (.errorf "querying for channels failed because of: %v" (.raw err)))
  | .ok rows =>
    match searchLoop parseTime db fRows rows.items 0 [] with
    | .error err => ([], some err)
    | .ok channels =>
      match rows.err with
      | some err => ([], some (.errorf "scanning from rows faulty because: %s" (.raw err)))
      | none => (channels, none)

/-! ## Pictures and removal of stickies -/

/-- Modelled from the spec: the "optional picture reference" of a channel, one
per channel, which is the key `channelname` that `ON CONFLICT(channelname)` of
the source names; the table declarations are not among the sources. -/
abbrev pictureKeyTaken (db : DB) (channelUsername : String) : Prop :=
  ∃ r ∈ db.channel_pictures, r.channelname = channelUsername

/-- Modelled from the spec: "`NotFound` (entity or referenced foreign entity
absent)", here the reference of a picture row to its channel, whose violation
the source means to read as `ErrChannelNotFound`; the table declarations are not
among the sources. -/
abbrev pictureReferenceMissing (db : DB) (channelUsername : String) : Prop :=
  ¬ ∃ c ∈ db.channels, c.username = channelUsername

/-- Statement `INSERT INTO "issue#1".channel_pictures (channelname, image_name)
VALUES ($1, $2) ON CONFLICT(channelname) DO UPDATE SET image_name = $1`: on a
conflict the row gets the first parameter, the channel name, as image name. -/
def upsertPicture (channelUsername name : String) (db : DB) : Except DbError DB :=
  if pictureKeyTaken db channelUsername then
    .ok { db with channel_pictures := db.channel_pictures.map (fun r =>
      if r.channelname = channelUsername then { r with image_name := channelUsername } else r) }
  else if pictureReferenceMissing db channelUsername then .error foreignKeyViolation
  else
    .ok { db with channel_pictures :=
      db.channel_pictures ++ [PictureRow.mk channelUsername name] }

/-- Function `AddPicture`.  The assertion `err.(pq.Error)` is the comma-ok form:
when it fails `pgErr` is the zero `pq.Error`, whose `Code` is the empty string. -/
def AddPicture (db : DB) (f : ExecFault) (channelUsername name : String) :
    DB × String × Option RepoError :=
  match dbExec f (upsertPicture channelUsername name) db with
  | (db1, some err) =>
    match err with
    | .pqValue _ _ => (db1, name, none)
    | _ =>
      let pgErrCode := ""
      if pgErrCode = "23503" then (db1, "", some .ErrChannelNotFound)
      else
        (db1, "", some (.errorf "inserting into channel_pictures failed because of: %v"
          (.raw err)))
  | (db1, none) => (db1, name, none)

/-- Statement `DELETE FROM "issue#1".channel_pictures WHERE channelname = $1`. -/
def deletePicture (channelUsername : String) (db : DB) : Except DbError DB :=
  .ok { db with channel_pictures :=
    db.channel_pictures.filter (fun r => r.channelname ≠ channelUsername) }

/-- Function `RemovePicture`. -/
def RemovePicture (db : DB) (f : ExecFault) (channelUsername : String) :
    DB × Option RepoError :=
  match dbExec f (deletePicture channelUsername) db with
  | (db1, some err) =>
    (db1, some (.errorf "deletion of tuple from channel_pictures failed because of: %v"
      (.raw err)))
  | (db1, none) => (db1, none)

/-- Statement `DELETE FROM "issue#1".channel_stickies WHERE post_id = $1`. -/
def deleteSticky (stickiedPostID : Nat) (db : DB) : Except DbError DB :=
  .ok { db with channel_stickies := db.channel_stickies.filter (fun s => s ≠ stickiedPostID) }

/-- Function `DeleteStickiedPost`; the statement does not use `channelUsername`. -/
def DeleteStickiedPost (db : DB) (f : ExecFault) (_channelUsername : String)
    (stickiedPostID : Nat) : DB × Option RepoError :=
  match dbExec f (deleteSticky stickiedPostID) db with
  | (db1, some err) =>
    (db1, some (.errorf "deletion of tuple from channel_stickie because of: %s" (.raw err)))
  | (db1, none) => (db1, none)

/-! ## Auxiliary definitions for the properties -/

/-- The admin rows of the channel that have owner status true. -/
def ownerRows (db : DB) (channelUsername : String) : List AdminRow :=
  db.channel_admins.filter (fun r => decide (r.channel_username = channelUsername) && r.is_owner)

/-- How many admin rows of the channel have owner status true. -/
def ownerCount (db : DB) (channelUsername : String) : Nat :=
  (ownerRows db channelUsername).length

/-- The admin rows of the channel with the given username. -/
def adminRows (db : DB) (channelUsername adminUsername : String) : List AdminRow :=
  db.channel_admins.filter (fun r =>
    decide (r.channel_username = channelUsername) && decide (r.username = adminUsername))

/-- How many admin rows of the channel have the given username. -/
def adminCount (db : DB) (channelUsername adminUsername : String) : Nat :=
  (adminRows db channelUsername adminUsername).length

/-- The owner invariant as the getters show it: `GetOwner` returns a non-empty
username that `GetAdmins` contains, and exactly one admin row of the channel
has owner status true. -/
def ownerInvariant (db : DB) (channelUsername : String) : Prop :=
  (GetOwner db .clean channelUsername).2 = none ∧
    (GetOwner db .clean channelUsername).1 ≠ "" ∧
    (GetOwner db .clean channelUsername).1 ∈ (GetAdmins db .clean channelUsername).1 ∧
    ownerCount db channelUsername = 1

instance (db : DB) (channelUsername : String) : Decidable (ownerInvariant db channelUsername) := by
  unfold ownerInvariant; infer_instance

/-- A channel record with the given username, name, description and owner and
every other field at its zero value. -/
def Channel.basic (username name description owner : String) : Channel :=
  { ChannelUsername := username, Name := name, Description := description, CreationTime := 0,
    AdminUsernames := [], OwnerUsername := owner, StickiedPostIDs := [], PostIDs := [],
    ReleaseIDs := [], OfficialReleaseIDs := [], PictureURL := "" }

/-- Stand-in for `time.Parse` in the examples: a timestamp is a non-empty
string of decimal digits. -/
def parseNumeral (s : String) : Option Time :=
  match s.data with
  | [] => none
  | cs => if cs.all Char.isDigit then some (cs.foldl (fun n c => 10 * n + (c.toNat - 48)) 0)
    else none

/-- State with two channels; channel B has three posts, two of them stickied. -/
def stickyFull : DB :=
  { users := ["u"], channels := [⟨"A", "a", none, "1"⟩, ⟨"B", "b", none, "2"⟩],
    channel_admins := [], posts := [⟨1, "B"⟩, ⟨2, "B"⟩, ⟨3, "B"⟩], channel_stickies := [1, 2],
    releases := [], channel_official_catalog := [], channel_pictures := [] }

/-- State with one channel whose only admin, al, is its owner; bo is a user
who is not an admin. -/
def soleOwner : DB :=
  { users := ["al", "bo"], channels := [⟨"ch", "n", some "d", "3"⟩],
    channel_admins := [⟨"ch", "al", true⟩], posts := [], channel_stickies := [],
    releases := [], channel_official_catalog := [], channel_pictures := [] }

/-- What the loop of `GetOwner` leaves in `owner` after the given rows. -/
def lastOwner (rows : List (String × Bool)) : String :=
  rows.foldl (fun owner row => if row.2 then row.1 else owner) ""

/-- What the loop of `GetPicture` leaves in `pictureURL` after the given rows. -/
def lastPicture (rows : List String) : String :=
  rows.foldl (fun _ pictureURL => pictureURL) ""

/-- The row lookup of `GetChannel` returns a row and its timestamp parses. -/
def rowStepSucceeds (parseTime : String → Option Time) (db : DB) (g : GetChannelFaults)
    (channelUsername : String) : Bool :=
  match dbQueryRow g.row (selectChannel db channelUsername) with
  | .row (_, _, creationTimeString) => (parseTime creationTimeString).isSome
  | _ => false

/-- Every step of the composite fetch succeeds: the row lookup and the timestamp
parse, and the queries for admins, owner, stickied posts, posts, unofficial
releases, official releases and picture each return a nil error. -/
def GetChannelStepsSucceed (parseTime : String → Option Time) (db : DB) (g : GetChannelFaults)
    (channelUsername : String) : Prop :=
  rowStepSucceeds parseTime db g channelUsername = true ∧
    (GetAdmins db g.admins channelUsername).2 = none ∧
    (GetOwner db g.owner channelUsername).2 = none ∧
    (GetStickiedPost db g.stickied channelUsername).2 = none ∧
    (GetPosts db g.posts channelUsername).2 = none ∧
    (GetUnOfficialRelease db g.unofficial channelUsername).2 = none ∧
    (GetOfficialRelease db g.official channelUsername).2 = none ∧
    (GetPicture db g.picture channelUsername).2 = none

instance (parseTime : String → Option Time) (db : DB) (g : GetChannelFaults) (u : String) :
    Decidable (GetChannelStepsSucceed parseTime db g u) := by
  unfold GetChannelStepsSucceed; infer_instance

/-- State with one channel and two admins: al is the owner, bo is not. -/
def twoAdmins : DB :=
  { users := ["al", "bo"], channels := [⟨"ch", "n", some "d", "3"⟩],
    channel_admins := [⟨"ch", "al", true⟩, ⟨"ch", "bo", false⟩], posts := [],
    channel_stickies := [], releases := [], channel_official_catalog := [],
    channel_pictures := [] }

/-- State with one channel B that has two posts, one of them stickied. -/
def oneSticky : DB :=
  { users := ["u"], channels := [⟨"B", "b", none, "2"⟩], channel_admins := [],
    posts := [⟨1, "B"⟩, ⟨2, "B"⟩], channel_stickies := [1], releases := [],
    channel_official_catalog := [], channel_pictures := [] }

/-- Order of two texts code point by code point, the shorter first. -/
def leChars (text other : List Char) : Bool :=
  match text, other with
  | [], _ => true
  | x :: xs, y :: ys =>
    if x.toNat < y.toNat then true
    else if y.toNat < x.toNat then false
    else leChars xs ys
  | _ :: _, [] => false

/-- Locale of the examples: texts are ordered code point by code point, case
folding is that of the ASCII letters. -/
def codePoints : Locale :=
  { collate := fun a b => leChars a.data b.data, fold := Char.toLower }

/-- State with five channels, stored in an order that is neither that of their
creation times nor that of their usernames. -/
def fiveChannels : DB :=
  { users := [],
    channels := [⟨"cc", "Gamma", none, "30"⟩, ⟨"aa", "Alpha", none, "50"⟩,
      ⟨"ee", "Epsilon", none, "10"⟩, ⟨"bb", "Beta", none, "40"⟩, ⟨"dd", "Delta", none, "20"⟩],
    channel_admins := [], posts := [], channel_stickies := [], releases := [],
    channel_official_catalog := [], channel_pictures := [] }

/-- The channel the loop of `SearchChannels` appends for a row of its query when
no scan, parse or relation query fails. -/
def assembleRow (parseTime : String → Option Time) (db : DB)
    (row : String × String × String × String) : Channel :=
  { ChannelUsername := row.1
    Name := row.2.1
    Description := row.2.2.1
    CreationTime := (parseTime row.2.2.2).getD 0
    AdminUsernames := selectAdmins db row.1
    OwnerUsername := lastOwner (selectAdminFlags db row.1)
    StickiedPostIDs := selectStickied db row.1
    PostIDs := selectPosts db row.1
    ReleaseIDs := selectReleases db row.1
    OfficialReleaseIDs := selectOfficial db row.1
    PictureURL := lastPicture (selectPicture db row.1) }

/-- The text contains the pattern as a substring once both are case folded. -/
def containsFold (fold : Char → Char) (pattern text : String) : Prop :=
  pattern.data.map fold <:+: text.data.map fold

instance (fold : Char → Char) (pattern text : String) :
    Decidable (containsFold fold pattern text) := by
  unfold containsFold; infer_instance

/-- The pattern has no character that `LIKE` reads specially. -/
def plainPattern (pattern : String) : Prop :=
  ∀ c ∈ pattern.data, c ≠ '%' ∧ c ≠ '_' ∧ c ≠ '\\'

instance (pattern : String) : Decidable (plainPattern pattern) := by
  unfold plainPattern; infer_instance

/-- State `soleOwner` with a picture stored for its channel. -/
def withPicture : DB :=
  { soleOwner with channel_pictures := [PictureRow.mk "ch" "old.png"] }

/-- State with three channels whose texts hold characters that `LIKE` reads
specially: a backslash in the name of zz, an underscore in the username x_y. -/
def markedChannels : DB :=
  { fiveChannels with
    channels := [⟨"ab", "plain", none, "10"⟩, ⟨"zz", "a\\b", none, "20"⟩,
      ⟨"x_y", "under", none, "30"⟩] }

end ChannelRepo

/-!
The HTTP handlers of `pkg/http/rest/user.handlers.go` and
`pkg/delivery/http/rest/comment.handlers.go`.

A handler is a function of the setup and the request to its outcome: the
service operations it invoked, in order, and what it wrote to the response
writer.  The services are not among the sources; they are the functions of
`UserService` and `CommentService`, which say what each operation returns.
A dereference of a nil pointer is the reply `Reply.panic`; logging is left out.
-/

namespace Rest

/-! ## Users, comments and their services -/

/-- The struct `user.User` with the fields the handlers read and write;
`BookmarkedPosts` is the map from post id to time. -/
structure User where
  Username : String
  Password : String
  Email : String
  FirstName : String
  MiddleName : String
  LastName : String
  Bio : String
  BookmarkedPosts : List (Int × Nat)
  PictureURL : String
  deriving DecidableEq, Repr

/-- The value `new(user.User)` points to. -/
def User.zero : User := ⟨"", "", "", "", "", "", "", [], ""⟩

/-- The struct `comment.Comment` with the fields the handlers read and write. -/
structure Comment where
  ID : Int
  OriginPost : Int
  Commenter : String
  Content : String
  ReplyTo : Int
  deriving DecidableEq, Repr

/-- The value `new(comment.Comment)` points to. -/
def Comment.zero : Comment := ⟨0, 0, "", "", 0⟩

/-- Errors of package `user`: the sentinels the handlers switch on, and any
other error. -/
inductive UserError where
  | ErrUserNotFound
  | ErrUserNameOccupied
  | ErrEmailIsOccupied
  | ErrInvalidUserData
  | ErrSomeUserDataNotPersisted
  | other (msg : String)
  deriving DecidableEq, Repr

/-- Errors of package `comment`: the sentinels the handlers switch on, and any
other error. -/
inductive CommentError where
  | ErrPostNotFound
  | ErrCommentNotFound
  | ErrUserNotFound
  | other (msg : String)
  deriving DecidableEq, Repr

/-- The sort keys of package `user` that `getUsers` chooses from. -/
inductive UserSortBy where
  | SortByUsername
  | SortByFirstName
  | SortByLastName
  | SortCreationTime
  deriving DecidableEq, Repr

/-- The sort orders of package `user`. -/
inductive UserSortOrder where
  | SortAscending
  | SortDescending
  deriving DecidableEq, Repr

/-- The sort key of package `comment` the handlers pass. -/
inductive CommentSortBy where
  | SortByCreationTime
  deriving DecidableEq, Repr

/-- The sort order of package `comment` the handlers pass. -/
inductive CommentSortOrder where
  | SortDescending
  deriving DecidableEq, Repr

/-- Modelled from the spec: the contract of the user Domain Service (`Add`,
`Get`, `Update`, `Delete`, `Search`), which is not among the sources; each
field is what the operation returns for its arguments, a nil pointer being
`none`. -/
structure UserService where
  AddUser : User → Option User × Option UserError
  GetUser : String → Option User × Option UserError
  UpdateUser : User → String → Option User × Option UserError
  DeleteUser : String → Option UserError
  SearchUser : String → UserSortBy → UserSortOrder → Int → Int → List User × Option UserError

/-- Modelled from the spec: the contract of the comment Domain Service, which is
not among the sources; each field is what the operation returns for its
arguments, a nil pointer being `none` (`UpdateComment` is the one operation a
handler can pass a nil pointer to). -/
structure CommentService where
  AddComment : Comment → Option Comment × Option CommentError
  GetComment : Int → Option Comment × Option CommentError
  GetComments : Int → CommentSortBy → CommentSortOrder → Int → Int →
    List Comment × Option CommentError
  GetReplies : Int → CommentSortBy → CommentSortOrder → Int → Int →
    List Comment × Option CommentError
  UpdateComment : Option Comment → Option Comment × Option CommentError
  DeleteComment : Int → Option CommentError

/-- One invocation of a service operation, with its arguments. -/
inductive Call where
  | AddUser (u : User)
  | GetUser (username : String)
  | UpdateUser (u : User) (username : String)
  | DeleteUser (username : String)
  | SearchUser (pattern : String) (sortBy : UserSortBy) (sortOrder : UserSortOrder)
      (limit offset : Int)
  | AddComment (c : Comment)
  | GetComment (id : Int)
  | GetComments (postID : Int) (sortBy : CommentSortBy) (sortOrder : CommentSortOrder)
      (limit offset : Int)
  | GetReplies (commentID : Int) (sortBy : CommentSortBy) (sortOrder : CommentSortOrder)
      (limit offset : Int)
  | UpdateComment (c : Option Comment)
  | DeleteComment (id : Int)
  deriving DecidableEq, Repr

/-! ## Setup, request and response -/

/-- The struct `Setup` with what the handlers use of it: the two services, the
sanitizers (`StrictSanitizer.Sanitize`, and the markup pipeline of
`sanitizeComment`), the host address and the image route. -/
structure Setup where
  UserService : UserService
  CommentService : CommentService
  StrictSanitize : String → String
  MarkupSanitize : String → String
  HostAddress : String
  ImageServingRoute : String

/-- What the handlers read of a request: the path variables, the query string
(`r.URL.Query().Get`), the form values (`r.FormValue`), the headers
(`r.Header.Get`), and the body as `json.NewDecoder(r.Body).Decode` reads it into
a struct: the struct after decoding, `none` when `Decode` returns an error. -/
structure Request where
  vars : String → Option String
  query : String → String
  form : String → String
  header : String → String
  jsonUser : User → Option User
  jsonComment : Comment → Option Comment

/-- The field `Data` of a response: nil, `jSendFailData`, or a payload. -/
inductive Data where
  | nil
  | fail (ErrorReason : String) (ErrorMessage : String)
  | user (u : User)
  | users (l : List User)
  | comment (c : Comment)
  | comments (l : List Comment)
  deriving DecidableEq, Repr

/-- The struct `jSendResponse`. -/
structure jSendResponse where
  Status : String
  Data : Data
  Message : String
  deriving DecidableEq, Repr

/-- What a handler does to the response writer: `writeResponseToWriter` with a
response and a status code, `w.WriteHeader` alone, or nothing because it
panicked. -/
inductive Reply where
  | written (response : jSendResponse) (statusCode : Nat)
  | header (statusCode : Nat)
  | panic
  deriving DecidableEq, Repr

/-- The outcome of a handler: the service operations invoked, in order, and the
reply. -/
structure Outcome where
  calls : List Call
  reply : Reply
  deriving DecidableEq, Repr

/-! ## Library functions -/

/-- The value of a non-empty string of decimal digits. -/
def digitsValue : List Char → Nat → Option Nat
  | [], acc => some acc
  | c :: cs, acc => if c.isDigit then digitsValue cs (10 * acc + (c.toNat - 48)) else none

/-- Function `strconv.Atoi` where `int` has 64 bits: an optional sign, one or
more decimal digits, and a value from -2^63 to 2^63 - 1; `none` when it returns
an error. -/
def atoi (s : String) : Option Int :=
  match s.data with
  | [] => none
  | c :: cs =>
    if c = '-' then
      match cs with
      | [] => none
      | _ :: _ =>
        match digitsValue cs 0 with
        | some n => if n ≤ 2 ^ 63 then some (-(n : Int)) else none
        | none => none
    else if c = '+' then
      match cs with
      | [] => none
      | _ :: _ =>
        match digitsValue cs 0 with
        | some n => if n < 2 ^ 63 then some (n : Int) else none
        | none => none
    else
      match digitsValue (c :: cs) 0 with
      | some n => if n < 2 ^ 63 then some (n : Int) else none
      | none => none

/-- Function `strings.Split(s, "_")` on the characters of `s`: at least one
part, the parts between the underscores. -/
def splitUnderscore : List Char → List (List Char)
  | [] => [[]]
  | c :: cs =>
    if c = '_' then [] :: splitUnderscore cs
    else
      match splitUnderscore cs with
      | [] => [[c]]
      | part :: parts => (c :: part) :: parts

/-! ## The handlers -/

/-- The response every handler starts from: status "fail", no data. -/
def failResponse : jSendResponse := ⟨"fail", .nil, ""⟩

/-- The block that reads one of the query strings `limit` and `offset`: the
value of the variable, and the response data and status code it leaves.
`current` is the value the variable has when the query string is empty; when
`strconv.Atoi` fails the variable is not read again. -/
def readPage (raw name : String) (current : Int) (data : Data) (statusCode : Nat) :
    Int × Data × Nat :=
  if raw ≠ "" then
    match atoi raw with
    | none => (0, .fail name ("bad request, " ++ name ++ " can't be negative"), 400)
    | some n =>
      if n < 0 then (n, .fail name ("bad request, " ++ name ++ " can't be negative"), 400)
      else (n, data, statusCode)
  else (current, data, statusCode)

/-- The block of `getComments`, `getCommentReplies` and `getUsers` that reads the
query strings `limit` and then `offset`: the two values, and the response data
and status code it leaves. -/
def readPaging (r : Request) (data : Data) (statusCode : Nat) : Int × Int × Data × Nat :=
  let afterLimit := readPage (r.query "limit") "limit" 25 data statusCode
  let afterOffset := readPage (r.query "offset") "offset" 0 afterLimit.2.1 afterLimit.2.2
  (afterLimit.1, afterOffset.1, afterOffset.2.1, afterOffset.2.2)

/-- Function `getComments`. -/
def getComments (s : Setup) (r : Request) : Outcome :=
  let postIDRaw := (r.vars "postID").getD ""
  let parsed : Int × Data × Nat :=
    match atoi postIDRaw with
    | none => (0, .fail "postID" ("invalid post id " ++ postIDRaw), 400)
    | some postID => (postID, .nil, 200)
  if parsed.2.1 = .nil then
    let paging := readPaging r parsed.2.1 parsed.2.2
    if paging.2.2.1 = .nil then
      let call := Call.GetComments parsed.1 .SortByCreationTime .SortDescending paging.1
        paging.2.1
      match s.CommentService.GetComments parsed.1 .SortByCreationTime .SortDescending paging.1
          paging.2.1 with
      | (c, none) => ⟨[call], .written ⟨"success", .comments c, ""⟩ paging.2.2.2⟩
      | (_, some .ErrPostNotFound) =>
        ⟨[call], .written ⟨"fail", .fail "postID" "post not found", ""⟩ 404⟩
      | (_, some _) =>
        ⟨[call], .written ⟨"error", .nil, "server error when fetching comment"⟩ 500⟩
    else ⟨[], .written { failResponse with Data := paging.2.2.1 } paging.2.2.2⟩
  else ⟨[], .written { failResponse with Data := parsed.2.1 } parsed.2.2⟩

/-- Function `getCommentReplies`. -/
def getCommentReplies (s : Setup) (r : Request) : Outcome :=
  let rootCommentIDRaw := (r.vars "commentID").getD ""
  let parsed : Int × Data × Nat :=
    match atoi rootCommentIDRaw with
    | none => (0, .fail "commentID" ("invalid commentID " ++ rootCommentIDRaw), 400)
    | some commentID => (commentID, .nil, 200)
  if parsed.2.1 = .nil then
    let paging := readPaging r parsed.2.1 parsed.2.2
    if paging.2.2.1 = .nil then
      let call := Call.GetReplies parsed.1 .SortByCreationTime .SortDescending paging.1
        paging.2.1
      match s.CommentService.GetReplies parsed.1 .SortByCreationTime .SortDescending paging.1
          paging.2.1 with
      | (c, none) => ⟨[call], .written ⟨"success", .comments c, ""⟩ paging.2.2.2⟩
      | (_, some .ErrCommentNotFound) =>
        ⟨[call], .written ⟨"fail", .fail "commentID" "comment not found", ""⟩ 404⟩
      | (_, some _) =>
        ⟨[call], .written ⟨"error", .nil, "server error when fetching comment"⟩ 500⟩
    else ⟨[], .written { failResponse with Data := paging.2.2.1 } paging.2.2.2⟩
  else ⟨[], .written { failResponse with Data := parsed.2.1 } parsed.2.2⟩

/-- The block of `getUsers` that reads the query string `sort`: the sort key of
the part before the first underscore, the sort order of the part after it. -/
def readSort (sort : String) : UserSortBy × UserSortOrder :=
  let sortSplit := (splitUnderscore sort.data).map String.mk
  let byKey : UserSortBy × UserSortOrder :=
    match sortSplit.head? with
    | some "username" => (.SortByUsername, .SortAscending)
    | some "firstname" => (.SortByFirstName, .SortAscending)
    | some "lastname" => (.SortByLastName, .SortAscending)
    | _ => (.SortCreationTime, .SortDescending)
  if sortSplit.length > 1 then
    match sortSplit.tail.head? with
    | some "dsc" => (byKey.1, .SortDescending)
    | _ => (byKey.1, .SortAscending)
  else byKey

/-- What `getUsers` does to each user it lists: the email and the bookmarks are
cleared, a picture name becomes its address; `pathEscape` is `url.PathEscape`. -/
def listedUser (s : Setup) (pathEscape : String → String) (u : User) : User :=
  { u with
    Email := ""
    BookmarkedPosts := []
    PictureURL :=
      if u.PictureURL ≠ "" then s.HostAddress ++ s.ImageServingRoute ++ pathEscape u.PictureURL
      else u.PictureURL }

/-- Function `getUsers`; `pathEscape` is `url.PathEscape`. -/
def getUsers (s : Setup) (pathEscape : String → String) (r : Request) : Outcome :=
  let pattern := r.query "pattern"
  let paging := readPaging r .nil 200
  let sorting := readSort (r.query "sort")
  if paging.2.2.1 = .nil then
    let call := Call.SearchUser pattern sorting.1 sorting.2 paging.1 paging.2.1
    match s.UserService.SearchUser pattern sorting.1 sorting.2 paging.1 paging.2.1 with
    | (_, some _) =>
      ⟨[call], .written ⟨"error", .nil, "server error when getting users"⟩ 500⟩
    | (users, none) =>
      ⟨[call], .written ⟨"success", .users (users.map (listedUser s pathEscape)), ""⟩
        paging.2.2.2⟩
  else ⟨[], .written { failResponse with Data := paging.2.2.1 } paging.2.2.2⟩

/-- Function `sanitizeUser`. -/
def sanitizeUser (s : Setup) (u : User) : User :=
  { u with
    Username := s.StrictSanitize u.Username
    FirstName := s.StrictSanitize u.FirstName
    MiddleName := s.StrictSanitize u.MiddleName
    LastName := s.StrictSanitize u.LastName
    Bio := s.StrictSanitize u.Bio }

/-- The message of the "request format" failure of `postUser` and `putUser`. -/
def userFormatMessage : String :=
  "bad request, use format\n\t\t\t\t\x7b\"username\":\"username len 5-22 chars\",\n" ++
  "\t\t\t\t\"passHash\":\"passHash\",\n\t\t\t\t\"email\":\"email\",\n" ++
  "\t\t\t\t\"firstName\":\"firstName\",\n\t\t\t\t\"middleName\":\"middleName\",\n" ++
  "\t\t\t\t\"lastName\":\"lastName\"\x7d"

/-- The block of `postUser` that checks the required fields, in its order: the
first name, the password, then the username and its length in bytes. -/
def requiredFields (u : User) : Data :=
  let afterFirstName : Data :=
    if u.FirstName = "" then .fail "firstName" "firstName is required" else .nil
  let afterPassword : Data :=
    if u.Password = "" then .fail "password" "password is required" else afterFirstName
  if u.Username = "" then .fail "username" "username is required"
  else if u.Username.utf8ByteSize > 22 ∨ u.Username.utf8ByteSize < 5 then
    .fail "username" "username length shouldn't be shorter that 5 and longer than 22 chars"
  else afterPassword

/-- Function `postUser`.  In the `switch` on the error of `AddUser`, `u` is the
pointer `AddUser` returned. -/
def postUser (s : Setup) (r : Request) : Outcome :=
  let parsed : User × Data × Nat :=
    if r.form "username" ≠ "" then
      ({ User.zero with
          Username := r.form "username"
          Password := r.form "password"
          Email := r.form "email"
          FirstName := r.form "firstName"
          MiddleName := r.form "middleName"
          LastName := r.form "lastName" }, .nil, 200)
    else
      match r.jsonUser { User.zero with Username := r.form "username" } with
      | none =>
        ({ User.zero with Username := r.form "username" },
          .fail "request format" userFormatMessage, 400)
      | some u => (u, .nil, 200)
  let u := sanitizeUser s parsed.1
  if parsed.2.1 = .nil then
    if requiredFields u = .nil then
      match s.UserService.AddUser u with
      | (added, none) =>
        match added with
        | none => ⟨[.AddUser u], .panic⟩
        | some v => ⟨[.AddUser u], .written ⟨"success", .user v, ""⟩ parsed.2.2⟩
      | (_, some .ErrUserNameOccupied) =>
        ⟨[.AddUser u], .written ⟨"fail", .fail "username" "username is occupied", ""⟩ 409⟩
      | (_, some .ErrEmailIsOccupied) =>
        ⟨[.AddUser u], .written ⟨"fail", .fail "email" "email is occupied", ""⟩ 409⟩
      | (added, some _) =>
        match added with
        | none => ⟨[.AddUser u], .panic⟩
        | some v =>
          ⟨[.AddUser u, .DeleteUser v.Username],
            .written ⟨"error", .nil, "server error when adding user"⟩ 500⟩
    else ⟨[], .written { failResponse with Data := requiredFields u } 400⟩
  else ⟨[], .written { failResponse with Data := parsed.2.1 } parsed.2.2⟩

/-- Function `putUser`.  In the `switch` on the error of `UpdateUser`, `u` is the
pointer `UpdateUser` returned. -/
def putUser (s : Setup) (r : Request) : Outcome :=
  let username := (r.vars "username").getD ""
  let guardCalls : List Call :=
    if username ≠ r.header "authorized_username" then [.GetUser username] else []
  if username ≠ r.header "authorized_username" ∧ (s.UserService.GetUser username).2 = none then
    ⟨guardCalls, .header 401⟩
  else
    match r.jsonUser User.zero with
    | none =>
      ⟨guardCalls, .written ⟨"fail", .fail "request format" userFormatMessage, ""⟩ 400⟩
    | some decoded =>
      let u := sanitizeUser s decoded
      if u.FirstName = "" ∧ u.Username = "" ∧ u.Bio = "" ∧ u.Email = "" ∧ u.LastName = "" ∧
          u.MiddleName = "" ∧ u.Password = "" then
        ⟨guardCalls,
          .written ⟨"fail", .fail "request" "request doesn't contain updatable data", ""⟩ 400⟩
      else
        match s.UserService.UpdateUser u username with
        | (updated, none) =>
          match updated with
          | none => ⟨guardCalls ++ [.UpdateUser u username], .panic⟩
          | some v =>
            ⟨guardCalls ++ [.UpdateUser u username],
              .written ⟨"success", .user v, ""⟩ 200⟩
        | (_, some .ErrUserNameOccupied) =>
          ⟨guardCalls ++ [.UpdateUser u username],
            .written ⟨"fail", .fail "username" "username is occupied by a channel", ""⟩ 409⟩
        | (_, some .ErrEmailIsOccupied) =>
          ⟨guardCalls ++ [.UpdateUser u username],
            .written ⟨"fail", .fail "email" "email is occupied", ""⟩ 409⟩
        | (_, some .ErrInvalidUserData) =>
          ⟨guardCalls ++ [.UpdateUser u username],
            .written ⟨"fail",
              .fail "request" "user must have email & password to be created", ""⟩ 400⟩
        | (updated, some _) =>
          match updated with
          | none => ⟨guardCalls ++ [.UpdateUser u username], .panic⟩
          | some v =>
            ⟨guardCalls ++ [.UpdateUser u username, .DeleteUser v.Username],
              .written ⟨"error", .nil, "server error when updating user"⟩ 500⟩

/-- The loop of `strconv.ParseUint` in base 10 on 64 bits, from the value `n`
read so far: `none` at a character that is not a digit (a syntax error), and
2^64 - 1 at the digit where the value leaves the range, whatever follows that
digit; otherwise the value of the digits. -/
def parseUintLoop : List Char → Nat → Option Nat
  | [], n => some n
  | c :: cs, n =>
    if c.isDigit then
      if n ≥ (2 ^ 64 - 1) / 10 + 1 then some (2 ^ 64 - 1)
      else if n * 10 + (c.toNat - 48) > 2 ^ 64 - 1 then some (2 ^ 64 - 1)
      else parseUintLoop cs (n * 10 + (c.toNat - 48))
    else none

/-- The integer `strconv.Atoi` returns next to its result on 64 bits, as
`strconv.ParseInt` computes it: 0 for the empty text, for a sign alone and for a
syntax error of `ParseUint`, and the nearest `int` when the value is out of
range.  The handlers read it when `atoi` is `none`. -/
def atoiFailed (s : String) : Int :=
  let neg : Bool := s.data.head? = some '-'
  let digits : List Char :=
    match s.data with
    | [] => []
    | c :: cs => if c = '+' ∨ c = '-' then cs else c :: cs
  match digits with
  | [] => 0
  | _ :: _ =>
    match parseUintLoop digits 0 with
    | none => 0
    | some un =>
      if neg then
        if un > 2 ^ 63 then -(2 ^ 63) else -(un : Int)
      else if un ≥ 2 ^ 63 then 2 ^ 63 - 1
      else (un : Int)

/-- Function `getUser`; `pathEscape` is `url.PathEscape`. -/
def getUser (s : Setup) (pathEscape : String → String) (r : Request) : Outcome :=
  let username := (r.vars "username").getD ""
  match s.UserService.GetUser username with
  | (found, none) =>
    match found with
    | none => ⟨[.GetUser username], .panic⟩
    | some u =>
      let shown : User :=
        if username ≠ r.header "authorized_username" then
          { u with Email := "", BookmarkedPosts := [] }
        else u
      let addressed : User :=
        if shown.PictureURL ≠ "" then
          { shown with
            PictureURL := s.HostAddress ++ s.ImageServingRoute ++ pathEscape shown.PictureURL }
        else shown
      ⟨[.GetUser username], .written ⟨"success", .user addressed, ""⟩ 200⟩
  | (_, some .ErrUserNotFound) =>
    ⟨[.GetUser username],
      .written ⟨"fail", .fail "username" ("user of username " ++ username ++ " not found"),
        ""⟩ 404⟩
  | (_, some _) =>
    ⟨[.GetUser username], .written ⟨"error", .nil, "server error when fetching user"⟩ 500⟩

/-- Function `sanitizeComment`; `MarkupSanitize` is the markup run followed by
the sanitizer. -/
def sanitizeComment (s : Setup) (c : Comment) : Comment :=
  { c with
    Content :=
      if s.MarkupSanitize c.Content = "<p></p>\n" then "" else s.MarkupSanitize c.Content }

/-- The block of `postComment` that reads the path: `ReplyTo` from `commentID`
when the route has it, -1 otherwise, then `OriginPost` from `postID`; with the
response data and status code it leaves. -/
def commentFromPath (r : Request) : Comment × Data × Nat :=
  let afterReply : Comment × Data × Nat :=
    match r.vars "commentID" with
    | some rootCommentIDRaw =>
      match atoi rootCommentIDRaw with
      | some n => ({ Comment.zero with ReplyTo := n }, .nil, 200)
      | none =>
        ({ Comment.zero with ReplyTo := atoiFailed rootCommentIDRaw },
          .fail "commentID" ("invalid commentID " ++ rootCommentIDRaw), 400)
    | none => ({ Comment.zero with ReplyTo := -1 }, .nil, 200)
  let postIDRaw := (r.vars "postID").getD ""
  match atoi postIDRaw with
  | some n => ({ afterReply.1 with OriginPost := n }, afterReply.2.1, afterReply.2.2)
  | none =>
    ({ afterReply.1 with OriginPost := atoiFailed postIDRaw },
      .fail "postID" ("invalid post id " ++ postIDRaw), 400)

/-- The block of `postComment` that reads the form or the JSON body into the
comment; it runs when the response has no data yet. -/
def commentFromBody (r : Request) (c : Comment) : Comment × Data × Nat :=
  if r.form "commenter" ≠ "" then
    ({ c with
        Commenter := r.form "commenter"
        Content := r.form "content"
        ReplyTo := (atoi (r.form "replyTo")).getD (-1) }, .nil, 200)
  else
    match r.jsonComment { c with Commenter := r.form "commenter" } with
    | none =>
      ({ c with Commenter := r.form "commenter" },
        .fail "request format" "bad request, use format", 400)
    | some decoded => (decoded, .nil, 200)

/-- Function `postComment`. -/
def postComment (s : Setup) (r : Request) : Outcome :=
  let path := commentFromPath r
  if path.2.1 = .nil then
    let body := commentFromBody r path.1
    if body.2.1 = .nil then
      if body.1.Commenter ≠ r.header "authorized_username" then ⟨[], .header 401⟩
      else
        let c : Comment :=
          { sanitizeComment s body.1 with Commenter := r.header "authorized_username" }
        if c.Content = "" then
          ⟨[], .written ⟨"fail", .fail "content" "content is required", ""⟩ 400⟩
        else
          match s.CommentService.AddComment c with
          | (added, none) =>
            match added with
            | none => ⟨[.AddComment c], .panic⟩
            | some v => ⟨[.AddComment c], .written ⟨"success", .comment v, ""⟩ body.2.2⟩
          | (_, some .ErrPostNotFound) =>
            ⟨[.AddComment c], .written ⟨"fail", .fail "postID" "post not found", ""⟩ 404⟩
          | (_, some .ErrCommentNotFound) =>
            ⟨[.AddComment c],
              .written ⟨"fail", .fail "commentID" "comment being replied to not found", ""⟩
                404⟩
          | (_, some .ErrUserNotFound) =>
            ⟨[.AddComment c], .written ⟨"fail", .fail "username" "user not found", ""⟩ 404⟩
          | (_, some (.other _)) =>
            ⟨[.AddComment c], .written ⟨"error", .nil, "server error when adding user"⟩ 500⟩
    else ⟨[], .written { failResponse with Data := body.2.1 } body.2.2⟩
  else ⟨[], .written { failResponse with Data := path.2.1 } path.2.2⟩

/-- The id `getComment`, `patchComment` and `deleteComment` read from the path,
from `replyID` when the route has it and from `commentID` otherwise: the raw
text, the integer `strconv.Atoi` returned, and whether it returned no error. -/
def readCommentID (r : Request) : String × Int × Bool :=
  let idRaw : String :=
    match r.vars "replyID" with
    | some v => v
    | none => (r.vars "commentID").getD ""
  match atoi idRaw with
  | some id => (idRaw, id, true)
  | none => (idRaw, atoiFailed idRaw, false)

/-- The response data after the id was read: a failure named "commentID" when
`strconv.Atoi` returned an error. -/
def commentIDData (read : String × Int × Bool) : Data :=
  if read.2.2 then .nil else .fail "commentID" ("invalid commentID/replyID " ++ read.1)

/-- Function `getComment`. -/
def getComment (s : Setup) (r : Request) : Outcome :=
  let read := readCommentID r
  if commentIDData read = .nil then
    match s.CommentService.GetComment read.2.1 with
    | (found, none) =>
      match found with
      | none => ⟨[.GetComment read.2.1], .panic⟩
      | some v => ⟨[.GetComment read.2.1], .written ⟨"success", .comment v, ""⟩ 200⟩
    | (_, some .ErrCommentNotFound) =>
      ⟨[.GetComment read.2.1],
        .written ⟨"fail",
          .fail "commentID" ("comment of commentID " ++ toString read.2.1 ++ " not found"),
          ""⟩ 404⟩
    | (_, some _) =>
      ⟨[.GetComment read.2.1],
        .written ⟨"error", .nil, "server error when fetching comment"⟩ 500⟩
  else ⟨[], .written { failResponse with Data := commentIDData read } 400⟩

/-- The block of `patchComment` and `deleteComment` that secures the route: it
fetches the comment of the id and returns with 404 when that fails and with 401
when the commenter is not the authorized user; `none` when the handler goes on. -/
def commentGuard (s : Setup) (r : Request) (id : Int) : Option Reply :=
  match s.CommentService.GetComment id with
  | (temp, none) =>
    match temp with
    | none => some .panic
    | some t => if t.Commenter ≠ r.header "authorized_username" then some (.header 401) else none
  | (_, some _) => some (.header 404)

/-- The last step of `patchComment`: `UpdateComment` with the pointer in `c` and
the switch on its error, from the response and status code reached so far. -/
def updateStep (s : Setup) (id : Int) (calls : List Call) (c : Option Comment)
    (response : jSendResponse) (statusCode : Nat) : Outcome :=
  match s.CommentService.UpdateComment c with
  | (updated, none) =>
    match updated with
    | none => ⟨calls ++ [.UpdateComment c], .panic⟩
    | some v =>
      ⟨calls ++ [.UpdateComment c],
        .written { response with Status := "success", Data := .comment v } statusCode⟩
  | (_, some .ErrCommentNotFound) =>
    ⟨calls ++ [.UpdateComment c],
      .written { response with
        Data := .fail "commentID" ("comment of commentID " ++ toString id ++ " not found") }
        404⟩
  | (_, some _) =>
    ⟨calls ++ [.UpdateComment c],
      .written { response with Status := "error", Message := "server error when adding user" }
        500⟩

/-- Function `patchComment`. -/
def patchComment (s : Setup) (r : Request) : Outcome :=
  let read := readCommentID r
  let id := read.2.1
  match commentGuard s r id with
  | some reply => ⟨[.GetComment id], reply⟩
  | none =>
    if commentIDData read = .nil then
      let parsed : Option Comment :=
        if r.form "content" = "" then
          r.jsonComment { Comment.zero with ID := id, Content := r.form "content" }
        else some { Comment.zero with ID := id, Content := r.form "content" }
      match parsed with
      | none =>
        ⟨[.GetComment id],
          .written ⟨"fail", .fail "request format" "bad request, use format", ""⟩ 400⟩
      | some decoded =>
        let c := sanitizeComment s decoded
        if c.Content = "" then
          match s.CommentService.GetComment id with
          | (found, none) =>
            match found with
            | none => ⟨[.GetComment id, .GetComment id], .panic⟩
            | some v =>
              ⟨[.GetComment id, .GetComment id], .written ⟨"success", .comment v, ""⟩ 200⟩
          | (found, some _) =>
            updateStep s id [.GetComment id, .GetComment id] found
              ⟨"error", .nil, "server error when adding user"⟩ 500
        else updateStep s id [.GetComment id] (some c) failResponse 200
    else ⟨[.GetComment id], .written { failResponse with Data := commentIDData read } 400⟩

/-- Function `deleteComment`: after the block that secures the route,
`DeleteComment` is invoked with the id, whatever the response data. -/
def deleteComment (s : Setup) (r : Request) : Outcome :=
  let read := readCommentID r
  let id := read.2.1
  let statusCode : Nat := if commentIDData read = .nil then 200 else 400
  match commentGuard s r id with
  | some reply => ⟨[.GetComment id], reply⟩
  | none =>
    match s.CommentService.DeleteComment id with
    | some _ =>
      ⟨[.GetComment id, .DeleteComment id],
        .written ⟨"error", commentIDData read, "server error when deleting user"⟩ 500⟩
    | none =>
      ⟨[.GetComment id, .DeleteComment id],
        .written ⟨"success", commentIDData read, ""⟩ statusCode⟩

/-! ## Auxiliary definitions for the properties of the handlers -/

/-- A paging parameter as a listing reads it: absent or empty it is the default,
a non-negative integer it is that integer, anything else is refused. -/
def pageParameter (raw : String) (absent : Int) : Option Int :=
  if raw = "" then some absent
  else
    match atoi raw with
    | some n => if 0 ≤ n then some n else none
    | none => none

/-- A request given by the lists of its path variables, query strings, form
values and headers; its body decodes to `body`. -/
def requestOf (vars query form header : List (String × String)) (body : Option User) :
    Request :=
  { vars := fun k => vars.lookup k
    query := fun k => (query.lookup k).getD ""
    form := fun k => (form.lookup k).getD ""
    header := fun k => (header.lookup k).getD ""
    jsonUser := fun _ => body
    jsonComment := fun _ => none }

/-- A user service whose `AddUser` and `UpdateUser` return the pointer `returned`
and the error `err`, and whose other operations succeed. -/
def userServiceReturning (returned : Option User) (err : Option UserError) : UserService :=
  { AddUser := fun _ => (returned, err)
    GetUser := fun username => (some { User.zero with Username := username }, none)
    UpdateUser := fun _ _ => (returned, err)
    DeleteUser := fun _ => none
    SearchUser := fun _ _ _ _ _ => ([], none) }

/-- A comment service with no comments. -/
def emptyCommentService : CommentService :=
  { AddComment := fun c => (some c, none)
    GetComment := fun _ => (none, some .ErrCommentNotFound)
    GetComments := fun _ _ _ _ _ => ([], none)
    GetReplies := fun _ _ _ _ _ => ([], none)
    UpdateComment := fun _ => (none, some .ErrCommentNotFound)
    DeleteComment := fun _ => none }

/-- A setup over the given user service, with sanitizers that change nothing. -/
def setupOf (users : UserService) : Setup :=
  { UserService := users, CommentService := emptyCommentService, StrictSanitize := id,
    MarkupSanitize := id, HostAddress := "http://localhost:8080", ImageServingRoute := "/images/" }

/-- The user the example requests submit. -/
def jane : User :=
  { User.zero with
    Username := "janedoe"
    Password := "secret"
    Email := "jane@example.com"
    FirstName := "Jane" }

/-- A form request to `POST /users` that submits `jane`. -/
def postJane : Request :=
  requestOf [] [] [("username", "janedoe"), ("password", "secret"),
    ("email", "jane@example.com"), ("firstName", "Jane")] [] none

/-- A request to `PUT /users/janedoe` by janedoe herself, with `jane` as body. -/
def putJane : Request :=
  requestOf [("username", "janedoe")] [] [] [("authorized_username", "janedoe")] (some jane)

/-- A user with the email and the bookmarks cleared: two users differ in nothing
but email and bookmarks exactly when this makes them equal. -/
def withoutPrivate (u : User) : User :=
  { u with
    Email := ""
    BookmarkedPosts := [] }

/-- The sort key and order the description of `getUsers` gives for a key and,
when the value has one, an order part: the three named keys sort by their field,
ascending unless told otherwise, every other key sorts by creation time,
descending unless told otherwise, and an order part is descending when it is
"dsc" and ascending when it is anything else. -/
def describedSort (key : String) (order : Option String) : UserSortBy × UserSortOrder :=
  let sortBy : UserSortBy :=
    if key = "username" then .SortByUsername
    else if key = "firstname" then .SortByFirstName
    else if key = "lastname" then .SortByLastName
    else .SortCreationTime
  match order with
  | some part => (sortBy, if part = "dsc" then .SortDescending else .SortAscending)
  | none =>
    (sortBy,
      if key = "username" ∨ key = "firstname" ∨ key = "lastname" then .SortAscending
      else .SortDescending)

/-- A user service over the stored users: `GetUser` finds a user by username or
returns `ErrUserNotFound`, `AddUser` and `UpdateUser` return the user they are
given, `SearchUser` returns every stored user. -/
def userServiceOf (stored : List User) : UserService :=
  { AddUser := fun u => (some u, none)
    GetUser := fun username =>
      match stored.find? (fun u => u.Username = username) with
      | some u => (some u, none)
      | none => (none, some .ErrUserNotFound)
    UpdateUser := fun u _ => (some u, none)
    DeleteUser := fun _ => none
    SearchUser := fun _ _ _ _ _ => (stored, none) }

/-- A comment service over the stored comments: `GetComment` finds a comment by
id or returns `ErrCommentNotFound`, `AddComment` and `UpdateComment` return the
comment they are given, `DeleteComment` succeeds. -/
def commentServiceOf (stored : List Comment) : CommentService :=
  { AddComment := fun c => (some c, none)
    GetComment := fun id =>
      match stored.find? (fun c => c.ID = id) with
      | some c => (some c, none)
      | none => (none, some .ErrCommentNotFound)
    GetComments := fun _ _ _ _ _ => (stored, none)
    GetReplies := fun _ _ _ _ _ => (stored, none)
    UpdateComment := fun c => (c, none)
    DeleteComment := fun _ => none }

/-- A setup over the given comment service, with sanitizers that change nothing. -/
def commentSetupOf (comments : CommentService) : Setup :=
  { setupOf (userServiceOf []) with CommentService := comments }

/-- A request to a comment route given by the lists of its path variables, form
values and headers; decoding its body into a comment gives `body`. -/
def commentRequestOf (vars form header : List (String × String))
    (body : Comment → Option Comment) : Request :=
  { requestOf vars [] form header none with jsonComment := body }

/-- A JSON body with the fields `commenter` and `content`. -/
def helloBody (c : Comment) : Option Comment :=
  some { c with
    Commenter := "janedoe"
    Content := "hello" }

/-- The comment of id 0, written by janedoe. -/
def commentZero : Comment :=
  { Comment.zero with
    Commenter := "janedoe"
    Content := "first" }

/-- The user `jane` stored with another email and with a bookmark. -/
def janeElsewhere : User :=
  { jane with
    Email := "doe@example.org"
    BookmarkedPosts := [(3, 1)] }

/-- A request to `GET /users/janedoe` by mallory. -/
def janeByMallory : Request :=
  requestOf [("username", "janedoe")] [] [] [("authorized_username", "mallory")] (some jane)

/-- A user service whose `GetUser` fails with an error other than
`ErrUserNotFound`, and whose other operations are those of `userServiceOf []`. -/
def userServiceDown : UserService :=
  { userServiceOf [] with GetUser := fun _ => (none, some (.other "timeout")) }

end Rest

namespace ChannelRepo

/-! ## Properties -/

/-! ### Queries and writes without a fault -/

theorem scanRows_ok {α β : Type} (step : β → α → β) (rs : List α) (init : β) :
    scanRows step (rs.map Except.ok) init = .ok (rs.foldl step init) := by
  induction rs generalizing init with
  | nil => rfl
  | cons a rest ih => simp [scanRows, ih]

theorem scanRows_error {α β : Type} (step : β → α → β) (rs : List α) (e : DbError)
    (tail : List (Except DbError α)) (init : β) :
    scanRows step (rs.map Except.ok ++ Except.error e :: tail) init = .error e := by
  induction rs generalizing init with
  | nil => rfl
  | cons a rest ih => simp [scanRows, ih]

theorem runQuery_clean {α β : Type} (rs : List α) (init : β) (step : β → α → β) :
    runQuery .clean rs init step = .ok (rs.foldl step init) := by
  simp [runQuery, dbQuery, scanRows_ok]

theorem runQuery_query {α β : Type} (e : DbError) (rs : List α) (init : β)
    (step : β → α → β) : runQuery (.query e) rs init step = .error (.query, e) := by
  simp only [runQuery, dbQuery]

theorem runQuery_scan_lt {α β : Type} (i : Nat) (e : DbError) (rs : List α) (init : β)
    (step : β → α → β) (hi : i < rs.length) :
    runQuery (.scan i e) rs init step = .error (.scan, e) := by
  simp only [runQuery, dbQuery, if_pos hi, scanRows_error]

theorem runQuery_scan_ge {α β : Type} (i : Nat) (e : DbError) (rs : List α) (init : β)
    (step : β → α → β) (hi : ¬ i < rs.length) :
    runQuery (.scan i e) rs init step = .ok (rs.foldl step init) := by
  simp only [runQuery, dbQuery, if_neg hi, List.append_nil,
    List.take_of_length_le (Nat.le_of_not_lt hi), scanRows_ok]

theorem runQuery_rows {α β : Type} (i : Nat) (e : DbError) (rs : List α) (init : β)
    (step : β → α → β) : runQuery (.rows i e) rs init step = .error (.rowsErr, e) := by
  simp only [runQuery, dbQuery, scanRows_ok]

theorem runQuery_ok {α β : Type} (f : QueryFault) (rs : List α) (init : β) (step : β → α → β)
    (b : β) (h : runQuery f rs init step = .ok b) : b = rs.foldl step init := by
  cases f with
  | clean => rw [runQuery_clean] at h; exact (Except.ok.inj h).symm
  | query e => rw [runQuery_query] at h; cases h
  | scan i e =>
    by_cases hi : i < rs.length
    · rw [runQuery_scan_lt i e rs init step hi] at h; cases h
    · rw [runQuery_scan_ge i e rs init step hi] at h; exact (Except.ok.inj h).symm
  | rows i e => rw [runQuery_rows] at h; cases h

theorem foldl_snoc {α : Type} (rs acc : List α) :
    rs.foldl (fun l a => l ++ [a]) acc = acc ++ rs := by
  induction rs generalizing acc with
  | nil => simp
  | cons a rest ih => simp [ih]

theorem GetAdmins_clean (db : DB) (u : String) :
    GetAdmins db .clean u = (selectAdmins db u, none) := by
  simp [GetAdmins, runQuery_clean, foldl_snoc]

theorem GetOwner_clean (db : DB) (u : String) :
    GetOwner db .clean u = (lastOwner (selectAdminFlags db u), none) := by
  simp [GetOwner, runQuery_clean, lastOwner]

theorem GetStickiedPost_clean (db : DB) (username : String) :
    GetStickiedPost db .clean username = (selectStickied db username, none) := by
  simp [GetStickiedPost, runQuery_clean, foldl_snoc]

theorem GetPosts_clean (db : DB) (u : String) :
    GetPosts db .clean u = (selectPosts db u, none) := by
  simp [GetPosts, runQuery_clean, foldl_snoc]

theorem GetUnOfficialRelease_clean (db : DB) (u : String) :
    GetUnOfficialRelease db .clean u = (selectReleases db u, none) := by
  simp [GetUnOfficialRelease, runQuery_clean, foldl_snoc]

theorem GetOfficialRelease_clean (db : DB) (u : String) :
    GetOfficialRelease db .clean u = (selectOfficial db u, none) := by
  simp [GetOfficialRelease, runQuery_clean, foldl_snoc]

theorem GetPicture_clean (db : DB) (u : String) :
    GetPicture db .clean u = (lastPicture (selectPicture db u), none) := by
  simp [GetPicture, runQuery_clean, lastPicture]

theorem GetAdmins_cases (db : DB) (f : QueryFault) (u : String) :
    GetAdmins db f u = (selectAdmins db u, none) ∨ ∃ e, GetAdmins db f u = ([], some e) := by
  unfold GetAdmins
  split
  · exact Or.inr ⟨_, rfl⟩
  · exact Or.inr ⟨_, rfl⟩
  · exact Or.inr ⟨_, rfl⟩
  · rename_i l hl
    have := runQuery_ok _ _ _ _ _ hl
    subst this
    left
    simp [foldl_snoc, lastOwner, lastPicture]

theorem GetOwner_cases (db : DB) (f : QueryFault) (u : String) :
    GetOwner db f u = (lastOwner (selectAdminFlags db u), none) ∨ ∃ e, GetOwner db f u = ("", some e) := by
  unfold GetOwner
  split
  · exact Or.inr ⟨_, rfl⟩
  · exact Or.inr ⟨_, rfl⟩
  · exact Or.inr ⟨_, rfl⟩
  · rename_i l hl
    have := runQuery_ok _ _ _ _ _ hl
    subst this
    left
    simp [foldl_snoc, lastOwner, lastPicture]

theorem GetStickiedPost_cases (db : DB) (f : QueryFault) (u : String) :
    GetStickiedPost db f u = (selectStickied db u, none) ∨ ∃ e, GetStickiedPost db f u = ([], some e) := by
  unfold GetStickiedPost
  split
  · exact Or.inr ⟨_, rfl⟩
  · exact Or.inr ⟨_, rfl⟩
  · exact Or.inr ⟨_, rfl⟩
  · rename_i l hl
    have := runQuery_ok _ _ _ _ _ hl
    subst this
    left
    simp [foldl_snoc, lastOwner, lastPicture]

theorem GetPosts_cases (db : DB) (f : QueryFault) (u : String) :
    GetPosts db f u = (selectPosts db u, none) ∨ ∃ e, GetPosts db f u = ([], some e) := by
  unfold GetPosts
  split
  · exact Or.inr ⟨_, rfl⟩
  · exact Or.inr ⟨_, rfl⟩
  · exact Or.inr ⟨_, rfl⟩
  · rename_i l hl
    have := runQuery_ok _ _ _ _ _ hl
    subst this
    left
    simp [foldl_snoc, lastOwner, lastPicture]

theorem GetUnOfficialRelease_cases (db : DB) (f : QueryFault) (u : String) :
    GetUnOfficialRelease db f u = (selectReleases db u, none) ∨ ∃ e, GetUnOfficialRelease db f u = ([], some e) := by
  unfold GetUnOfficialRelease
  split
  · exact Or.inr ⟨_, rfl⟩
  · exact Or.inr ⟨_, rfl⟩
  · exact Or.inr ⟨_, rfl⟩
  · rename_i l hl
    have := runQuery_ok _ _ _ _ _ hl
    subst this
    left
    simp [foldl_snoc, lastOwner, lastPicture]

theorem GetOfficialRelease_cases (db : DB) (f : QueryFault) (u : String) :
    GetOfficialRelease db f u = (selectOfficial db u, none) ∨ ∃ e, GetOfficialRelease db f u = ([], some e) := by
  unfold GetOfficialRelease
  split
  · exact Or.inr ⟨_, rfl⟩
  · exact Or.inr ⟨_, rfl⟩
  · exact Or.inr ⟨_, rfl⟩
  · rename_i l hl
    have := runQuery_ok _ _ _ _ _ hl
    subst this
    left
    simp [foldl_snoc, lastOwner, lastPicture]

theorem GetPicture_cases (db : DB) (f : QueryFault) (u : String) :
    GetPicture db f u = (lastPicture (selectPicture db u), none) ∨ ∃ e, GetPicture db f u = ("", some e) := by
  unfold GetPicture
  split
  · exact Or.inr ⟨_, rfl⟩
  · exact Or.inr ⟨_, rfl⟩
  · exact Or.inr ⟨_, rfl⟩
  · rename_i l hl
    have := runQuery_ok _ _ _ _ _ hl
    subst this
    left
    simp [foldl_snoc, lastOwner, lastPicture]

theorem dbExec_ok_iff (f : ExecFault) (stmt : DB → Except DbError DB) (db db1 : DB) :
    dbExec f stmt db = (db1, none) ↔ f = none ∧ stmt db = .ok db1 := by
  cases f with
  | some e => simp [dbExec]
  | none =>
    cases h : stmt db with
    | ok d => simp [dbExec, h]
    | error e => simp [dbExec, h]

theorem AddAdmin_ok_iff (db db1 : DB) (f : ExecFault) (ch a : String) :
    AddAdmin db f ch a = (db1, .ret none) ↔
      f = none ∧ insertAdmin ch a false db = .ok db1 := by
  cases f with
  | some e =>
    cases e <;> simp only [AddAdmin, dbExec] <;> (try split_ifs) <;> simp
  | none =>
    cases h : insertAdmin ch a false db with
    | ok d => simp [AddAdmin, dbExec, h]
    | error e =>
      cases e <;> simp only [AddAdmin, dbExec, h] <;> (try split_ifs) <;> simp

theorem ChangeOwner_ok_iff (db db1 : DB) (f1 f2 : ExecFault) (ch o : String) :
    ChangeOwner db f1 f2 ch o = (db1, .ret none) ↔
      f1 = none ∧ f2 = none ∧
      db1 = { db with channel_admins := db.channel_admins.map (fun r =>
          if r.channel_username = ch then { r with is_owner := decide (r.username = o) }
          else r) } := by
  have hmap : (db.channel_admins.map (fun r =>
      if r.channel_username = ch ∧ r.username = o then { r with is_owner := true } else r)).map
        (fun r => if r.channel_username = ch ∧ r.username ≠ o then
          { r with is_owner := false } else r) =
      db.channel_admins.map (fun r =>
        if r.channel_username = ch then { r with is_owner := decide (r.username = o) }
        else r) := by
    rw [List.map_map]
    apply List.map_congr_left
    intro r _
    by_cases h1 : r.channel_username = ch <;> by_cases h2 : r.username = o <;>
      simp [h1, h2]
  cases f1 with
  | some e => cases e <;> simp only [ChangeOwner, dbExec] <;> (try split_ifs) <;> simp
  | none =>
    cases f2 with
    | some e => simp [ChangeOwner, dbExec, updateOwnerFlag, updateOthersOwnerFlag]
    | none =>
      simp only [ChangeOwner, dbExec, updateOwnerFlag, updateOthersOwnerFlag, Bool.not_true, hmap]
      simp [eq_comm]

theorem AddChannel_ok (now : String) (db db1 : DB) (fInsert fAdmin fOwner fOthers : ExecFault)
    (c c1 : Channel)
    (h : AddChannel now db fInsert fAdmin fOwner fOthers c = (db1, .ret (some c1, none))) :
    c1 = c ∧ ¬ channelKeyTaken db c.ChannelUsername ∧
      db1 = { db with
        channels := db.channels ++ [ChannelRow.mk c.ChannelUsername c.Name (some c.Description) now]
        channel_admins :=
          (db.channel_admins ++ [AdminRow.mk c.ChannelUsername c.OwnerUsername false]).map (fun r =>
            if r.channel_username = c.ChannelUsername then
              { r with is_owner := decide (r.username = c.OwnerUsername) }
            else r) } := by
  unfold AddChannel at h
  rcases hx : dbExec fInsert (insertChannel now c.ChannelUsername c.Name c.Description) db with
    ⟨da, _ | e⟩
  · rw [hx] at h
    simp only at h
    rcases ha : AddAdmin da fAdmin c.ChannelUsername c.OwnerUsername with ⟨dbb, r | _⟩
    · cases r with
      | some e => rw [ha] at h; simp at h
      | none =>
        rw [ha] at h
        simp only at h
        rcases ho : ChangeOwner dbb fOwner fOthers c.ChannelUsername c.OwnerUsername with
          ⟨dc, r | _⟩
        · cases r with
          | some e => rw [ho] at h; simp at h
          | none =>
            rw [ho] at h
            simp only [Prod.mk.injEq, Go.ret.injEq, Option.some.injEq, and_true] at h
            obtain ⟨hdb, hc⟩ := h
            subst hdb
            obtain ⟨_, hins⟩ := (dbExec_ok_iff _ _ _ _).1 hx
            obtain ⟨_, hadm⟩ := (AddAdmin_ok_iff _ _ _ _ _).1 ha
            obtain ⟨_, _, hown⟩ := (ChangeOwner_ok_iff _ _ _ _ _ _).1 ho
            unfold insertChannel at hins
            split_ifs at hins with hk
            unfold insertAdmin at hadm
            split_ifs at hadm with hk2 hk3
            cases hins
            cases hadm
            exact ⟨hc.symm, hk, hown⟩
        · rw [ho] at h; simp at h
    · rw [ha] at h; simp at h
  · rw [hx] at h; simp at h

theorem selectChannel_eq_nil_iff (db : DB) (u : String) :
    selectChannel db u = [] ↔ ¬ ∃ r ∈ db.channels, r.username = u := by
  simp [selectChannel, List.filter_eq_nil_iff]

theorem GetChannel_row_error (parseTime : String → Option Time) (db : DB) (g : GetChannelFaults)
    (u : String) (row : String × String × String) (rest : List (String × String × String))
    (hsel : selectChannel db u = row :: rest) (hrow : g.row = none) :
    (GetChannel parseTime db g u).2 ≠ some .ErrChannelNotFound := by
  unfold GetChannel
  simp only [dbQueryRow, hrow, hsel]
  repeat' split
  all_goals simp

/-! ### The owner a scan of the admin rows finds -/

theorem foldl_owner_fixed (o : String) (l : List (String × Bool))
    (h : ∀ r ∈ l, r.2 = true → r.1 = o) :
    l.foldl (fun owner row => if row.2 then row.1 else owner) o = o := by
  induction l with
  | nil => rfl
  | cons a t ih =>
    have ht : ∀ r ∈ t, r.2 = true → r.1 = o := fun r hr => h r (List.mem_cons_of_mem _ hr)
    by_cases ha : a.2 = true
    · have : a.1 = o := h a (List.mem_cons_self _ _) ha
      simp [ha, this, ih ht]
    · simp [ha, ih ht]

theorem foldl_owner_eq (o : String) (l : List (String × Bool)) (init : String)
    (h : ∀ r ∈ l, r.2 = true → r.1 = o) (hex : ∃ r ∈ l, r.2 = true) :
    l.foldl (fun owner row => if row.2 then row.1 else owner) init = o := by
  induction l generalizing init with
  | nil => simp at hex
  | cons a t ih =>
    have ht : ∀ r ∈ t, r.2 = true → r.1 = o := fun r hr => h r (List.mem_cons_of_mem _ hr)
    by_cases ha : a.2 = true
    · have : a.1 = o := h a (List.mem_cons_self _ _) ha
      simp [ha, this, foldl_owner_fixed o t ht]
    · obtain ⟨r, hr, hr2⟩ := hex
      rcases List.mem_cons.1 hr with rfl | hrt
      · exact absurd hr2 ha
      · simpa [ha] using ih init ht ⟨r, hrt, hr2⟩

theorem lastOwner_eq (o : String) (l : List (String × Bool))
    (h : ∀ r ∈ l, r.2 = true → r.1 = o) (hex : ∃ r ∈ l, r.2 = true) : lastOwner l = o :=
  foldl_owner_eq o l "" h hex

theorem filter_filter_singleton {α : Type} (p q : α → Bool) (l : List α) (r0 : α)
    (h : l.filter p = [r0]) (hq : q r0 = true) : (l.filter q).filter p = [r0] := by
  have hcomm : (l.filter q).filter p = (l.filter p).filter q := by
    rw [List.filter_filter, List.filter_filter]
    exact List.filter_congr (fun a _ => Bool.and_comm _ _)
  rw [hcomm, h]
  simp [hq]

theorem mem_ownerRows (db : DB) (ch : String) (r : AdminRow) :
    r ∈ ownerRows db ch ↔ r ∈ db.channel_admins ∧ r.channel_username = ch ∧ r.is_owner = true := by
  simp [ownerRows, List.mem_filter]

theorem lastOwner_of_ownerRows (db : DB) (ch : String) (r0 : AdminRow)
    (h : ownerRows db ch = [r0]) : lastOwner (selectAdminFlags db ch) = r0.username := by
  have h0 : r0 ∈ ownerRows db ch := by rw [h]; exact List.mem_singleton_self _
  rw [mem_ownerRows] at h0
  apply lastOwner_eq
  · intro r hr h2
    simp only [selectAdminFlags, List.mem_map, List.mem_filter, decide_eq_true_eq] at hr
    obtain ⟨a, ⟨ha, hau⟩, rfl⟩ := hr
    have : a ∈ ownerRows db ch := (mem_ownerRows db ch a).2 ⟨ha, hau, h2⟩
    rw [h] at this
    rw [List.mem_singleton.1 this]
  · refine ⟨(r0.username, r0.is_owner), ?_, h0.2.2⟩
    simp only [selectAdminFlags, List.mem_map, List.mem_filter, decide_eq_true_eq]
    exact ⟨r0, ⟨h0.1, h0.2.1⟩, rfl⟩

theorem ownerInvariant_of (db : DB) (ch : String) (r0 : AdminRow)
    (h : ownerRows db ch = [r0]) (hne : r0.username ≠ "") : ownerInvariant db ch := by
  have hlast := lastOwner_of_ownerRows db ch r0 h
  have h0 : r0 ∈ ownerRows db ch := by rw [h]; exact List.mem_singleton_self _
  rw [mem_ownerRows] at h0
  refine ⟨by rw [GetOwner_clean], ?_, ?_, ?_⟩
  · rw [GetOwner_clean]; simpa [hlast] using hne
  · rw [GetOwner_clean, GetAdmins_clean]
    simp only [hlast, selectAdmins, List.mem_map, List.mem_filter, decide_eq_true_eq]
    exact ⟨r0, ⟨h0.1, h0.2.1⟩, rfl⟩
  · simp [ownerCount, h]

/-! ### Stickied posts -/

/-- C1: when `GetStickiedPost` returns exactly two ids for the channel,
`StickyPost` returns `ErrStickiedPostFull` for every post id and hands back the
storage state it was given, so the channel's stickied posts are the same two. -/
theorem StickyPost_full (db : DB) (fQuery : QueryFault) (fInsert : ExecFault)
    (channelUsername : String) (postID : Nat) (a : List Nat)
    (hget : GetStickiedPost db fQuery channelUsername = (a, none)) (hlen : a.length = 2) :
    StickyPost db fQuery fInsert channelUsername postID = (db, some .ErrStickiedPostFull) ∧
      GetStickiedPost (StickyPost db fQuery fInsert channelUsername postID).1 fQuery
        channelUsername = (a, none) := by
  have h : StickyPost db fQuery fInsert channelUsername postID =
      (db, some .ErrStickiedPostFull) := by
    simp [StickyPost, hget, hlen]
  rw [h]
  exact ⟨rfl, hget⟩

/-- Instance of C1: channel B of `stickyFull` has the stickied posts 1 and 2,
and stickying post 3 on it is refused. -/
theorem StickyPost_full_witness :
    GetStickiedPost stickyFull .clean "B" = ([1, 2], none) ∧
      StickyPost stickyFull .clean none "B" 3 = (stickyFull, some .ErrStickiedPostFull) :=
  ⟨by decide, (StickyPost_full stickyFull .clean none "B" 3 [1, 2] (by decide) (by decide)).1⟩

/-- C2, at the failing input: in `stickyFull` every channel has at most two
stickied posts; `StickyPost "A" 3` checks the count of channel A (zero), returns
nil and inserts post 3, which belongs to channel B; channel B then has three
stickied posts. -/
theorem StickyPost_exceeds_cap :
    (∀ ch, (GetStickiedPost stickyFull .clean ch).1.length ≤ 2) ∧
      (StickyPost stickyFull .clean none "A" 3).2 = none ∧
      GetStickiedPost (StickyPost stickyFull .clean none "A" 3).1 .clean "B" =
        ([1, 2, 3], none) := by
  refine ⟨?_, by decide, by decide⟩
  intro ch
  rw [GetStickiedPost_clean]
  by_cases h : ch = "B"
  · subst h; decide
  · have h2 : ¬ "B" = ch := fun e => h e.symm
    simp [selectStickied, stickyFull, List.filter_cons, h2]

/-! ### Owner and admins -/

/-- C3, at the failing input: bo is not an admin of the channel; `ChangeOwner`
to bo returns nil, the first update matches no row, the second one takes the
owner status from al, and no admin row of the channel has owner status true. -/
theorem ChangeOwner_stranger_no_owner :
    ownerCount soleOwner "ch" = 1 ∧
      ChangeOwner soleOwner none none "ch" "bo" =
        ({ soleOwner with channel_admins := [⟨"ch", "al", false⟩] }, .ret none) ∧
      ownerCount (ChangeOwner soleOwner none none "ch" "bo").1 "ch" = 0 ∧
      GetOwner (ChangeOwner soleOwner none none "ch" "bo").1 .clean "ch" = ("", none) := by
  decide

/-- C4, as stated, fails: in `twoAdmins` exactly one admin row has owner status
true; `DeleteAdmin` of the owner al returns nil, and afterwards no admin row has
owner status true and `GetOwner` returns the empty username. -/
theorem DeleteAdmin_owner_no_owner :
    ownerCount twoAdmins "ch" = 1 ∧
      (DeleteAdmin twoAdmins none "ch" "al").2 = none ∧
      ownerCount (DeleteAdmin twoAdmins none "ch" "al").1 "ch" = 0 ∧
      GetOwner (DeleteAdmin twoAdmins none "ch" "al").1 .clean "ch" = ("", none) ∧
      GetAdmins (DeleteAdmin twoAdmins none "ch" "al").1 .clean "ch" = (["bo"], none) := by
  decide

/-- C4, amended: from a state in which the channel has exactly one admin row
with owner status true, whose username is non-empty, the owner invariant holds
after a successful `AddAdmin` of any username, after a successful `DeleteAdmin`
of a username other than the owner, and after a successful `ChangeOwner` to a
non-empty username that names exactly one admin row of the channel. -/
theorem owner_invariant_preserved (db db1 : DB) (ch u : String)
    (hone : ownerCount db ch = 1) (hne : (GetOwner db .clean ch).1 ≠ "") :
    (∀ f, AddAdmin db f ch u = (db1, .ret none) → ownerInvariant db1 ch) ∧
    (∀ f, DeleteAdmin db f ch u = (db1, none) → u ≠ (GetOwner db .clean ch).1 →
      ownerInvariant db1 ch) ∧
    (∀ f1 f2, ChangeOwner db f1 f2 ch u = (db1, .ret none) → adminCount db ch u = 1 →
      u ≠ "" → ownerInvariant db1 ch) := by
  obtain ⟨r0, hr0⟩ := List.length_eq_one.1 hone
  have hlast := lastOwner_of_ownerRows db ch r0 hr0
  rw [GetOwner_clean] at hne
  simp only [hlast] at hne
  refine ⟨?_, ?_, ?_⟩
  · intro f hadd
    obtain ⟨_, hins⟩ := (AddAdmin_ok_iff _ _ _ _ _).1 hadd
    unfold insertAdmin at hins
    split_ifs at hins
    cases hins
    apply ownerInvariant_of _ ch r0 _ hne
    unfold ownerRows at hr0 ⊢
    simp [List.filter_append, hr0]
  · intro f hdel hu
    rw [GetOwner_clean] at hu
    simp only [hlast] at hu
    have hx : dbExec f (deleteAdmin ch u) db = (db1, none) := by
      unfold DeleteAdmin at hdel
      rcases hd : dbExec f (deleteAdmin ch u) db with ⟨d, _ | e⟩
      · rw [hd] at hdel; simpa using hdel
      · rw [hd] at hdel; simp at hdel
    obtain ⟨_, hst⟩ := (dbExec_ok_iff _ _ _ _).1 hx
    unfold deleteAdmin at hst
    cases hst
    apply ownerInvariant_of _ ch r0 _ hne
    unfold ownerRows at hr0 ⊢
    exact filter_filter_singleton _ _ _ r0 hr0 (by simp [Ne.symm hu])
  · intro f1 f2 hch hcount hu
    obtain ⟨_, _, hdb⟩ := (ChangeOwner_ok_iff _ _ _ _ _ _).1 hch
    subst hdb
    obtain ⟨a, ha⟩ := List.length_eq_one.1 hcount
    have hamem : a ∈ adminRows db ch u := by rw [ha]; exact List.mem_singleton_self _
    simp only [adminRows, List.mem_filter, Bool.and_eq_true, decide_eq_true_eq] at hamem
    have hrows : ownerRows
        { db with channel_admins := db.channel_admins.map (fun r =>
            if r.channel_username = ch then { r with is_owner := decide (r.username = u) }
            else r) } ch = [{ a with is_owner := true }] := by
      unfold ownerRows adminRows at *
      simp only [List.filter_map]
      have hpred : ((fun r : AdminRow => decide (r.channel_username = ch) && r.is_owner) ∘
          (fun r : AdminRow =>
            if r.channel_username = ch then { r with is_owner := decide (r.username = u) }
            else r)) =
          (fun r : AdminRow => decide (r.channel_username = ch) && decide (r.username = u)) := by
        funext r
        by_cases h1 : r.channel_username = ch <;> simp [h1]
      rw [hpred, ha]
      simp [hamem.2.1, hamem.2.2]
    exact ownerInvariant_of _ ch _ hrows (by simpa [hamem.2.2] using hu)

/-- Instance of the amended C4 in `twoAdmins`: adding a third admin, deleting
the admin who is not the owner, and making that admin the owner each keep the
owner invariant. -/
theorem owner_invariant_preserved_witness :
    ownerCount twoAdmins "ch" = 1 ∧
      ownerInvariant (AddAdmin { twoAdmins with users := ["al", "bo", "cy"] } none "ch" "cy").1
        "ch" ∧
      ownerInvariant (DeleteAdmin twoAdmins none "ch" "bo").1 "ch" ∧
      ownerInvariant (ChangeOwner twoAdmins none none "ch" "bo").1 "ch" :=
  ⟨by decide,
    (owner_invariant_preserved { twoAdmins with users := ["al", "bo", "cy"] }
      (AddAdmin { twoAdmins with users := ["al", "bo", "cy"] } none "ch" "cy").1 "ch" "cy"
      (by decide) (by decide)).1 none (by decide),
    (owner_invariant_preserved twoAdmins (DeleteAdmin twoAdmins none "ch" "bo").1 "ch" "bo"
      (by decide) (by decide)).2.1 none (by decide) (by decide),
    (owner_invariant_preserved twoAdmins (ChangeOwner twoAdmins none none "ch" "bo").1 "ch" "bo"
      (by decide) (by decide)).2.2 none none (by decide) (by decide) (by decide)⟩

/-! ### Add, get, delete, update -/

/-- C5: after `AddChannel(c)` succeeds, `GetChannel(c.ChannelUsername)` succeeds
(no call of the fetch failing at the connection, the creation time the store
assigned being a timestamp that parses) and returns a channel with the
username, name, description and owner of `c`, whose admin list contains the
owner. -/
theorem GetChannel_after_AddChannel (parseTime : String → Option Time) (now : String)
    (t : Time) (db db1 : DB) (fInsert fAdmin fOwner fOthers : ExecFault) (c : Channel)
    (hadd : AddChannel now db fInsert fAdmin fOwner fOthers c = (db1, .ret (some c, none)))
    (hparse : parseTime now = some t) :
    ∃ got, GetChannel parseTime db1 .clean c.ChannelUsername = (some got, none) ∧
      got.ChannelUsername = c.ChannelUsername ∧ got.Name = c.Name ∧
      got.Description = c.Description ∧ got.OwnerUsername = c.OwnerUsername ∧
      c.OwnerUsername ∈ got.AdminUsernames := by
  obtain ⟨_, hkey, hdb⟩ := AddChannel_ok now db db1 fInsert fAdmin fOwner fOthers c c hadd
  have hsel : selectChannel db1 c.ChannelUsername = [(c.Name, c.Description, now)] := by
    have hold : db.channels.filter (fun r => r.username = c.ChannelUsername) = [] := by
      rw [List.filter_eq_nil_iff]
      intro r hr hru
      exact hkey ⟨r, hr, by simpa using hru⟩
    subst hdb
    simp [selectChannel, List.filter_append, hold]
  have hrow : (AdminRow.mk c.ChannelUsername c.OwnerUsername true) ∈ db1.channel_admins := by
    subst hdb
    simp only [List.mem_map]
    exact ⟨⟨c.ChannelUsername, c.OwnerUsername, false⟩, by simp, by simp⟩
  have hown : lastOwner (selectAdminFlags db1 c.ChannelUsername) = c.OwnerUsername := by
    apply lastOwner_eq
    · intro r hr h2
      simp only [selectAdminFlags, List.mem_map, List.mem_filter] at hr
      obtain ⟨a, ⟨ha, hau⟩, rfl⟩ := hr
      subst hdb
      rw [List.mem_map] at ha
      obtain ⟨b, _, rfl⟩ := ha
      by_cases hbu : b.channel_username = c.ChannelUsername
      · simpa [hbu] using h2
      · simp [hbu] at hau
    · exact ⟨(c.OwnerUsername, true), by
        simp only [selectAdminFlags, List.mem_map, List.mem_filter]
        exact ⟨_, ⟨hrow, by simp⟩, rfl⟩, rfl⟩
  have hmem : c.OwnerUsername ∈ selectAdmins db1 c.ChannelUsername := by
    simp only [selectAdmins, List.mem_map, List.mem_filter]
    exact ⟨_, ⟨hrow, by simp⟩, rfl⟩
  have hget : GetChannel parseTime db1 .clean c.ChannelUsername =
      (some
        { Name := c.Name
          Description := c.Description
          CreationTime := t
          AdminUsernames := selectAdmins db1 c.ChannelUsername
          OwnerUsername := lastOwner (selectAdminFlags db1 c.ChannelUsername)
          StickiedPostIDs := selectStickied db1 c.ChannelUsername
          PostIDs := selectPosts db1 c.ChannelUsername
          ReleaseIDs := selectReleases db1 c.ChannelUsername
          OfficialReleaseIDs := selectOfficial db1 c.ChannelUsername
          PictureURL := lastPicture (selectPicture db1 c.ChannelUsername)
          ChannelUsername := c.ChannelUsername }, none) := by
    simp only [GetChannel, GetChannelFaults.clean, dbQueryRow, hsel, hparse, GetAdmins_clean,
      GetOwner_clean, GetStickiedPost_clean, GetPosts_clean, GetUnOfficialRelease_clean,
      GetOfficialRelease_clean, GetPicture_clean]
  exact ⟨_, hget, rfl, rfl, rfl, hown, hmem⟩

/-- Instance of C5: adding channel c2 with owner bo to `soleOwner` succeeds, and
the fetch returns it. -/
theorem GetChannel_after_AddChannel_witness :
    ∃ got, GetChannel parseNumeral
        (AddChannel "5" soleOwner none none none none (Channel.basic "c2" "N" "D" "bo")).1
        .clean "c2" = (some got, none) ∧
      got.ChannelUsername = "c2" ∧ got.Name = "N" ∧ got.Description = "D" ∧
      got.OwnerUsername = "bo" ∧ "bo" ∈ got.AdminUsernames :=
  GetChannel_after_AddChannel parseNumeral "5" 5 soleOwner
    (AddChannel "5" soleOwner none none none none (Channel.basic "c2" "N" "D" "bo")).1
    none none none none (Channel.basic "c2" "N" "D" "bo") (by decide) (by decide)

/-- C6: after `DeleteChannel(username)` returns nil, `GetChannel(username)`
returns a nil channel, and its error is `ErrChannelNotFound` whenever the row
lookup reaches storage. -/
theorem GetChannel_after_DeleteChannel (parseTime : String → Option Time) (db db1 : DB)
    (f : ExecFault) (g : GetChannelFaults) (username : String)
    (hdel : DeleteChannel db f username = (db1, none)) :
    (GetChannel parseTime db1 g username).1 = none ∧
      (g.row = none → GetChannel parseTime db1 g username = (none, some .ErrChannelNotFound)) := by
  have hsel : selectChannel db1 username = [] := by
    cases f with
    | some e => simp [DeleteChannel, dbExec] at hdel
    | none =>
      simp only [DeleteChannel, dbExec, deleteChannel, Prod.mk.injEq, and_true] at hdel
      subst hdel
      simp [selectChannel, removeDependents, List.filter_eq_nil_iff]
  cases hrow : g.row with
  | some e => simp [GetChannel, dbQueryRow, hrow]
  | none => simp [GetChannel, dbQueryRow, hrow, hsel]

/-- Instance of C6: deleting the channel of `soleOwner` succeeds and the channel is
then not found. -/
theorem GetChannel_after_DeleteChannel_witness :
    (DeleteChannel soleOwner none "ch").2 = none ∧
      GetChannel parseNumeral (DeleteChannel soleOwner none "ch").1 .clean "ch" =
        (none, some .ErrChannelNotFound) :=
  ⟨by decide, (GetChannel_after_DeleteChannel parseNumeral soleOwner
    (DeleteChannel soleOwner none "ch").1 none .clean "ch" (by decide)).2 rfl⟩

/-- C7: for a patch whose username and description are empty, `UpdateChannel`
with a non-empty name rewrites the name column of the rows with that username
and nothing else (every other column, row and table is as before, and a failed
write changes nothing); with an empty name too it returns the storage state it
was given. -/
theorem UpdateChannel_sparse (db : DB) (fName fUsername fDescription : ExecFault)
    (channelUsername : String) (c : Channel) (hu : c.ChannelUsername = "")
    (hd : c.Description = "") :
    (c.Name ≠ "" → fName = none →
      UpdateChannel db fName fUsername fDescription channelUsername c =
        ({ db with channels := db.channels.map (fun r =>
            if r.username = channelUsername then { r with name := c.Name } else r) },
          some c, none)) ∧
    (c.Name ≠ "" → fName ≠ none →
      (UpdateChannel db fName fUsername fDescription channelUsername c).1 = db) ∧
    (c.Name = "" →
      UpdateChannel db fName fUsername fDescription channelUsername c = (db, some c, none)) := by
  refine ⟨?_, ?_, ?_⟩
  · intro hn hf
    subst hf
    simp [UpdateChannel, execUpdateStatementOnColumn, dbExec, updateChannelsColumn, hn, hu, hd]
  · intro hn hf
    cases fName with
    | none => exact absurd rfl hf
    | some e => simp [UpdateChannel, execUpdateStatementOnColumn, dbExec, hn]
  · intro hn
    simp [UpdateChannel, hn, hu, hd]

/-- Instance of C7: a patch with only the name set rewrites the name of the
channel of `soleOwner` and nothing else; the empty patch leaves the state as it is. -/
theorem UpdateChannel_sparse_witness :
    UpdateChannel soleOwner none none none "ch" (Channel.basic "" "N" "" "") =
        ({ soleOwner with channels := [⟨"ch", "N", some "d", "3"⟩] },
          some (Channel.basic "" "N" "" ""), none) ∧
      UpdateChannel soleOwner none none none "ch" (Channel.basic "" "" "" "") =
        (soleOwner, some (Channel.basic "" "" "" ""), none) :=
  ⟨(UpdateChannel_sparse soleOwner none none none "ch" (Channel.basic "" "N" "" "") rfl rfl).1
      (by decide) rfl,
    (UpdateChannel_sparse soleOwner none none none "ch" (Channel.basic "" "" "" "") rfl rfl).2.2
      rfl⟩

/-- C8, at the failing input: a patch that renames channel ch to c2 and sets the
description to x returns successfully; the description update is keyed by the
old username, matches no row, and the channel stored under c2 keeps the
description d.  The same happens when the channel has no dependent rows at all
(second half), so no referential action of the store is involved. -/
theorem UpdateChannel_rename_keeps_description :
    ((UpdateChannel soleOwner none none none "ch" (Channel.basic "c2" "" "x" "")).2 =
        (some (Channel.basic "c2" "" "x" ""), none) ∧
      (GetChannel parseNumeral
        (UpdateChannel soleOwner none none none "ch" (Channel.basic "c2" "" "x" "")).1
        .clean "c2").1.map (fun c => c.Description) = some "d" ∧
      (GetChannel parseNumeral
        (UpdateChannel soleOwner none none none "ch" (Channel.basic "c2" "" "x" "")).1
        .clean "ch").2 = some .ErrChannelNotFound) ∧
    ((UpdateChannel { soleOwner with channel_admins := [] } none none none "ch"
        (Channel.basic "c2" "" "x" "")).1.channels = [⟨"c2", "n", some "d", "3"⟩] ∧
      (UpdateChannel { soleOwner with channel_admins := [] } none none none "ch"
        (Channel.basic "c2" "" "x" "")).2 = (some (Channel.basic "c2" "" "x" ""), none)) := by
  decide

/-! ### The composite fetch -/

/-- C9: when the row lookup itself does not fail, `GetChannel` returns
`ErrChannelNotFound` if and only if `channels` holds no row with that username,
and in that case the channel returned is nil. -/
theorem GetChannel_notFound_iff (parseTime : String → Option Time) (db : DB)
    (g : GetChannelFaults) (channelUsername : String) (hrow : g.row = none) :
    ((GetChannel parseTime db g channelUsername).2 = some .ErrChannelNotFound ↔
        ¬ ∃ r ∈ db.channels, r.username = channelUsername) ∧
      ((¬ ∃ r ∈ db.channels, r.username = channelUsername) →
        (GetChannel parseTime db g channelUsername).1 = none) := by
  have hnil : (¬ ∃ r ∈ db.channels, r.username = channelUsername) →
      GetChannel parseTime db g channelUsername = (none, some .ErrChannelNotFound) := by
    intro h
    have hsel := (selectChannel_eq_nil_iff db channelUsername).2 h
    simp [GetChannel, dbQueryRow, hrow, hsel]
  refine ⟨⟨?_, fun h => by rw [hnil h]⟩, fun h => by rw [hnil h]⟩
  intro herr hex
  cases hsel : selectChannel db channelUsername with
  | nil => exact (selectChannel_eq_nil_iff db channelUsername).1 hsel hex
  | cons row rest => exact GetChannel_row_error parseTime db g channelUsername row rest hsel hrow herr

/-- Instance of C9: in `soleOwner` the lookup of an absent username fails with
`ErrChannelNotFound`, the lookup of the stored one does not. -/
theorem GetChannel_notFound_iff_witness :
    GetChannelFaults.clean.row = none ∧
      (GetChannel parseNumeral soleOwner .clean "zz").2 = some .ErrChannelNotFound ∧
      (GetChannel parseNumeral soleOwner .clean "ch").2 ≠ some .ErrChannelNotFound :=
  ⟨rfl,
    (GetChannel_notFound_iff parseNumeral soleOwner .clean "zz" rfl).1.2 (by decide),
    fun h => (GetChannel_notFound_iff parseNumeral soleOwner .clean "ch" rfl).1.1 h (by decide)⟩

/-- C10: `GetChannel` returns a nil channel exactly when it returns a non-nil
error; it returns a non-nil channel exactly when the row lookup, the timestamp
parse and the seven relation queries all succeed; and the channel it returns has
`ChannelUsername` equal to the argument and each relation field equal to the
result of its query, which is the rows of that query in the order storage
returned them (for owner and picture, what the scan loop keeps of them). -/
theorem GetChannel_all_or_nothing (parseTime : String → Option Time) (db : DB)
    (g : GetChannelFaults) (u : String) :
    ((GetChannel parseTime db g u).1 = none ↔ (GetChannel parseTime db g u).2 ≠ none) ∧
    ((GetChannel parseTime db g u).1 ≠ none ↔ GetChannelStepsSucceed parseTime db g u) ∧
    (∀ c, (GetChannel parseTime db g u).1 = some c →
      c.ChannelUsername = u ∧
      (c.AdminUsernames = (GetAdmins db g.admins u).1 ∧
        c.AdminUsernames = selectAdmins db u) ∧
      (c.OwnerUsername = (GetOwner db g.owner u).1 ∧
        c.OwnerUsername = lastOwner (selectAdminFlags db u)) ∧
      (c.StickiedPostIDs = (GetStickiedPost db g.stickied u).1 ∧
        c.StickiedPostIDs = selectStickied db u) ∧
      (c.PostIDs = (GetPosts db g.posts u).1 ∧ c.PostIDs = selectPosts db u) ∧
      (c.ReleaseIDs = (GetUnOfficialRelease db g.unofficial u).1 ∧
        c.ReleaseIDs = selectReleases db u) ∧
      (c.OfficialReleaseIDs = (GetOfficialRelease db g.official u).1 ∧
        c.OfficialReleaseIDs = selectOfficial db u) ∧
      (c.PictureURL = (GetPicture db g.picture u).1 ∧
        c.PictureURL = lastPicture (selectPicture db u))) := by
  unfold GetChannelStepsSucceed rowStepSucceeds GetChannel
  cases hq : dbQueryRow g.row (selectChannel db u) with
  | noRows => simp
  | failed e => simp
  | row r =>
    obtain ⟨n, d, t⟩ := r
    cases hp : parseTime t with
    | none => simp [hp]
    | some ct =>
      rcases GetAdmins_cases db g.admins u with h1 | ⟨e, h1⟩ <;>
      rcases GetOwner_cases db g.owner u with h2 | ⟨e, h2⟩ <;>
      rcases GetStickiedPost_cases db g.stickied u with h3 | ⟨e, h3⟩ <;>
      rcases GetPosts_cases db g.posts u with h4 | ⟨e, h4⟩ <;>
      rcases GetUnOfficialRelease_cases db g.unofficial u with h5 | ⟨e, h5⟩ <;>
      rcases GetOfficialRelease_cases db g.official u with h6 | ⟨e, h6⟩ <;>
      rcases GetPicture_cases db g.picture u with h7 | ⟨e, h7⟩ <;>
      simp [hp, h1, h2, h3, h4, h5, h6, h7]

/-- Instance of C10: in `soleOwner` the fetch assembles the channel when no call
fails, and returns a nil channel when the posts query fails. -/
theorem GetChannel_all_or_nothing_witness :
    GetChannel parseNumeral soleOwner .clean "ch" =
        (some { ChannelUsername := "ch", Name := "n", Description := "d", CreationTime := 3,
                AdminUsernames := ["al"], OwnerUsername := "al", StickiedPostIDs := [],
                PostIDs := [], ReleaseIDs := [], OfficialReleaseIDs := [], PictureURL := "" },
          none) ∧
      GetChannelStepsSucceed parseNumeral soleOwner .clean "ch" ∧
      ¬ GetChannelStepsSucceed parseNumeral soleOwner
        { GetChannelFaults.clean with posts := .query (.other "bad connection") } "ch" ∧
      (GetChannel parseNumeral soleOwner
        { GetChannelFaults.clean with posts := .query (.other "bad connection") } "ch").1 = none :=
  ⟨by decide,
    (GetChannel_all_or_nothing parseNumeral soleOwner .clean "ch").2.1.1 (by decide),
    by decide,
    by
      have h := (GetChannel_all_or_nothing parseNumeral soleOwner
        { GetChannelFaults.clean with posts := .query (.other "bad connection") } "ch").2.1
      exact Classical.not_not.1 (fun hne => absurd (h.1 hne) (by decide))⟩

/-- C15, at the failing input: zz is not a user; the admin insert is rejected
with 23503, `AddAdmin` on that state returns the sentinel `ErrAdminNotFound`,
and `AddChannel` returns the error `fmt.Errorf` builds from its text, not the
sentinel.  A connection failure in `ChangeOwner` is reported through the same
format (last part), or panics when it hits the first update (third part). -/
theorem AddChannel_missing_owner_wrapped :
    (AddChannel "5" soleOwner none none none none (Channel.basic "c2" "N" "D" "zz")).2 =
        .ret (none, some (.errorf "insertion of admin user failed because of: %s"
          .ErrAdminNotFound)) ∧
      (AddAdmin (AddChannel "5" soleOwner none none none none
          (Channel.basic "c2" "N" "D" "zz")).1 none "c2" "zz").2 =
        .ret (some .ErrAdminNotFound) ∧
      (AddChannel "5" soleOwner none none (some (.other "driver: bad connection")) none
          (Channel.basic "c2" "N" "D" "bo")).2 = .panic ∧
      (AddChannel "5" soleOwner none none none (some (.other "driver: bad connection"))
          (Channel.basic "c2" "N" "D" "bo")).2 =
        .ret (none, some (.errorf "insertion of admin user failed because of: %s"
          (.errorf "changing of owner failed because of: %s"
            (.raw (.other "driver: bad connection"))))) := by
  decide

/-- C16: `AddAdmin` returns nil exactly when the insert reports no error; when
the insert fails with a PostgreSQL error, code 23503 gives `ErrAdminNotFound`,
code 23505 gives `ErrAdminAlreadyExists`, and every other code gives the error
built by `fmt.Errorf`, which is neither of the two. -/
theorem AddAdmin_classifies (db : DB) (f : ExecFault) (channelUsername adminUsername : String) :
    ((AddAdmin db f channelUsername adminUsername).2 = .ret none ↔
        (dbExec f (insertAdmin channelUsername adminUsername false) db).2 = none) ∧
      (∀ code msg,
        (dbExec f (insertAdmin channelUsername adminUsername false) db).2 =
            some (.pqPointer code msg) →
          (code = "23503" →
            (AddAdmin db f channelUsername adminUsername).2 = .ret (some .ErrAdminNotFound)) ∧
          (code = "23505" →
            (AddAdmin db f channelUsername adminUsername).2 =
              .ret (some .ErrAdminAlreadyExists)) ∧
          (code ≠ "23503" → code ≠ "23505" →
            (AddAdmin db f channelUsername adminUsername).2 =
                .ret (some (.errorf "inserting into admins failed because of: %s "
                  (.raw (.pqPointer code msg)))) ∧
              RepoError.errorf "inserting into admins failed because of: %s "
                  (.raw (.pqPointer code msg)) ≠ .ErrAdminNotFound ∧
              RepoError.errorf "inserting into admins failed because of: %s "
                  (.raw (.pqPointer code msg)) ≠ .ErrAdminAlreadyExists)) := by
  rcases hx : dbExec f (insertAdmin channelUsername adminUsername false) db with ⟨d, _ | e⟩
  · simp [AddAdmin, hx]
  · refine ⟨?_, ?_⟩
    · cases e <;> simp only [AddAdmin, hx] <;> (try split_ifs) <;> simp
    · intro code msg h
      simp only [Option.some.injEq] at h
      subst h
      refine ⟨fun hc => by simp [AddAdmin, hx, hc], fun hc => by simp [AddAdmin, hx, hc],
        fun h1 h2 => by simp [AddAdmin, hx, h1, h2]⟩

/-- Instance of C16 in `soleOwner`: a new admin, a user that does not exist, an
admin that is already there, and a PostgreSQL error with another code. -/
theorem AddAdmin_classifies_witness :
    (AddAdmin soleOwner none "ch" "bo").2 = .ret none ∧
      (AddAdmin soleOwner none "ch" "zz").2 = .ret (some .ErrAdminNotFound) ∧
      (AddAdmin soleOwner none "ch" "al").2 = .ret (some .ErrAdminAlreadyExists) ∧
      (AddAdmin soleOwner (some (.pqPointer "53300" "pq: too many connections")) "ch" "bo").2 =
        .ret (some (.errorf "inserting into admins failed because of: %s "
          (.raw (.pqPointer "53300" "pq: too many connections")))) :=
  ⟨(AddAdmin_classifies soleOwner none "ch" "bo").1.2 (by decide),
    ((AddAdmin_classifies soleOwner none "ch" "zz").2 "23503" "pq: foreign key violation"
      (by decide)).1 rfl,
    ((AddAdmin_classifies soleOwner none "ch" "al").2 "23505" "pq: unique violation"
      (by decide)).2.1 rfl,
    (((AddAdmin_classifies soleOwner (some (.pqPointer "53300" "pq: too many connections"))
      "ch" "bo").2 "53300" "pq: too many connections" (by decide)).2.2
      (by decide) (by decide)).1⟩

/-- C17, at the failing inputs: when the database call returns an error that is
not a `*pq.Error` (a connection failure), the unchecked assertion
`err.(*pq.Error)` of `AddAdmin`, of the first update of `ChangeOwner` and of
`AddReleaseToOfficialCatalog` panics: no error value is returned. -/
theorem assertion_panics (db : DB) (msg : String) (f2 : ExecFault)
    (channelUsername username : String) (releaseID postID : Nat) :
    AddAdmin db (some (.other msg)) channelUsername username = (db, .panic) ∧
      ChangeOwner db (some (.other msg)) f2 channelUsername username = (db, .panic) ∧
      AddReleaseToOfficialCatalog db (some (.other msg)) channelUsername releaseID postID =
        (db, .panic) := by
  simp [AddAdmin, ChangeOwner, AddReleaseToOfficialCatalog, dbExec]

/-- C20, amended: for a post already in the channel's stickied list, `StickyPost`
hands back the storage state it was given; it returns nil when the list does
not have exactly two entries (the insert reaching storage), and
`ErrStickiedPostFull` when it has exactly two. -/
theorem StickyPost_again (db : DB) (fQuery : QueryFault) (channelUsername : String)
    (postID : Nat) (a : List Nat)
    (hget : GetStickiedPost db fQuery channelUsername = (a, none)) (hmem : postID ∈ a) :
    (a.length ≠ 2 → StickyPost db fQuery none channelUsername postID = (db, none)) ∧
      (a.length = 2 → ∀ fInsert,
        StickyPost db fQuery fInsert channelUsername postID =
          (db, some .ErrStickiedPostFull)) := by
  have hkey : stickyKeyTaken db postID := by
    rcases GetStickiedPost_cases db fQuery channelUsername with h | ⟨e, h⟩
    · rw [h] at hget
      simp only [Prod.mk.injEq, and_true] at hget
      subst hget
      simp only [selectStickied, List.mem_flatMap, List.mem_map] at hmem
      obtain ⟨s, hs, _, _, rfl⟩ := hmem
      exact hs
    · rw [h] at hget; simp at hget
  refine ⟨fun hlen => ?_, fun hlen fInsert => ?_⟩
  · simp [StickyPost, hget, hlen, dbExec, insertSticky, hkey]
  · simp [StickyPost, hget, hlen]

/-- Instance of the amended C20: re-stickying post 1 on channel B succeeds in
`oneSticky` and is refused in `stickyFull`. -/
theorem StickyPost_again_witness :
    StickyPost oneSticky .clean none "B" 1 = (oneSticky, none) ∧
      StickyPost stickyFull .clean none "B" 1 = (stickyFull, some .ErrStickiedPostFull) :=
  ⟨(StickyPost_again oneSticky .clean "B" 1 [1] (by decide) (by decide)).1 (by decide),
    (StickyPost_again stickyFull .clean "B" 1 [1, 2] (by decide) (by decide)).2 (by decide) none⟩

/-- C20, as stated, fails: post 1 is stickied on channel B of `stickyFull`, whose
stickied list has two entries, and `StickyPost "B" 1` returns
`ErrStickiedPostFull` instead of nil. -/
theorem StickyPost_again_full :
    GetStickiedPost stickyFull .clean "B" = ([1, 2], none) ∧
      StickyPost stickyFull .clean none "B" 1 = (stickyFull, some .ErrStickiedPostFull) := by
  decide

/-! ### Search -/

theorem searchLoop_clean (parseTime : String → Option Time) (db : DB)
    (fRows : Nat → RelationFaults) (hclean : ∀ i, fRows i = .clean)
    (rows : List (String × String × String × String)) (i : Nat) (acc : List Channel)
    (htime : ∀ row ∈ rows, (parseTime row.2.2.2).isSome) :
    searchLoop parseTime db fRows (rows.map Except.ok) i acc =
      .ok (acc ++ rows.map (assembleRow parseTime db)) := by
  induction rows generalizing i acc with
  | nil => simp [searchLoop]
  | cons row rest ih =>
    obtain ⟨u, n, d, t⟩ := row
    have hp := htime (u, n, d, t) (List.mem_cons_self _ _)
    obtain ⟨ct, hct⟩ := Option.isSome_iff_exists.1 hp
    simp only at hct
    have hrest : ∀ row ∈ rest, (parseTime row.2.2.2).isSome :=
      fun row hr => htime row (List.mem_cons_of_mem _ hr)
    simp only [List.map_cons, searchLoop, hct, hclean, RelationFaults.clean, GetAdmins_clean,
      GetOwner_clean, GetStickiedPost_clean, GetPosts_clean, GetUnOfficialRelease_clean,
      GetOfficialRelease_clean, GetPicture_clean, ih _ _ hrest]
    simp [assembleRow, hct]

theorem SearchChannels_clean (loc : Locale) (parseTime : String → Option Time) (db : DB)
    (pattern : String) (sortBy : SortBy) (sortOrder : SortOrder) (limit offset : Int)
    (rows : List ChannelRow)
    (hsel : (if pattern = "" then selectAllChannels loc parseTime db sortBy sortOrder limit offset
        else selectMatchingChannels loc db pattern limit offset) =
      .ok (rows.map searchColumns))
    (htime : ∀ r ∈ rows, (parseTime r.creation_time).isSome) :
    SearchChannels loc parseTime db .clean (fun _ => .clean) pattern sortBy sortOrder limit
        offset =
      (rows.map (fun r => assembleRow parseTime db (searchColumns r)), none) := by
  have h2 : ∀ row ∈ rows.map searchColumns, (parseTime row.2.2.2).isSome := by
    intro row hrow
    obtain ⟨r, hr, rfl⟩ := List.mem_map.1 hrow
    exact htime r hr
  simp only [SearchChannels, hsel, dbQueryStmt, dbQuery,
    searchLoop_clean _ _ _ (fun _ => rfl) _ _ _ h2]
  simp
theorem orderKeyLe_total (loc : Locale) (parseTime : String → Option Time) (sortBy : SortBy)
    (htotal : ∀ a b, loc.collate a b = true ∨ loc.collate b a = true) (a b : ChannelRow) :
    orderKeyLe loc parseTime sortBy a b = true ∨ orderKeyLe loc parseTime sortBy b a = true := by
  cases sortBy with
  | username => exact htotal _ _
  | name => exact htotal _ _
  | creationTime =>
    simp only [orderKeyLe]
    cases parseTime a.creation_time <;> cases parseTime b.creation_time <;>
      simp [Nat.le_total]

theorem orderKeyLe_trans (loc : Locale) (parseTime : String → Option Time) (sortBy : SortBy)
    (htrans : ∀ a b c, loc.collate a b = true → loc.collate b c = true →
      loc.collate a c = true) (a b c : ChannelRow)
    (hab : orderKeyLe loc parseTime sortBy a b = true)
    (hbc : orderKeyLe loc parseTime sortBy b c = true) :
    orderKeyLe loc parseTime sortBy a c = true := by
  cases sortBy with
  | username => exact htrans _ _ _ hab hbc
  | name => exact htrans _ _ _ hab hbc
  | creationTime =>
    simp only [orderKeyLe] at *
    cases ha : parseTime a.creation_time <;> cases hb : parseTime b.creation_time <;>
      cases hc : parseTime c.creation_time <;> simp_all
    exact Nat.le_trans hab hbc

theorem orderBy_sorted (loc : Locale) (parseTime : String → Option Time) (sortBy : SortBy)
    (sortOrder : SortOrder)
    (htotal : ∀ a b, loc.collate a b = true ∨ loc.collate b a = true)
    (htrans : ∀ a b c, loc.collate a b = true → loc.collate b c = true →
      loc.collate a c = true) (rows : List ChannelRow) :
    (orderBy loc parseTime sortBy sortOrder rows).Sorted
      (fun a b => inOrder loc parseTime sortBy sortOrder a b = true) := by
  haveI : IsTotal ChannelRow (fun a b => inOrder loc parseTime sortBy sortOrder a b = true) :=
    ⟨fun a b => by
      cases sortOrder with
      | ascending => exact orderKeyLe_total loc parseTime sortBy htotal a b
      | descending => exact orderKeyLe_total loc parseTime sortBy htotal b a⟩
  haveI : IsTrans ChannelRow (fun a b => inOrder loc parseTime sortBy sortOrder a b = true) :=
    ⟨fun a b c hab hbc => by
      cases sortOrder with
      | ascending => exact orderKeyLe_trans loc parseTime sortBy htrans a b c hab hbc
      | descending => exact orderKeyLe_trans loc parseTime sortBy htrans c b a hbc hab⟩
  exact List.sorted_insertionSort _ rows

theorem limitOffset_ok {α : Type} (limit offset : Int) (hlimit : 0 ≤ limit)
    (hoffset : 0 ≤ offset) (rows : List α) :
    limitOffset limit offset rows = .ok ((rows.drop offset.toNat).take limit.toNat) := by
  simp [limitOffset, not_lt.2 hlimit, not_lt.2 hoffset]

/-- C11: for the empty pattern, a non-negative limit and offset, and no failing
call, `SearchChannels` returns the channels at positions offset .. offset+limit-1
of the stored channels ordered by the sort key in the sort order (a sorted
permutation of all rows), which are min(limit, n - offset) channels. -/
theorem SearchChannels_all (loc : Locale) (parseTime : String → Option Time) (db : DB)
    (sortBy : SortBy) (sortOrder : SortOrder) (limit offset : Int)
    (hlimit : 0 ≤ limit) (hoffset : 0 ≤ offset)
    (htime : ∀ r ∈ db.channels, (parseTime r.creation_time).isSome)
    (htotal : ∀ a b, loc.collate a b = true ∨ loc.collate b a = true)
    (htrans : ∀ a b c, loc.collate a b = true → loc.collate b c = true →
      loc.collate a c = true) :
    (orderBy loc parseTime sortBy sortOrder db.channels).Perm db.channels ∧
    (orderBy loc parseTime sortBy sortOrder db.channels).Sorted
      (fun a b => inOrder loc parseTime sortBy sortOrder a b = true) ∧
    ∃ result,
      SearchChannels loc parseTime db .clean (fun _ => .clean) "" sortBy sortOrder limit
        offset = (result, none) ∧
      result.length = min limit.toNat (db.channels.length - offset.toNat) ∧
      result.map (fun c => (c.ChannelUsername, c.Name, c.Description)) =
        (((orderBy loc parseTime sortBy sortOrder db.channels).drop offset.toNat).take
          limit.toNat).map (fun r => (r.username, r.name, r.description.getD "")) := by
  have hperm : (orderBy loc parseTime sortBy sortOrder db.channels).Perm db.channels :=
    List.perm_insertionSort _ _
  refine ⟨hperm, orderBy_sorted loc parseTime sortBy sortOrder htotal htrans _, ?_⟩
  have hwin : ∀ r ∈ ((orderBy loc parseTime sortBy sortOrder db.channels).drop
      offset.toNat).take limit.toNat, (parseTime r.creation_time).isSome := by
    intro r hr
    exact htime r (hperm.mem_iff.1 (List.mem_of_mem_drop (List.mem_of_mem_take hr)))
  refine ⟨_, SearchChannels_clean loc parseTime db "" sortBy sortOrder limit offset _ ?_ hwin,
    ?_, ?_⟩
  · simp [selectAllChannels, limitOffset_ok limit offset hlimit hoffset, Except.map]
  · simp [List.length_take, List.length_drop, hperm.length_eq]
  · simp [assembleRow, searchColumns, Function.comp_def]
theorem leChars_total (a b : List Char) : leChars a b = true ∨ leChars b a = true := by
  induction a generalizing b with
  | nil => simp [leChars]
  | cons x xs ih =>
    cases b with
    | nil => simp [leChars]
    | cons y ys =>
      simp only [leChars]
      by_cases h1 : x.toNat < y.toNat
      · simp [h1]
      · by_cases h2 : y.toNat < x.toNat
        · simp [h2]
        · simpa [h1, h2] using ih ys

theorem leChars_trans (a b c : List Char) (hab : leChars a b = true)
    (hbc : leChars b c = true) : leChars a c = true := by
  induction a generalizing b c with
  | nil => simp [leChars]
  | cons x xs ih =>
    cases b with
    | nil => simp [leChars] at hab
    | cons y ys =>
      cases c with
      | nil => simp [leChars] at hbc
      | cons z zs =>
        simp only [leChars] at hab hbc ⊢
        by_cases h1 : x.toNat < y.toNat
        · by_cases h2 : y.toNat < z.toNat
          · have : x.toNat < z.toNat := by omega
            simp [this]
          · by_cases h3 : z.toNat < y.toNat
            · simp [h2, h3] at hbc
            · have : x.toNat < z.toNat := by omega
              simp [this]
        · by_cases h4 : y.toNat < x.toNat
          · simp [h1, h4] at hab
          · simp only [h1, h4, if_false] at hab
            by_cases h2 : y.toNat < z.toNat
            · have : x.toNat < z.toNat := by omega
              simp [this]
            · by_cases h3 : z.toNat < y.toNat
              · simp [h2, h3] at hbc
              · simp only [h2, h3, if_false] at hbc
                have e1 : ¬ x.toNat < z.toNat := by omega
                have e2 : ¬ z.toNat < x.toNat := by omega
                simpa [e1, e2] using ih ys zs hab hbc

/-- Instance of C11: of the five channels of `fiveChannels`, the search by
creation time, descending, with limit 2 and offset 0 returns the two created
last, the newest first. -/
theorem SearchChannels_all_witness :
    (SearchChannels codePoints parseNumeral fiveChannels .clean (fun _ => .clean) ""
        .creationTime .descending 2 0).1.map (fun c => c.ChannelUsername) = ["aa", "bb"] ∧
      ∃ result,
        SearchChannels codePoints parseNumeral fiveChannels .clean (fun _ => .clean) ""
          .creationTime .descending 2 0 = (result, none) ∧
        result.length = min (2 : Int).toNat (fiveChannels.channels.length - (0 : Int).toNat) ∧
        result.map (fun c => (c.ChannelUsername, c.Name, c.Description)) =
          (((orderBy codePoints parseNumeral .creationTime .descending
            fiveChannels.channels).drop (0 : Int).toNat).take (2 : Int).toNat).map
            (fun r => (r.username, r.name, r.description.getD "")) :=
  ⟨by decide,
    (SearchChannels_all codePoints parseNumeral fiveChannels .creationTime .descending 2 0
      (by decide) (by decide) (by decide) (fun a b => leChars_total a.data b.data)
      (fun a b c => leChars_trans a.data b.data c.data)).2.2⟩
theorem likeTokens_percent (rest : List Char) :
    likeTokens ('%' :: rest) = LikeToken.anySeq :: likeTokens rest := by
  rw [likeTokens.eq_def]; simp

theorem likeTokens_lit (c : Char) (rest : List Char) (h1 : c ≠ '%') (h2 : c ≠ '_')
    (h3 : c ≠ '\\') : likeTokens (c :: rest) = LikeToken.lit c :: likeTokens rest := by
  rw [likeTokens.eq_def]; simp [h1, h2, h3]

theorem likeTokens_plain (p rest : List Char)
    (hp : ∀ c ∈ p, c ≠ '%' ∧ c ≠ '_' ∧ c ≠ '\\') :
    likeTokens (p ++ rest) = p.map LikeToken.lit ++ likeTokens rest := by
  induction p with
  | nil => rfl
  | cons c cs ih =>
    obtain ⟨h1, h2, h3⟩ := hp c (List.mem_cons_self _ _)
    have hcs : ∀ c ∈ cs, c ≠ '%' ∧ c ≠ '_' ∧ c ≠ '\\' :=
      fun c hc => hp c (List.mem_cons_of_mem _ hc)
    simp [likeTokens_lit c _ h1 h2 h3, ih hcs]

theorem matchTokens_lits (fold : Char → Char) (p s : List Char) :
    matchTokens fold (p.map LikeToken.lit ++ [LikeToken.anySeq]) s = true ↔
      p.map fold <+: s.map fold := by
  induction p generalizing s with
  | nil =>
    simp only [List.map_nil, List.nil_append, matchTokens, List.any_eq_true, List.nil_prefix,
      iff_true]
    exact ⟨[], by simp, rfl⟩
  | cons c cs ih =>
    cases s with
    | nil => simp [matchTokens]
    | cons d ds =>
      simp only [List.map_cons, List.cons_append, matchTokens, Bool.and_eq_true,
        decide_eq_true_eq, List.append_eq, ih ds, List.cons_prefix_cons]

theorem tails_prefix_iff_infix {α : Type} (p s : List α) :
    (∃ t ∈ s.tails, p <+: t) ↔ p <:+: s := by
  constructor
  · rintro ⟨t, ht, hp⟩
    exact List.IsInfix.trans hp.isInfix ((List.mem_tails _ _).1 ht).isInfix
  · intro h
    obtain ⟨t, hpt, hts⟩ := List.infix_iff_prefix_suffix.1 h
    exact ⟨t, (List.mem_tails _ _).2 hts, hpt⟩

theorem ilikeAround_plain (loc : Locale) (pattern text : String)
    (hp : plainPattern pattern) :
    ilikeAround loc pattern text = true ↔ containsFold loc.fold pattern text := by
  unfold ilikeAround containsFold
  have htok : likeTokens ('%' :: pattern.data ++ ['%']) =
      LikeToken.anySeq :: (pattern.data.map LikeToken.lit ++ [LikeToken.anySeq]) := by
    have := likeTokens_plain pattern.data ['%'] hp
    rw [List.cons_append, likeTokens_percent, this, likeTokens_percent]
    rfl
  rw [htok]
  simp only [matchTokens, List.any_eq_true, matchTokens_lits]
  rw [← tails_prefix_iff_infix]
  constructor
  · rintro ⟨t, ht, hpre⟩
    exact ⟨t.map loc.fold, (List.mem_tails _ _).2 (((List.mem_tails _ _).1 ht).map _), hpre⟩
  · rintro ⟨t, ht, hpre⟩
    obtain ⟨u, hu⟩ := (List.mem_tails _ _).1 ht
    obtain ⟨l1, l2, hl, h1, h2⟩ := List.map_eq_append_iff.1 hu.symm
    exact ⟨l2, (List.mem_tails _ _).2 ⟨l1, hl.symm⟩, by rw [h2]; exact hpre⟩
theorem likeTokens_underscore (rest : List Char) :
    likeTokens ('_' :: rest) = LikeToken.anyChar :: likeTokens rest := by
  rw [likeTokens.eq_def]; simp

theorem matchTokens_anySeq_of_tail (fold : Char → Char) (ts : List LikeToken)
    (skipped s : List Char) (h : matchTokens fold ts s = true) :
    matchTokens fold (LikeToken.anySeq :: ts) (skipped ++ s) = true := by
  simp only [matchTokens, List.any_eq_true]
  exact ⟨s, (List.mem_tails _ _).2 (List.suffix_append _ _), h⟩

theorem matchTokens_same_text (fold : Char → Char) (p m post : List Char)
    (hescape : '\\' ∉ p) (hm : m.map fold = p.map fold) :
    matchTokens fold (likeTokens (p ++ ['%'])) (m ++ post) = true := by
  induction p generalizing m with
  | nil =>
    have hnil : m = [] := by simpa using hm
    subst hnil
    rw [List.nil_append, likeTokens_percent]
    have := matchTokens_anySeq_of_tail fold (likeTokens []) post [] (by simp [likeTokens, matchTokens])
    simpa using this
  | cons c cs ih =>
    cases m with
    | nil => simp at hm
    | cons d ds =>
      have hd : fold d = fold c := by simpa using (List.cons.inj hm).1
      have hds : ds.map fold = cs.map fold := by simpa using (List.cons.inj hm).2
      have hc : c ≠ '\\' := fun e => hescape (by simp [e])
      have hcs : '\\' ∉ cs := fun e => hescape (List.mem_cons_of_mem _ e)
      have hrest := ih ds hcs hds
      by_cases h1 : c = '%'
      · subst h1
        rw [List.cons_append, likeTokens_percent]
        exact matchTokens_anySeq_of_tail fold _ [d] (ds ++ post) hrest
      · by_cases h2 : c = '_'
        · subst h2
          rw [List.cons_append, likeTokens_underscore]
          simpa [matchTokens] using hrest
        · rw [List.cons_append, likeTokens_lit c _ h1 h2 hc]
          simp [matchTokens, hd, hrest]

theorem ilikeAround_of_contains (loc : Locale) (pattern text : String)
    (hescape : '\\' ∉ pattern.data) (h : containsFold loc.fold pattern text) :
    ilikeAround loc pattern text = true := by
  unfold containsFold at h
  obtain ⟨pre, post, hcat⟩ := h
  obtain ⟨front, l3, hfront, hfm, hl3⟩ := List.map_eq_append_iff.1 hcat.symm
  obtain ⟨l1, l2, hl12, hl1, hl2⟩ := List.map_eq_append_iff.1 hfm
  unfold ilikeAround
  rw [List.cons_append, likeTokens_percent, hfront, hl12, List.append_assoc]
  exact matchTokens_anySeq_of_tail loc.fold _ l1 (l2 ++ l3)
    (matchTokens_same_text loc.fold pattern.data l2 l3 hescape hl2)

/-- C12, amended: for a non-empty pattern, a non-negative limit and offset, and
no failing call, `SearchChannels` returns, in storage order and cut to the
window of limit and offset, the stored channels the `ilike` test of the query
selects.  When the pattern has no backslash (it may have `%` and `_`), every
stored channel whose username or name contains the pattern as a
case-insensitive substring is among the selected ones.  When the pattern has
none of `%`, `_` and backslash, the selected channels are exactly those, and
every channel returned has that property. -/
theorem SearchChannels_pattern (loc : Locale) (parseTime : String → Option Time) (db : DB)
    (pattern : String) (sortBy : SortBy) (sortOrder : SortOrder) (limit offset : Int)
    (hne : pattern ≠ "") (hlimit : 0 ≤ limit) (hoffset : 0 ≤ offset)
    (htime : ∀ r ∈ db.channels, (parseTime r.creation_time).isSome) :
    ((SearchChannels loc parseTime db .clean (fun _ => .clean) pattern sortBy sortOrder limit
        offset).2 = none ∧
      (SearchChannels loc parseTime db .clean (fun _ => .clean) pattern sortBy sortOrder limit
        offset).1.map (fun c => (c.ChannelUsername, c.Name)) =
        (((db.channels.filter (fun r =>
            ilikeAround loc pattern r.username || ilikeAround loc pattern r.name)).drop
          offset.toNat).take limit.toNat).map (fun r => (r.username, r.name))) ∧
    ('\\' ∉ pattern.data →
      (db.channels.filter (fun r =>
          decide (containsFold loc.fold pattern r.username ∨
            containsFold loc.fold pattern r.name))).Sublist
        (db.channels.filter (fun r =>
          ilikeAround loc pattern r.username || ilikeAround loc pattern r.name))) ∧
    (plainPattern pattern →
      db.channels.filter (fun r =>
          ilikeAround loc pattern r.username || ilikeAround loc pattern r.name) =
        db.channels.filter (fun r =>
          decide (containsFold loc.fold pattern r.username ∨
            containsFold loc.fold pattern r.name)) ∧
      ∀ c ∈ (SearchChannels loc parseTime db .clean (fun _ => .clean) pattern sortBy sortOrder
          limit offset).1,
        containsFold loc.fold pattern c.ChannelUsername ∨
          containsFold loc.fold pattern c.Name) := by
  have hwin : ∀ r ∈ ((db.channels.filter (fun r =>
      ilikeAround loc pattern r.username || ilikeAround loc pattern r.name)).drop
      offset.toNat).take limit.toNat,
      (parseTime r.creation_time).isSome ∧
        (ilikeAround loc pattern r.username || ilikeAround loc pattern r.name) = true := by
    intro r hr
    have hmem := List.mem_filter.1 (List.mem_of_mem_drop (List.mem_of_mem_take hr))
    exact ⟨htime r hmem.1, hmem.2⟩
  have hrun := SearchChannels_clean loc parseTime db pattern sortBy sortOrder limit offset
    (((db.channels.filter (fun r =>
      ilikeAround loc pattern r.username || ilikeAround loc pattern r.name)).drop
      offset.toNat).take limit.toNat)
    (by simp [hne, selectMatchingChannels, limitOffset_ok limit offset hlimit hoffset,
      Except.map])
    (fun r hr => (hwin r hr).1)
  refine ⟨⟨by rw [hrun], by rw [hrun]; simp [assembleRow, searchColumns, Function.comp_def]⟩,
    fun hescape => ?_, fun hplain => ⟨?_, ?_⟩⟩
  · have himp : db.channels.filter (fun r =>
        decide (containsFold loc.fold pattern r.username ∨
          containsFold loc.fold pattern r.name)) =
        (db.channels.filter (fun r =>
          ilikeAround loc pattern r.username || ilikeAround loc pattern r.name)).filter
          (fun r => decide (containsFold loc.fold pattern r.username ∨
            containsFold loc.fold pattern r.name)) := by
      rw [List.filter_filter]
      apply List.filter_congr
      intro r _
      by_cases hc : containsFold loc.fold pattern r.username ∨
          containsFold loc.fold pattern r.name
      · rcases hc with hu | hn
        · simp [hu, ilikeAround_of_contains loc pattern _ hescape hu]
        · simp [hn, ilikeAround_of_contains loc pattern _ hescape hn]
      · simp [hc]
    rw [himp]
    exact List.filter_sublist _
  · apply List.filter_congr
    intro r _
    rw [Bool.eq_iff_iff]
    simp [ilikeAround_plain loc pattern _ hplain]
  · intro c hc
    rw [hrun] at hc
    obtain ⟨r, hr, rfl⟩ := List.mem_map.1 hc
    have hsel := (hwin r hr).2
    simpa [assembleRow, searchColumns, ilikeAround_plain loc pattern _ hplain] using hsel

/-- Instance of the amended C12: in `markedChannels` the pattern `x_` returns the
channel x_y, which contains it; in `fiveChannels` the pattern LT selects exactly
the channels that contain it, and what is returned contains it. -/
theorem SearchChannels_pattern_witness :
    (SearchChannels codePoints parseNumeral markedChannels .clean (fun _ => .clean) "x_"
        .username .ascending 10 0).1.map (fun c => c.ChannelUsername) = ["x_y"] ∧
      (markedChannels.channels.filter (fun r =>
          decide (containsFold codePoints.fold "x_" r.username ∨
            containsFold codePoints.fold "x_" r.name))).Sublist
        (markedChannels.channels.filter (fun r =>
          ilikeAround codePoints "x_" r.username || ilikeAround codePoints "x_" r.name)) ∧
      (fiveChannels.channels.filter (fun r =>
          ilikeAround codePoints "LT" r.username || ilikeAround codePoints "LT" r.name) =
        fiveChannels.channels.filter (fun r =>
          decide (containsFold codePoints.fold "LT" r.username ∨
            containsFold codePoints.fold "LT" r.name)) ∧
      ∀ c ∈ (SearchChannels codePoints parseNumeral fiveChannels .clean (fun _ => .clean) "LT"
          .username .ascending 10 0).1,
        containsFold codePoints.fold "LT" c.ChannelUsername ∨
          containsFold codePoints.fold "LT" c.Name) :=
  ⟨by decide,
    (SearchChannels_pattern codePoints parseNumeral markedChannels "x_" .username .ascending
      10 0 (by decide) (by decide) (by decide) (by decide)).2.1 (by decide),
    (SearchChannels_pattern codePoints parseNumeral fiveChannels "LT" .username .ascending
      10 0 (by decide) (by decide) (by decide) (by decide)).2.2 (by decide)⟩

/-- C12, as stated, fails in both halves.  The pattern `_` is read as the
wildcard for one character, and the search returns the channel cc named Gamma,
neither of which contains an underscore.  The pattern a, backslash, b is read as
the letters a and b: the search returns the channel ab, which does not contain
the pattern, and leaves out the channel zz, whose name is the pattern itself. -/
theorem SearchChannels_wildcard :
    ((SearchChannels codePoints parseNumeral fiveChannels .clean (fun _ => .clean) "_"
        .username .ascending 1 0).1.map (fun c => (c.ChannelUsername, c.Name)) =
        [("cc", "Gamma")] ∧
      ¬ containsFold codePoints.fold "_" "cc" ∧ ¬ containsFold codePoints.fold "_" "Gamma") ∧
    ((SearchChannels codePoints parseNumeral markedChannels .clean (fun _ => .clean) "a\\b"
        .username .ascending 10 0).1.map (fun c => (c.ChannelUsername, c.Name)) =
        [("ab", "plain")] ∧
      ¬ containsFold codePoints.fold "a\\b" "ab" ∧
      ¬ containsFold codePoints.fold "a\\b" "plain" ∧
      containsFold codePoints.fold "a\\b" "a\\b" ∧
      (⟨"zz", "a\\b", none, "20"⟩ : ChannelRow) ∈ markedChannels.channels) := by
  decide

/-- C13, at the failing input: for the pattern a and the sort by username, the
search returns the matching channels in storage order, cc before aa, whether
ascending or descending is asked for; the query of the non-empty pattern has no
`ORDER BY`, unlike that of the empty pattern (third part). -/
theorem SearchChannels_pattern_unordered :
    (SearchChannels codePoints parseNumeral fiveChannels .clean (fun _ => .clean) "a"
        .username .ascending 10 0).1.map (fun c => c.ChannelUsername) =
        ["cc", "aa", "bb", "dd"] ∧
      (SearchChannels codePoints parseNumeral fiveChannels .clean (fun _ => .clean) "a"
        .username .descending 10 0).1.map (fun c => c.ChannelUsername) =
        ["cc", "aa", "bb", "dd"] ∧
      (SearchChannels codePoints parseNumeral fiveChannels .clean (fun _ => .clean) ""
        .username .ascending 10 0).1.map (fun c => c.ChannelUsername) =
        ["aa", "bb", "cc", "dd", "ee"] ∧
      inOrder codePoints parseNumeral .username .ascending
        ⟨"cc", "Gamma", none, "30"⟩ ⟨"aa", "Alpha", none, "50"⟩ = false := by
  decide

/-- C21, at the failing input: the channel of `withPicture` has a picture stored;
`AddPicture "ch" "new.png"` returns new.png and nil, the conflict branch of the
statement sets the image name to its first parameter, the channel name, and
`GetPicture "ch"` then returns ch.  For a channel without a stored picture the
round trip holds (last part). -/
theorem AddPicture_again_stores_channel_name :
    GetPicture withPicture .clean "ch" = ("old.png", none) ∧
      (AddPicture withPicture none "ch" "new.png").2 = ("new.png", none) ∧
      GetPicture (AddPicture withPicture none "ch" "new.png").1 .clean "ch" = ("ch", none) ∧
      (AddPicture soleOwner none "ch" "new.png").2 = ("new.png", none) ∧
      GetPicture (AddPicture soleOwner none "ch" "new.png").1 .clean "ch" =
        ("new.png", none) := by
  decide

/-- C28, at the failing inputs: channel B of `oneSticky` has one stickied post.
When the insert of post 2 fails at the connection, or with a PostgreSQL error
other than a foreign-key violation, `StickyPost` returns `ErrPostNotFound`, as
it does for the foreign-key violation of the absent post 9; the error built by
`fmt.Errorf` is returned for no insert failure. -/
theorem StickyPost_every_failure_not_found :
    GetStickiedPost oneSticky .clean "B" = ([1], none) ∧
      StickyPost oneSticky .clean (some (.other "driver: bad connection")) "B" 2 =
        (oneSticky, some .ErrPostNotFound) ∧
      StickyPost oneSticky .clean (some (.pqPointer "53300" "pq: too many connections")) "B" 2 =
        (oneSticky, some .ErrPostNotFound) ∧
      StickyPost oneSticky .clean none "B" 9 = (oneSticky, some .ErrPostNotFound) ∧
      (StickyPost oneSticky .clean none "B" 2).2 = none := by
  decide

/-- C29, at the failing input: post 1 is a stickied post of channel B of
`stickyFull` and not of channel A; `DeleteStickiedPost "A" 1` returns nil and
removes it, so the stickied list of B changes from 1, 2 to 2. -/
theorem DeleteStickiedPost_other_channel :
    GetStickiedPost stickyFull .clean "A" = ([], none) ∧
      GetStickiedPost stickyFull .clean "B" = ([1, 2], none) ∧
      (DeleteStickiedPost stickyFull none "A" 1).2 = none ∧
      GetStickiedPost (DeleteStickiedPost stickyFull none "A" 1).1 .clean "B" =
        ([2], none) := by
  decide

end ChannelRepo

namespace Rest

/-! ## Properties of the handlers -/

theorem readPage_ok (raw name : String) (absent v : Int) (data : Data) (statusCode : Nat)
    (h : pageParameter raw absent = some v) :
    readPage raw name absent data statusCode = (v, data, statusCode) := by
  unfold pageParameter at h
  unfold readPage
  by_cases h1 : raw = ""
  · simp only [h1, if_true, Option.some.injEq] at h
    simp [h1, h]
  · cases ha : atoi raw with
    | none => simp [h1, ha] at h
    | some n =>
      by_cases hn : 0 ≤ n
      · simp only [h1, ha, hn, if_true, if_false, Option.some.injEq] at h
        simp [h1, ha, ← h, not_lt.2 hn]
      · simp [h1, ha, hn] at h

theorem readPage_refused (raw name : String) (absent : Int) (data : Data) (statusCode : Nat)
    (h : pageParameter raw absent = none) :
    (readPage raw name absent data statusCode).2 =
      (.fail name ("bad request, " ++ name ++ " can't be negative"), 400) := by
  unfold pageParameter at h
  unfold readPage
  by_cases h1 : raw = ""
  · simp [h1] at h
  · cases ha : atoi raw with
    | none => simp [h1, ha]
    | some n =>
      by_cases hn : 0 ≤ n
      · simp [h1, ha, hn] at h
      · simp [h1, ha, lt_of_not_le hn]

theorem readPaging_ok (r : Request) (l o : Int)
    (hl : pageParameter (r.query "limit") 25 = some l)
    (ho : pageParameter (r.query "offset") 0 = some o) :
    readPaging r .nil 200 = (l, o, .nil, 200) := by
  simp [readPaging, readPage_ok _ "limit" _ _ _ _ hl, readPage_ok _ "offset" _ _ _ _ ho]

theorem readPaging_refused (r : Request)
    (h : pageParameter (r.query "limit") 25 = none ∨
      pageParameter (r.query "offset") 0 = none) :
    ∃ reason message, (readPaging r .nil 200).2.2 = (.fail reason message, 400) := by
  cases ho : pageParameter (r.query "offset") 0 with
  | none =>
    exact ⟨_, _, by
      simp only [readPaging]
      exact readPage_refused _ "offset" _ _ _ ho⟩
  | some o =>
    rcases h with hl | h
    · exact ⟨_, _, by
        simp only [readPaging, readPage_ok _ "offset" _ _ _ _ ho]
        exact readPage_refused _ "limit" 25 .nil 200 hl⟩
    · rw [ho] at h; cases h

/-- C14: in `getComments` and `getCommentReplies` (the path id being an integer)
and in `getUsers`, when each of `limit` and `offset` is empty or a non-negative
integer the listing operation is the one call made, with the parsed limit (25
when empty) and the parsed offset (0 when empty); otherwise no service operation
is invoked and the reply is 400 with status "fail" and a fail body. -/
theorem paging_guards_listing (s : Setup) (pathEscape : String → String) (r : Request) :
    (∀ postID, atoi ((r.vars "postID").getD "") = some postID →
      (∀ l o, pageParameter (r.query "limit") 25 = some l →
        pageParameter (r.query "offset") 0 = some o →
        (getComments s r).calls =
          [.GetComments postID .SortByCreationTime .SortDescending l o]) ∧
      (pageParameter (r.query "limit") 25 = none ∨
          pageParameter (r.query "offset") 0 = none →
        (getComments s r).calls = [] ∧
          ∃ reason message,
            (getComments s r).reply = .written ⟨"fail", .fail reason message, ""⟩ 400)) ∧
    (∀ commentID, atoi ((r.vars "commentID").getD "") = some commentID →
      (∀ l o, pageParameter (r.query "limit") 25 = some l →
        pageParameter (r.query "offset") 0 = some o →
        (getCommentReplies s r).calls =
          [.GetReplies commentID .SortByCreationTime .SortDescending l o]) ∧
      (pageParameter (r.query "limit") 25 = none ∨
          pageParameter (r.query "offset") 0 = none →
        (getCommentReplies s r).calls = [] ∧
          ∃ reason message,
            (getCommentReplies s r).reply =
              .written ⟨"fail", .fail reason message, ""⟩ 400)) ∧
    ((∀ l o, pageParameter (r.query "limit") 25 = some l →
        pageParameter (r.query "offset") 0 = some o →
        (getUsers s pathEscape r).calls =
          [.SearchUser (r.query "pattern") (readSort (r.query "sort")).1
            (readSort (r.query "sort")).2 l o]) ∧
      (pageParameter (r.query "limit") 25 = none ∨
          pageParameter (r.query "offset") 0 = none →
        (getUsers s pathEscape r).calls = [] ∧
          ∃ reason message,
            (getUsers s pathEscape r).reply =
              .written ⟨"fail", .fail reason message, ""⟩ 400)) := by
  refine ⟨fun postID hid => ⟨fun l o hl ho => ?_, fun h => ?_⟩,
    fun commentID hid => ⟨fun l o hl ho => ?_, fun h => ?_⟩, fun l o hl ho => ?_, fun h => ?_⟩
  · simp only [getComments, hid, readPaging_ok r l o hl ho, if_true]
    split <;> rfl
  · obtain ⟨reason, message, hr⟩ := readPaging_refused r h
    refine ⟨?_, reason, message, ?_⟩ <;>
      simp [getComments, hid, hr, failResponse]
  · simp only [getCommentReplies, hid, readPaging_ok r l o hl ho, if_true]
    split <;> rfl
  · obtain ⟨reason, message, hr⟩ := readPaging_refused r h
    refine ⟨?_, reason, message, ?_⟩ <;>
      simp [getCommentReplies, hid, hr, failResponse]
  · simp only [getUsers, readPaging_ok r l o hl ho, if_true]
    split <;> rfl
  · obtain ⟨reason, message, hr⟩ := readPaging_refused r h
    refine ⟨?_, reason, message, ?_⟩ <;>
      simp [getUsers, hr, failResponse]

/-- C18, at the failing inputs: when `AddUser` returns `ErrInvalidUserData`,
`postUser` invokes `DeleteUser` and replies 500 with status "error"; when
`UpdateUser` returns `ErrUserNotFound`, `putUser` does the same.  The switch of
`putUser` has the case for `ErrInvalidUserData` (400, no `DeleteUser`) that the
switch of `postUser` lacks (third part). -/
theorem postUser_invalid_data_compensates :
    postUser (setupOf (userServiceReturning (some jane) (some .ErrInvalidUserData))) postJane =
        ⟨[.AddUser jane, .DeleteUser "janedoe"],
          .written ⟨"error", .nil, "server error when adding user"⟩ 500⟩ ∧
      putUser (setupOf (userServiceReturning (some jane) (some .ErrUserNotFound))) putJane =
        ⟨[.UpdateUser jane "janedoe", .DeleteUser "janedoe"],
          .written ⟨"error", .nil, "server error when updating user"⟩ 500⟩ ∧
      putUser (setupOf (userServiceReturning (some jane) (some .ErrInvalidUserData))) putJane =
        ⟨[.UpdateUser jane "janedoe"],
          .written ⟨"fail", .fail "request" "user must have email & password to be created",
            ""⟩ 400⟩ := by
  decide

/-- C19, at the failing inputs: when `AddUser` returns a nil user with
`ErrSomeUserDataNotPersisted` (or with any other unclassified error), `postUser`
panics on `u.Username` before `DeleteUser` is invoked; `u` is the pointer
`AddUser` returned, so when that user has another username than the submitted
one, `DeleteUser` gets the returned username (third part). -/
theorem postUser_nil_user_panics :
    postUser (setupOf (userServiceReturning none (some .ErrSomeUserDataNotPersisted)))
        postJane = ⟨[.AddUser jane], .panic⟩ ∧
      postUser (setupOf (userServiceReturning none (some (.other "connection refused"))))
        postJane = ⟨[.AddUser jane], .panic⟩ ∧
      postUser (setupOf (userServiceReturning (some { jane with Username := "" })
          (some .ErrSomeUserDataNotPersisted))) postJane =
        ⟨[.AddUser jane, .DeleteUser ""],
          .written ⟨"error", .nil, "server error when adding user"⟩ 500⟩ := by
  decide

/-- Instance of C14: `limit=5` reaches `GetComments` with limit 5 and offset 0,
`limit=-5` reaches no operation, and `offset=3` reaches `SearchUser` with limit
25 and offset 3. -/
theorem paging_guards_listing_witness :
    (getComments (setupOf (userServiceReturning none none))
        (requestOf [("postID", "7")] [("limit", "5")] [] [] none)).calls =
        [.GetComments 7 .SortByCreationTime .SortDescending 5 0] ∧
      (getComments (setupOf (userServiceReturning none none))
        (requestOf [("postID", "7")] [("limit", "-5")] [] [] none)).calls = [] ∧
      (getUsers (setupOf (userServiceReturning none none)) id
        (requestOf [] [("offset", "3")] [] [] none)).calls =
        [.SearchUser "" .SortCreationTime .SortDescending 25 3] :=
  ⟨((paging_guards_listing (setupOf (userServiceReturning none none)) id
      (requestOf [("postID", "7")] [("limit", "5")] [] [] none)).1 7 (by decide)).1 5 0
      (by decide) (by decide),
    (((paging_guards_listing (setupOf (userServiceReturning none none)) id
      (requestOf [("postID", "7")] [("limit", "-5")] [] [] none)).1 7 (by decide)).2
      (Or.inl (by decide))).1,
    (paging_guards_listing (setupOf (userServiceReturning none none)) id
      (requestOf [] [("offset", "3")] [] [] none)).2.2.1 25 3 (by decide) (by decide)⟩

/-! ### Users: who may update and what others see -/

/-- C22, counterexample: when nobody has the path username, a requester with
another name is not turned away and `UpdateUser` is invoked. -/
theorem putUser_unknown_user_not_blocked :
    putUser (setupOf (userServiceOf [])) janeByMallory =
      ⟨[.GetUser "janedoe", .UpdateUser jane "janedoe"],
        .written ⟨"success", .user jane, ""⟩ 200⟩ := by
  decide

/-- C22, as the code has it: a requester other than the path user is answered
401, with no call after `GetUser`, when `GetUser` finds the path user;
`UpdateUser` is invoked with no username but that of the path; and a body with
data to update reaches `UpdateUser` when the requester is the path user, and
also when `GetUser` answers `ErrUserNotFound` for the path username. -/
theorem putUser_blocks_other_users (s : Setup) (r : Request) :
    ((r.vars "username").getD "" ≠ r.header "authorized_username" →
      (s.UserService.GetUser ((r.vars "username").getD "")).2 = none →
      putUser s r = ⟨[.GetUser ((r.vars "username").getD "")], .header 401⟩) ∧
    (∀ v n, Call.UpdateUser v n ∈ (putUser s r).calls → n = (r.vars "username").getD "") ∧
    (∀ decoded,
      (r.vars "username").getD "" = r.header "authorized_username" ∨
        (s.UserService.GetUser ((r.vars "username").getD "")).2 = some .ErrUserNotFound →
      r.jsonUser User.zero = some decoded →
      ¬ ((sanitizeUser s decoded).FirstName = "" ∧ (sanitizeUser s decoded).Username = "" ∧
        (sanitizeUser s decoded).Bio = "" ∧ (sanitizeUser s decoded).Email = "" ∧
        (sanitizeUser s decoded).LastName = "" ∧ (sanitizeUser s decoded).MiddleName = "" ∧
        (sanitizeUser s decoded).Password = "") →
      Call.UpdateUser (sanitizeUser s decoded) ((r.vars "username").getD "") ∈
        (putUser s r).calls) := by
  refine ⟨fun hne hget => ?_, fun v n hmem => ?_, fun decoded hreq hbody hdata => ?_⟩
  · simp [putUser, hne, hget]
  · by_cases hguard : (r.vars "username").getD "" ≠ r.header "authorized_username" ∧
        (s.UserService.GetUser ((r.vars "username").getD "")).2 = none
    · simp [putUser, hguard.1, hguard.2] at hmem
    · simp only [putUser, if_neg hguard] at hmem
      split at hmem
      · split at hmem <;> simp at hmem
      · split at hmem
        · split at hmem <;> simp at hmem
        · split at hmem <;> simp at hmem <;> (try split at hmem) <;> simp_all
  · have hguard : ¬ ((r.vars "username").getD "" ≠ r.header "authorized_username" ∧
        (s.UserService.GetUser ((r.vars "username").getD "")).2 = none) := by
      rintro ⟨hne, hnone⟩
      rcases hreq with heq | hmissing
      · exact hne heq
      · rw [hnone] at hmissing
        cases hmissing
    simp only [putUser, if_neg hguard, hbody, if_neg hdata]
    split <;> (try split) <;> simp

/-- Instance of C22: mallory's update of the stored user janedoe is answered 401
after `GetUser` alone; janedoe's own update reaches `UpdateUser` for her
username, and so does mallory's when nobody is stored under that username. -/
theorem putUser_blocks_other_users_witness :
    putUser (setupOf (userServiceOf [jane])) janeByMallory =
        ⟨[.GetUser "janedoe"], .header 401⟩ ∧
      Call.UpdateUser jane "janedoe" ∈ (putUser (setupOf (userServiceOf [jane])) putJane).calls ∧
      Call.UpdateUser jane "janedoe" ∈
        (putUser (setupOf (userServiceOf [])) janeByMallory).calls ∧
      ("janedoe" : String) = "janedoe" :=
  ⟨(putUser_blocks_other_users (setupOf (userServiceOf [jane])) janeByMallory).1
      (by decide) (by decide),
    (putUser_blocks_other_users (setupOf (userServiceOf [jane])) putJane).2.2 jane
      (Or.inl (by decide)) (by decide) (by decide),
    (putUser_blocks_other_users (setupOf (userServiceOf [])) janeByMallory).2.2 jane
      (Or.inr (by decide)) (by decide) (by decide),
    (putUser_blocks_other_users (setupOf (userServiceOf [jane])) putJane).2.1 jane "janedoe"
      (by decide)⟩

/-- When `GetUser` fails for another reason than a missing user, `putUser` lets
the update of another requester through as well, whereas `getUser` answers such
a failure with 500. -/
theorem putUser_lookup_failure_not_blocked :
    putUser (setupOf userServiceDown) janeByMallory =
        ⟨[.GetUser "janedoe", .UpdateUser jane "janedoe"],
          .written ⟨"success", .user jane, ""⟩ 200⟩ ∧
      getUser (setupOf userServiceDown) id janeByMallory =
        ⟨[.GetUser "janedoe"],
          .written ⟨"error", .nil, "server error when fetching user"⟩ 500⟩ := by
  decide

theorem listedUser_withoutPrivate (s : Setup) (pathEscape : String → String) (u : User) :
    listedUser s pathEscape (withoutPrivate u) = listedUser s pathEscape u := rfl

theorem listedUser_congr (s s2 : Setup) (pathEscape : String → String) (u1 u2 : User)
    (hhost : s2.HostAddress = s.HostAddress)
    (hroute : s2.ImageServingRoute = s.ImageServingRoute)
    (h : withoutPrivate u1 = withoutPrivate u2) :
    listedUser s pathEscape u1 = listedUser s2 pathEscape u2 := by
  rw [← listedUser_withoutPrivate s pathEscape u1, ← listedUser_withoutPrivate s2 pathEscape u2,
    h]
  simp only [listedUser, hhost, hroute]

theorem getUser_third_party (s : Setup) (pathEscape : String → String) (r : Request) (u : User)
    (hne : (r.vars "username").getD "" ≠ r.header "authorized_username")
    (hget : s.UserService.GetUser ((r.vars "username").getD "") = (some u, none)) :
    getUser s pathEscape r =
      ⟨[.GetUser ((r.vars "username").getD "")],
        .written ⟨"success", .user (listedUser s pathEscape u), ""⟩ 200⟩ := by
  simp only [getUser, hget, if_pos hne, listedUser]
  by_cases hp : u.PictureURL = "" <;> simp [hp]

/-- C23: when the path username is not the authorized one and `GetUser` finds
the user, `getUser` answers "success" with a user whose email is empty and whose
bookmarks are empty; every user in a listing written by `getUsers` has an empty
email and empty bookmarks; and under two setups with the same address and image
route whose stored users differ in nothing but email and bookmarks, both
handlers give the same outcome. -/
theorem third_party_sees_no_private_data (s : Setup) (pathEscape : String → String)
    (r : Request) :
    (∀ u, (r.vars "username").getD "" ≠ r.header "authorized_username" →
      s.UserService.GetUser ((r.vars "username").getD "") = (some u, none) →
      ∃ v, getUser s pathEscape r =
          ⟨[.GetUser ((r.vars "username").getD "")],
            .written ⟨"success", .user v, ""⟩ 200⟩ ∧
        v.Email = "" ∧ v.BookmarkedPosts = []) ∧
    (∀ status users message code,
      (getUsers s pathEscape r).reply = .written ⟨status, .users users, message⟩ code →
      ∀ v ∈ users, v.Email = "" ∧ v.BookmarkedPosts = []) ∧
    (∀ s2 : Setup, s2.HostAddress = s.HostAddress →
      s2.ImageServingRoute = s.ImageServingRoute →
      (∀ u1 u2, (r.vars "username").getD "" ≠ r.header "authorized_username" →
        s.UserService.GetUser ((r.vars "username").getD "") = (some u1, none) →
        s2.UserService.GetUser ((r.vars "username").getD "") = (some u2, none) →
        withoutPrivate u1 = withoutPrivate u2 →
        getUser s pathEscape r = getUser s2 pathEscape r) ∧
      (∀ users1 users2 err,
        s.UserService.SearchUser (r.query "pattern") (readSort (r.query "sort")).1
          (readSort (r.query "sort")).2 (readPaging r .nil 200).1 (readPaging r .nil 200).2.1 =
          (users1, err) →
        s2.UserService.SearchUser (r.query "pattern") (readSort (r.query "sort")).1
          (readSort (r.query "sort")).2 (readPaging r .nil 200).1 (readPaging r .nil 200).2.1 =
          (users2, err) →
        users1.map withoutPrivate = users2.map withoutPrivate →
        getUsers s pathEscape r = getUsers s2 pathEscape r)) := by
  refine ⟨fun u hne hget => ⟨listedUser s pathEscape u,
      getUser_third_party s pathEscape r u hne hget, rfl, rfl⟩, ?_, ?_⟩
  · intro status users message code hreply v hv
    simp only [getUsers] at hreply
    split at hreply
    · split at hreply
      · simp at hreply
      · simp only [Reply.written.injEq, jSendResponse.mk.injEq, Data.users.injEq] at hreply
        obtain ⟨⟨-, hu, -⟩, -⟩ := hreply
        subst hu
        obtain ⟨w, -, rfl⟩ := List.mem_map.mp hv
        exact ⟨rfl, rfl⟩
    · simp only [Reply.written.injEq, jSendResponse.mk.injEq] at hreply
      rcases hl : pageParameter (r.query "limit") 25 with _ | l
      · obtain ⟨reason, message, hr⟩ := readPaging_refused r (Or.inl hl)
        simp [hr] at hreply
      · rcases ho : pageParameter (r.query "offset") 0 with _ | o
        · obtain ⟨reason, message, hr⟩ := readPaging_refused r (Or.inr ho)
          simp [hr] at hreply
        · simp [readPaging_ok r l o hl ho] at hreply
  · intro s2 hhost hroute
    refine ⟨fun u1 u2 hne h1 h2 hsame => ?_, fun users1 users2 err hs1 hs2 hsame => ?_⟩
    · rw [getUser_third_party s pathEscape r u1 hne h1,
        getUser_third_party s2 pathEscape r u2 hne h2,
        listedUser_congr s s2 pathEscape u1 u2 hhost hroute hsame]
    · have hmap : users1.map (listedUser s pathEscape) = users2.map (listedUser s2 pathEscape) := by
        have e1 : users1.map (listedUser s pathEscape) =
            (users1.map withoutPrivate).map (listedUser s pathEscape) := by
          rw [List.map_map]; rfl
        have e2 : users2.map (listedUser s2 pathEscape) =
            (users2.map withoutPrivate).map (listedUser s2 pathEscape) := by
          rw [List.map_map]; rfl
        rw [e1, e2, hsame]
        apply List.map_congr_left
        intro a _
        exact listedUser_congr s s2 pathEscape a a hhost hroute rfl
      simp only [getUsers, hs1, hs2]
      cases err <;> simp [hmap]

/-- Instance of C23: mallory fetching janedoe gets her without email and
bookmarks, and gets the same outcome, from `getUser` and from `getUsers`, when
janedoe is stored with another email and a bookmark. -/
theorem third_party_sees_no_private_data_witness :
    (∃ v, getUser (setupOf (userServiceOf [jane])) id janeByMallory =
        ⟨[.GetUser "janedoe"], .written ⟨"success", .user v, ""⟩ 200⟩ ∧
      v.Email = "" ∧ v.BookmarkedPosts = []) ∧
    getUser (setupOf (userServiceOf [jane])) id janeByMallory =
      getUser (setupOf (userServiceOf [janeElsewhere])) id janeByMallory ∧
    getUsers (setupOf (userServiceOf [jane])) id janeByMallory =
      getUsers (setupOf (userServiceOf [janeElsewhere])) id janeByMallory :=
  ⟨(third_party_sees_no_private_data (setupOf (userServiceOf [jane])) id janeByMallory).1 jane
      (by decide) (by decide),
    ((third_party_sees_no_private_data (setupOf (userServiceOf [jane])) id janeByMallory).2.2
      (setupOf (userServiceOf [janeElsewhere])) rfl rfl).1 jane janeElsewhere
      (by decide) (by decide) (by decide) (by decide),
    ((third_party_sees_no_private_data (setupOf (userServiceOf [jane])) id janeByMallory).2.2
      (setupOf (userServiceOf [janeElsewhere])) rfl rfl).2 [jane] [janeElsewhere] none
      (by decide) (by decide) (by decide)⟩

/-! ### Users: required fields and sorting -/

theorem requiredFields_nil_iff (u : User) :
    requiredFields u = .nil ↔
      u.FirstName ≠ "" ∧ u.Password ≠ "" ∧
        5 ≤ u.Username.utf8ByteSize ∧ u.Username.utf8ByteSize ≤ 22 := by
  by_cases hu : u.Username = ""
  · simp [requiredFields, hu, String.utf8ByteSize]
  · by_cases hlen : u.Username.utf8ByteSize > 22 ∨ u.Username.utf8ByteSize < 5
    · simp only [requiredFields, hu, hlen, if_true, if_false]
      constructor
      · intro h; cases h
      · intro h; omega
    · simp only [requiredFields, hu, hlen, if_false]
      by_cases hp : u.Password = "" <;> by_cases hf : u.FirstName = "" <;>
        simp [hp, hf]
      omega

/-- C24, at the failing input: a username of 3 characters in 6 bytes passes the
length check and reaches `AddUser`, and a username of 12 characters in 24 bytes
is refused with 400. -/
theorem postUser_counts_bytes :
    ("ééé".length = 3 ∧
      (postUser (setupOf (userServiceOf []))
        (requestOf [] [] [("username", "ééé"), ("password", "secret"), ("firstName", "Jane")]
          [] none)).calls =
        [.AddUser { User.zero with Username := "ééé", Password := "secret", FirstName := "Jane" }]) ∧
    ("éééééééééééé".length = 12 ∧
      postUser (setupOf (userServiceOf []))
        (requestOf [] [] [("username", "éééééééééééé"), ("password", "secret"),
          ("firstName", "Jane")] [] none) =
        ⟨[], .written ⟨"fail", .fail "username"
          "username length shouldn't be shorter that 5 and longer than 22 chars", ""⟩ 400⟩) := by
  decide

theorem splitUnderscore_plain (cs : List Char) (h : '_' ∉ cs) :
    splitUnderscore cs = [cs] := by
  induction cs with
  | nil => rfl
  | cons c rest ih =>
    have hc : c ≠ '_' := fun e => h (by simp [e])
    have hrest : '_' ∉ rest := fun e => h (List.mem_cons_of_mem _ e)
    simp [splitUnderscore, hc, ih hrest]

theorem splitUnderscore_append (ks os : List Char) (h : '_' ∉ ks) :
    splitUnderscore (ks ++ '_' :: os) = ks :: splitUnderscore os := by
  induction ks with
  | nil => simp [splitUnderscore]
  | cons c rest ih =>
    have hc : c ≠ '_' := fun e => h (by simp [e])
    have hrest : '_' ∉ rest := fun e => h (List.mem_cons_of_mem _ e)
    simp [splitUnderscore, hc, ih hrest]

theorem sortKey_described (key : String) :
    (match some key with
      | some "username" => (UserSortBy.SortByUsername, UserSortOrder.SortAscending)
      | some "firstname" => (UserSortBy.SortByFirstName, UserSortOrder.SortAscending)
      | some "lastname" => (UserSortBy.SortByLastName, UserSortOrder.SortAscending)
      | _ => (UserSortBy.SortCreationTime, UserSortOrder.SortDescending)) =
      describedSort key none := by
  by_cases h1 : key = "username"
  · subst h1; rfl
  by_cases h2 : key = "firstname"
  · subst h2; rfl
  by_cases h3 : key = "lastname"
  · subst h3; rfl
  simp only [describedSort, h1, h2, h3, if_false, or_self]
  split <;> simp_all

theorem readSort_key (key : String) (h : '_' ∉ key.data) :
    readSort key = describedSort key none := by
  have hk : String.mk key.data = key := rfl
  simp only [readSort, splitUnderscore_plain key.data h, List.map, hk, List.head?,
    List.length_singleton, sortKey_described]
  simp

theorem readSort_key_order (key order : String) (hkey : '_' ∉ key.data)
    (horder : '_' ∉ order.data) :
    readSort (key ++ "_" ++ order) = describedSort key (some order) := by
  have hk : String.mk key.data = key := rfl
  have ho : String.mk order.data = order := rfl
  have hd : (key ++ "_" ++ order).data = key.data ++ '_' :: order.data := by
    simp [String.data_append]
  have hfst : (describedSort key none).1 = (describedSort key (some order)).1 := rfl
  simp only [readSort, hd, splitUnderscore_append key.data order.data hkey,
    splitUnderscore_plain order.data horder, List.map, hk, ho, List.head?, List.tail,
    List.length, sortKey_described, hfst]
  by_cases hdsc : order = "dsc"
  · subst hdsc; rfl
  · simp only [describedSort, hdsc, if_false]
    split <;> simp_all

/-- C30: for a key and an order part without an underscore (and paging
parameters that are accepted), `getUsers` passes to `SearchUser` the sort key
and order of the description: for the value `key` the sort of the key with its
default order, for the value `key_order` the sort of the key with the order
descending when the part is "dsc" and ascending otherwise. -/
theorem getUsers_sort_as_described (s : Setup) (pathEscape : String → String) (r : Request)
    (key order : String) (l o : Int) (hkey : '_' ∉ key.data) (horder : '_' ∉ order.data)
    (hl : pageParameter (r.query "limit") 25 = some l)
    (ho : pageParameter (r.query "offset") 0 = some o) :
    (readSort key = describedSort key none ∧
      readSort (key ++ "_" ++ order) = describedSort key (some order)) ∧
    (r.query "sort" = key →
      (getUsers s pathEscape r).calls =
        [.SearchUser (r.query "pattern") (describedSort key none).1
          (describedSort key none).2 l o]) ∧
    (r.query "sort" = key ++ "_" ++ order →
      (getUsers s pathEscape r).calls =
        [.SearchUser (r.query "pattern") (describedSort key (some order)).1
          (describedSort key (some order)).2 l o]) := by
  refine ⟨⟨readSort_key key hkey, readSort_key_order key order hkey horder⟩,
    fun hs => ?_, fun hs => ?_⟩
  · simp only [getUsers, readPaging_ok r l o hl ho, if_true, hs, readSort_key key hkey]
    split <;> rfl
  · simp only [getUsers, readPaging_ok r l o hl ho, if_true, hs,
      readSort_key_order key order hkey horder]
    split <;> rfl

/-- Instance of C30: `sort=firstname` searches by first name ascending,
`sort=firstname_dsc` by first name descending, `sort=` by creation time
descending and `sort=_asc` by creation time ascending. -/
theorem getUsers_sort_as_described_witness :
    (getUsers (setupOf (userServiceOf [])) id
        (requestOf [] [("sort", "firstname")] [] [] none)).calls =
        [.SearchUser "" .SortByFirstName .SortAscending 25 0] ∧
      (getUsers (setupOf (userServiceOf [])) id
        (requestOf [] [("sort", "firstname_dsc")] [] [] none)).calls =
        [.SearchUser "" .SortByFirstName .SortDescending 25 0] ∧
      (getUsers (setupOf (userServiceOf [])) id
        (requestOf [] [] [] [] none)).calls =
        [.SearchUser "" .SortCreationTime .SortDescending 25 0] ∧
      (getUsers (setupOf (userServiceOf [])) id
        (requestOf [] [("sort", "_asc")] [] [] none)).calls =
        [.SearchUser "" .SortCreationTime .SortAscending 25 0] :=
  ⟨(getUsers_sort_as_described (setupOf (userServiceOf [])) id
      (requestOf [] [("sort", "firstname")] [] [] none) "firstname" "dsc" 25 0
      (by decide) (by decide) (by decide) (by decide)).2.1 (by decide),
    (getUsers_sort_as_described (setupOf (userServiceOf [])) id
      (requestOf [] [("sort", "firstname_dsc")] [] [] none) "firstname" "dsc" 25 0
      (by decide) (by decide) (by decide) (by decide)).2.2 (by decide),
    (getUsers_sort_as_described (setupOf (userServiceOf [])) id
      (requestOf [] [] [] [] none) "" "asc" 25 0
      (by decide) (by decide) (by decide) (by decide)).2.1 (by decide),
    (getUsers_sort_as_described (setupOf (userServiceOf [])) id
      (requestOf [] [("sort", "_asc")] [] [] none) "" "asc" 25 0
      (by decide) (by decide) (by decide) (by decide)).2.2 (by decide)⟩

/-! ### Comments -/

/-- The integer next to an error of `strconv.Atoi`: 0 for a text that is not a
number, the nearest `int` for a number out of range, also when the digits leave
the 64-bit range before a character that is not a digit. -/
theorem atoiFailed_values :
    atoiFailed "abc" = 0 ∧ atoiFailed "" = 0 ∧ atoiFailed "-" = 0 ∧ atoiFailed "12x" = 0 ∧
      atoiFailed "9223372036854775808" = 2 ^ 63 - 1 ∧
      atoiFailed "-9223372036854775809" = -(2 ^ 63) ∧
      atoiFailed "9999999999999999999abc" = 0 ∧
      atoiFailed "99999999999999999999abc" = 2 ^ 63 - 1 ∧
      atoiFailed "-99999999999999999999abc" = -(2 ^ 63) := by
  decide

/-- C25, at the failing input: on the reply route, a form without `replyTo`
reaches `AddComment` with `ReplyTo` -1, while the same comment as JSON reaches
it with the `commentID` of the path. -/
theorem postComment_form_reply_loses_parent :
    (postComment (commentSetupOf (commentServiceOf []))
        (commentRequestOf [("postID", "3"), ("commentID", "7")]
          [("commenter", "janedoe"), ("content", "hello")]
          [("authorized_username", "janedoe")] (fun _ => none))).calls =
      [.AddComment ⟨0, 3, "janedoe", "hello", -1⟩] ∧
    (postComment (commentSetupOf (commentServiceOf []))
        (commentRequestOf [("postID", "3"), ("commentID", "7")] []
          [("authorized_username", "janedoe")] helloBody)).calls =
      [.AddComment ⟨0, 3, "janedoe", "hello", 7⟩] := by
  decide

/-- C26, at the failing input: with an id that is not an integer, `deleteComment`
fetches and deletes the comment of id 0 and answers "success", and `patchComment`
fetches the comment of id 0 before it answers; `getComment` invokes nothing. -/
theorem deleteComment_bad_id_deletes_zero :
    deleteComment (commentSetupOf (commentServiceOf [commentZero]))
        (commentRequestOf [("postID", "3"), ("commentID", "abc")] []
          [("authorized_username", "janedoe")] (fun _ => none)) =
      ⟨[.GetComment 0, .DeleteComment 0],
        .written ⟨"success", .fail "commentID" "invalid commentID/replyID abc", ""⟩ 400⟩ ∧
    patchComment (commentSetupOf (commentServiceOf []))
        (commentRequestOf [("postID", "3"), ("commentID", "abc")] [("content", "hello")]
          [("authorized_username", "janedoe")] (fun _ => none)) =
      ⟨[.GetComment 0], .header 404⟩ ∧
    patchComment (commentSetupOf (commentServiceOf [commentZero]))
        (commentRequestOf [("postID", "3"), ("commentID", "abc")] [("content", "hello")]
          [("authorized_username", "janedoe")] (fun _ => none)) =
      ⟨[.GetComment 0],
        .written ⟨"fail", .fail "commentID" "invalid commentID/replyID abc", ""⟩ 400⟩ ∧
    getComment (commentSetupOf (commentServiceOf [commentZero]))
        (commentRequestOf [("postID", "3"), ("commentID", "abc")] []
          [("authorized_username", "janedoe")] (fun _ => none)) =
      ⟨[], .written ⟨"fail", .fail "commentID" "invalid commentID/replyID abc", ""⟩ 400⟩ := by
  decide

/-- C27: `postComment` invokes `AddComment` only when the commenter read from the
request is the authorized user and the sanitized content is not empty, and the
comment it passes has the authorized user as commenter; when the path and the
body are read without a failure, another commenter is answered 401 with no
service call, and an empty sanitized content is answered 400 with the failure
"content" and no service call. -/
theorem postComment_adds_only_authorized_content (s : Setup) (r : Request) :
    (∀ c, Call.AddComment c ∈ (postComment s r).calls →
      (commentFromBody r (commentFromPath r).1).1.Commenter = r.header "authorized_username" ∧
        (sanitizeComment s (commentFromBody r (commentFromPath r).1).1).Content ≠ "" ∧
        c.Commenter = r.header "authorized_username") ∧
    ((commentFromPath r).2.1 = .nil → (commentFromBody r (commentFromPath r).1).2.1 = .nil →
      ((commentFromBody r (commentFromPath r).1).1.Commenter ≠ r.header "authorized_username" →
        postComment s r = ⟨[], .header 401⟩) ∧
      ((commentFromBody r (commentFromPath r).1).1.Commenter = r.header "authorized_username" →
        (sanitizeComment s (commentFromBody r (commentFromPath r).1).1).Content = "" →
        postComment s r =
          ⟨[], .written ⟨"fail", .fail "content" "content is required", ""⟩ 400⟩)) := by
  constructor
  · intro c hmem
    simp only [postComment] at hmem
    split at hmem
    · split at hmem
      · split at hmem
        · simp at hmem
        · rename_i hc
          split at hmem
          · simp at hmem
          · rename_i hcontent
            have hadd : c = { sanitizeComment s (commentFromBody r (commentFromPath r).1).1 with
                Commenter := r.header "authorized_username" } := by
              split at hmem <;> (try split at hmem) <;> simpa using hmem
            refine ⟨by simpa using hc, by simpa using hcontent, ?_⟩
            rw [hadd]
      · simp at hmem
    · simp at hmem
  · intro hpath hbody
    refine ⟨fun hne => ?_, fun heq hempty => ?_⟩
    · simp only [postComment, hpath, hbody, if_true, if_pos hne]
    · have hnot : ¬ (commentFromBody r (commentFromPath r).1).1.Commenter ≠
          r.header "authorized_username" := fun h => h heq
      simp only [postComment, hpath, hbody, if_true, if_neg hnot, hempty]

/-- Instance of C27: a comment sent for janedoe by mallory is answered 401, one
by janedoe with no content is answered 400, both without a service call, and
one by janedoe with content reaches `AddComment` under her name. -/
theorem postComment_adds_only_authorized_content_witness :
    postComment (commentSetupOf (commentServiceOf []))
        (commentRequestOf [("postID", "3")] [("commenter", "janedoe"), ("content", "hello")]
          [("authorized_username", "mallory")] (fun _ => none)) = ⟨[], .header 401⟩ ∧
      postComment (commentSetupOf (commentServiceOf []))
        (commentRequestOf [("postID", "3")] [("commenter", "janedoe")]
          [("authorized_username", "janedoe")] (fun _ => none)) =
        ⟨[], .written ⟨"fail", .fail "content" "content is required", ""⟩ 400⟩ ∧
      (("janedoe" : String) = "janedoe" ∧ ("hello" : String) ≠ "" ∧
        (Comment.mk 0 3 "janedoe" "hello" (-1)).Commenter = "janedoe") :=
  ⟨((postComment_adds_only_authorized_content (commentSetupOf (commentServiceOf []))
      (commentRequestOf [("postID", "3")] [("commenter", "janedoe"), ("content", "hello")]
        [("authorized_username", "mallory")] (fun _ => none))).2 (by decide) (by decide)).1
      (by decide),
    ((postComment_adds_only_authorized_content (commentSetupOf (commentServiceOf []))
      (commentRequestOf [("postID", "3")] [("commenter", "janedoe")]
        [("authorized_username", "janedoe")] (fun _ => none))).2 (by decide) (by decide)).2
      (by decide) (by decide),
    (postComment_adds_only_authorized_content (commentSetupOf (commentServiceOf []))
      (commentRequestOf [("postID", "3")] [("commenter", "janedoe"), ("content", "hello")]
        [("authorized_username", "janedoe")] (fun _ => none))).1 ⟨0, 3, "janedoe", "hello", -1⟩
      (by decide)⟩

end Rest
